import Mathlib

/-!
# OQS provider: capability registry and codepoint overrides

A shallow embedding of `oqsprov/oqsprov_capabilities.c` (descriptor tables,
`oqs_patch_codepoints`, the two capability enumerators and the dispatcher
`oqs_provider_get_capabilities`) and of the function `test_oqs_kems` of
`test/oqs_test_kems.c`, together with the properties proved about them.

Conventions of the embedding:

* `unsigned int` fields are `Nat` (kept below `2 ^ 32` by `to_uint`), `int` fields are `Int`;
* the two mutable global arrays form the state `Tables`, passed explicitly;
* the process environment is a function `String → Option String` (the result of `getenv`);
* preprocessor symbols are a predicate `String → Bool` telling which ones are defined;
* a pointer stored in an `OSSL_PARAM` is kept symbolic (`Slot`, row index) and dereferenced
  when the record is handed to the callback;
* the callback is a state-passing function; the enumerators return, next to the C return
  value, the final callback state and the list of invocations they made; a second form of the
  dispatcher threads the two arrays through the callback, which may store through the data
  pointers it is handed;
* the library functions called by the test harness are parameters (`Library`); the harness
  returns, next to the C return value, its local buffers and the list of steps it took.
-/

namespace OqsProvider

/-! ## Descriptor tables -/

/-- Value of `TLS1_3_VERSION` in the OpenSSL headers. -/
def TLS1_3_VERSION : Int := 0x0304

/-- Row type of `oqs_group_list` (`struct oqs_group_constants_st`). -/
structure OQS_GROUP_CONSTANTS where
  group_id : Nat
  group_id_ecp_hyb : Nat
  group_id_ecx_hyb : Nat
  secbits : Nat
  mintls : Int
  maxtls : Int
  mindtls : Int
  maxdtls : Int
  is_kem : Int
  deriving DecidableEq, Repr, Inhabited

/-- Compiled-in contents of `oqs_group_list`. -/
def oqs_group_list : List OQS_GROUP_CONSTANTS := [
  { group_id := 0x0200, group_id_ecp_hyb := 0x2F00, group_id_ecx_hyb := 0x2F80, secbits := 128,
    mintls := TLS1_3_VERSION, maxtls := 0, mindtls := -1, maxdtls := -1, is_kem := 1 },
  { group_id := 0x0201, group_id_ecp_hyb := 0x2F01, group_id_ecx_hyb := 0x2F81, secbits := 128,
    mintls := TLS1_3_VERSION, maxtls := 0, mindtls := -1, maxdtls := -1, is_kem := 1 },
  { group_id := 0x0202, group_id_ecp_hyb := 0x2F02, group_id_ecx_hyb := 0x2F82, secbits := 192,
    mintls := TLS1_3_VERSION, maxtls := 0, mindtls := -1, maxdtls := -1, is_kem := 1 },
  { group_id := 0x0203, group_id_ecp_hyb := 0x2F03, group_id_ecx_hyb := 0x2F83, secbits := 192,
    mintls := TLS1_3_VERSION, maxtls := 0, mindtls := -1, maxdtls := -1, is_kem := 1 },
  { group_id := 0x0204, group_id_ecp_hyb := 0x2F04, group_id_ecx_hyb := 0, secbits := 256,
    mintls := TLS1_3_VERSION, maxtls := 0, mindtls := -1, maxdtls := -1, is_kem := 1 },
  { group_id := 0x0205, group_id_ecp_hyb := 0x2F05, group_id_ecx_hyb := 0, secbits := 256,
    mintls := TLS1_3_VERSION, maxtls := 0, mindtls := -1, maxdtls := -1, is_kem := 1 },
  { group_id := 0x023A, group_id_ecp_hyb := 0x2F3A, group_id_ecx_hyb := 0x2F39, secbits := 128,
    mintls := TLS1_3_VERSION, maxtls := 0, mindtls := -1, maxdtls := -1, is_kem := 1 },
  { group_id := 0x023C, group_id_ecp_hyb := 0x2F3C, group_id_ecx_hyb := 0x2F90, secbits := 192,
    mintls := TLS1_3_VERSION, maxtls := 0, mindtls := -1, maxdtls := -1, is_kem := 1 },
  { group_id := 0x023D, group_id_ecp_hyb := 0x2F3D, group_id_ecx_hyb := 0, secbits := 256,
    mintls := TLS1_3_VERSION, maxtls := 0, mindtls := -1, maxdtls := -1, is_kem := 1 },
  { group_id := 0x0241, group_id_ecp_hyb := 0x2F41, group_id_ecx_hyb := 0x2FAE, secbits := 128,
    mintls := TLS1_3_VERSION, maxtls := 0, mindtls := -1, maxdtls := -1, is_kem := 1 },
  { group_id := 0x0242, group_id_ecp_hyb := 0x2F42, group_id_ecx_hyb := 0x2FAF, secbits := 192,
    mintls := TLS1_3_VERSION, maxtls := 0, mindtls := -1, maxdtls := -1, is_kem := 1 },
  { group_id := 0x0243, group_id_ecp_hyb := 0x2F43, group_id_ecx_hyb := 0, secbits := 256,
    mintls := TLS1_3_VERSION, maxtls := 0, mindtls := -1, maxdtls := -1, is_kem := 1 },
  { group_id := 0x023E, group_id_ecp_hyb := 0x2F3E, group_id_ecx_hyb := 0x2FA9, secbits := 128,
    mintls := TLS1_3_VERSION, maxtls := 0, mindtls := -1, maxdtls := -1, is_kem := 1 },
  { group_id := 0x023F, group_id_ecp_hyb := 0x2F3F, group_id_ecx_hyb := 0x2FAA, secbits := 192,
    mintls := TLS1_3_VERSION, maxtls := 0, mindtls := -1, maxdtls := -1, is_kem := 1 },
  { group_id := 0x0240, group_id_ecp_hyb := 0x2F40, group_id_ecx_hyb := 0, secbits := 256,
    mintls := TLS1_3_VERSION, maxtls := 0, mindtls := -1, maxdtls := -1, is_kem := 1 },
  { group_id := 0x022C, group_id_ecp_hyb := 0x2F2C, group_id_ecx_hyb := 0x2FAC, secbits := 128,
    mintls := TLS1_3_VERSION, maxtls := 0, mindtls := -1, maxdtls := -1, is_kem := 1 },
  { group_id := 0x022D, group_id_ecp_hyb := 0x2F2D, group_id_ecx_hyb := 0x2FAD, secbits := 192,
    mintls := TLS1_3_VERSION, maxtls := 0, mindtls := -1, maxdtls := -1, is_kem := 1 },
  { group_id := 0x022E, group_id_ecp_hyb := 0x2F2E, group_id_ecx_hyb := 0, secbits := 256,
    mintls := TLS1_3_VERSION, maxtls := 0, mindtls := -1, maxdtls := -1, is_kem := 1 }
]

/-- Row type of `oqs_sigalg_list` (`struct oqs_sigalg_constants_st`). -/
structure OQS_SIGALG_CONSTANTS where
  code_point : Nat
  secbits : Nat
  mintls : Int
  maxtls : Int
  deriving DecidableEq, Repr, Inhabited

/-- Compiled-in contents of `oqs_sigalg_list`. -/
def oqs_sigalg_list : List OQS_SIGALG_CONSTANTS := [
  { code_point := 0xfea0, secbits := 128, mintls := TLS1_3_VERSION, maxtls := 0 },
  { code_point := 0xfea1, secbits := 128, mintls := TLS1_3_VERSION, maxtls := 0 },
  { code_point := 0xfea2, secbits := 128, mintls := TLS1_3_VERSION, maxtls := 0 },
  { code_point := 0xfea3, secbits := 192, mintls := TLS1_3_VERSION, maxtls := 0 },
  { code_point := 0xfea4, secbits := 192, mintls := TLS1_3_VERSION, maxtls := 0 },
  { code_point := 0xfea5, secbits := 256, mintls := TLS1_3_VERSION, maxtls := 0 },
  { code_point := 0xfea6, secbits := 256, mintls := TLS1_3_VERSION, maxtls := 0 },
  { code_point := 0xfea7, secbits := 128, mintls := TLS1_3_VERSION, maxtls := 0 },
  { code_point := 0xfea8, secbits := 128, mintls := TLS1_3_VERSION, maxtls := 0 },
  { code_point := 0xfea9, secbits := 128, mintls := TLS1_3_VERSION, maxtls := 0 },
  { code_point := 0xfeaa, secbits := 192, mintls := TLS1_3_VERSION, maxtls := 0 },
  { code_point := 0xfeab, secbits := 192, mintls := TLS1_3_VERSION, maxtls := 0 },
  { code_point := 0xfeac, secbits := 256, mintls := TLS1_3_VERSION, maxtls := 0 },
  { code_point := 0xfead, secbits := 256, mintls := TLS1_3_VERSION, maxtls := 0 },
  { code_point := 0xfeae, secbits := 128, mintls := TLS1_3_VERSION, maxtls := 0 },
  { code_point := 0xfeaf, secbits := 128, mintls := TLS1_3_VERSION, maxtls := 0 },
  { code_point := 0xfeb0, secbits := 128, mintls := TLS1_3_VERSION, maxtls := 0 },
  { code_point := 0xfeb1, secbits := 256, mintls := TLS1_3_VERSION, maxtls := 0 },
  { code_point := 0xfeb2, secbits := 256, mintls := TLS1_3_VERSION, maxtls := 0 },
  { code_point := 0xfe42, secbits := 128, mintls := TLS1_3_VERSION, maxtls := 0 },
  { code_point := 0xfe43, secbits := 128, mintls := TLS1_3_VERSION, maxtls := 0 },
  { code_point := 0xfe44, secbits := 128, mintls := TLS1_3_VERSION, maxtls := 0 },
  { code_point := 0xfe45, secbits := 128, mintls := TLS1_3_VERSION, maxtls := 0 },
  { code_point := 0xfe46, secbits := 128, mintls := TLS1_3_VERSION, maxtls := 0 },
  { code_point := 0xfe47, secbits := 128, mintls := TLS1_3_VERSION, maxtls := 0 },
  { code_point := 0xfe5e, secbits := 128, mintls := TLS1_3_VERSION, maxtls := 0 },
  { code_point := 0xfe5f, secbits := 128, mintls := TLS1_3_VERSION, maxtls := 0 },
  { code_point := 0xfe60, secbits := 128, mintls := TLS1_3_VERSION, maxtls := 0 },
  { code_point := 0xfe67, secbits := 128, mintls := TLS1_3_VERSION, maxtls := 0 },
  { code_point := 0xfe68, secbits := 128, mintls := TLS1_3_VERSION, maxtls := 0 },
  { code_point := 0xfe69, secbits := 128, mintls := TLS1_3_VERSION, maxtls := 0 },
  { code_point := 0xfe7d, secbits := 128, mintls := TLS1_3_VERSION, maxtls := 0 },
  { code_point := 0xfe7e, secbits := 128, mintls := TLS1_3_VERSION, maxtls := 0 },
  { code_point := 0xfe7f, secbits := 128, mintls := TLS1_3_VERSION, maxtls := 0 }
]

/-- The two mutable global arrays of the translation unit. -/
structure Tables where
  oqs_group_list : List OQS_GROUP_CONSTANTS
  oqs_sigalg_list : List OQS_SIGALG_CONSTANTS
  deriving DecidableEq, Repr

/-- State of the globals at program start. -/
def initial_tables : Tables :=
  { oqs_group_list := oqs_group_list, oqs_sigalg_list := oqs_sigalg_list }

/-- An lvalue holding a codepoint: `oqs_group_list[idx].group_id`,
`oqs_group_list[idx].group_id_ecp_hyb`, `oqs_group_list[idx].group_id_ecx_hyb` or
`oqs_sigalg_list[idx].code_point`. -/
inductive Slot where
  | group_id (idx : Nat)
  | group_id_ecp_hyb (idx : Nat)
  | group_id_ecx_hyb (idx : Nat)
  | code_point (idx : Nat)
  deriving DecidableEq, Repr

/-- Read the `unsigned int` stored in a slot. -/
def Tables.load (t : Tables) : Slot → Nat
  | .group_id i => (t.oqs_group_list.getD i default).group_id
  | .group_id_ecp_hyb i => (t.oqs_group_list.getD i default).group_id_ecp_hyb
  | .group_id_ecx_hyb i => (t.oqs_group_list.getD i default).group_id_ecx_hyb
  | .code_point i => (t.oqs_sigalg_list.getD i default).code_point

/-- Assignment `slot = v`. -/
def Tables.store (t : Tables) : Slot → Nat → Tables
  | .group_id i, v =>
    { t with oqs_group_list := t.oqs_group_list.modify (fun r => { r with group_id := v }) i }
  | .group_id_ecp_hyb i, v =>
    { t with oqs_group_list :=
        t.oqs_group_list.modify (fun r => { r with group_id_ecp_hyb := v }) i }
  | .group_id_ecx_hyb i, v =>
    { t with oqs_group_list :=
        t.oqs_group_list.modify (fun r => { r with group_id_ecx_hyb := v }) i }
  | .code_point i, v =>
    { t with oqs_sigalg_list := t.oqs_sigalg_list.modify (fun r => { r with code_point := v }) i }

/-! ## libc helpers used by the translation unit -/

/-- The `isspace` of the C locale. -/
def isspace (c : Char) : Bool :=
  c.toNat = 32 || (9 ≤ c.toNat && c.toNat ≤ 13)

/-- Value of the longest prefix of decimal digits, continuing from `acc`. -/
def digits_value (acc : Nat) : List Char → Nat
  | [] => acc
  | c :: cs => if c.isDigit then digits_value (acc * 10 + (c.toNat - 48)) cs else acc

/-- The `strtol (s, NULL, 10)` of an LP64 C library: leading white space is skipped, an optional
sign is read, then the longest run of digits; the value saturates at `LONG_MIN`/`LONG_MAX`. -/
def strtol10 (s : List Char) : Int :=
  let v : Int :=
    match s.dropWhile isspace with
    | '-' :: r => - (digits_value 0 r : Int)
    | '+' :: r => (digits_value 0 r : Int)
    | r => (digits_value 0 r : Int)
  max (-(2 : Int) ^ 63) (min v ((2 : Int) ^ 63 - 1))

/-- The `atoi` of the C library, `(int) strtol (s, NULL, 10)`. ISO C leaves the result undefined
when the value does not fit an `int`; there the model follows glibc (truncation of the `long`). -/
def atoi (s : String) : Int :=
  (strtol10 s.data + 2 ^ 31) % 2 ^ 32 - 2 ^ 31

/-- Conversion of an `int` to `unsigned int` on assignment. -/
def to_uint (x : Int) : Nat := (x % 2 ^ 32).toNat

/-- The process environment as seen through `getenv`. -/
abbrev Environment := String → Option String

/-! ## `oqs_patch_codepoints` -/

/-- The statements of `oqs_patch_codepoints`, in source order. The statement
`if (getenv(V)) slot = atoi(getenv(V));` is listed as `(V, slot)`; in every statement of the
source the two `getenv` calls name the same variable. -/
def CODEPOINT_PATCHING : List (String × Slot) := [
  ("OQS_CODEPOINT_FRODO640AES", Slot.group_id 0),
  ("OQS_CODEPOINT_P256_FRODO640AES", Slot.group_id_ecp_hyb 0),
  ("OQS_CODEPOINT_X25519_FRODO640AES", Slot.group_id_ecx_hyb 0),
  ("OQS_CODEPOINT_FRODO640SHAKE", Slot.group_id 1),
  ("OQS_CODEPOINT_P256_FRODO640SHAKE", Slot.group_id_ecp_hyb 1),
  ("OQS_CODEPOINT_X25519_FRODO640SHAKE", Slot.group_id_ecx_hyb 1),
  ("OQS_CODEPOINT_FRODO976AES", Slot.group_id 2),
  ("OQS_CODEPOINT_P384_FRODO976AES", Slot.group_id_ecp_hyb 2),
  ("OQS_CODEPOINT_X448_FRODO976AES", Slot.group_id_ecx_hyb 2),
  ("OQS_CODEPOINT_FRODO976SHAKE", Slot.group_id 3),
  ("OQS_CODEPOINT_P384_FRODO976SHAKE", Slot.group_id_ecp_hyb 3),
  ("OQS_CODEPOINT_X448_FRODO976SHAKE", Slot.group_id_ecx_hyb 3),
  ("OQS_CODEPOINT_FRODO1344AES", Slot.group_id 4),
  ("OQS_CODEPOINT_P521_FRODO1344AES", Slot.group_id_ecp_hyb 4),
  ("OQS_CODEPOINT_FRODO1344SHAKE", Slot.group_id 5),
  ("OQS_CODEPOINT_P521_FRODO1344SHAKE", Slot.group_id_ecp_hyb 5),
  ("OQS_CODEPOINT_KYBER512", Slot.group_id 6),
  ("OQS_CODEPOINT_P256_KYBER512", Slot.group_id_ecp_hyb 6),
  ("OQS_CODEPOINT_X25519_KYBER512", Slot.group_id_ecx_hyb 6),
  ("OQS_CODEPOINT_KYBER768", Slot.group_id 7),
  ("OQS_CODEPOINT_P384_KYBER768", Slot.group_id_ecp_hyb 7),
  ("OQS_CODEPOINT_X448_KYBER768", Slot.group_id_ecx_hyb 7),
  ("OQS_CODEPOINT_KYBER1024", Slot.group_id 8),
  ("OQS_CODEPOINT_P521_KYBER1024", Slot.group_id_ecp_hyb 8),
  ("OQS_CODEPOINT_BIKEL1", Slot.group_id 9),
  ("OQS_CODEPOINT_P256_BIKEL1", Slot.group_id_ecp_hyb 9),
  ("OQS_CODEPOINT_X25519_BIKEL1", Slot.group_id_ecx_hyb 9),
  ("OQS_CODEPOINT_BIKEL3", Slot.group_id 10),
  ("OQS_CODEPOINT_P384_BIKEL3", Slot.group_id_ecp_hyb 10),
  ("OQS_CODEPOINT_X448_BIKEL3", Slot.group_id_ecx_hyb 10),
  ("OQS_CODEPOINT_BIKEL5", Slot.group_id 11),
  ("OQS_CODEPOINT_P521_BIKEL5", Slot.group_id_ecp_hyb 11),
  ("OQS_CODEPOINT_KYBER90S512", Slot.group_id 12),
  ("OQS_CODEPOINT_P256_KYBER90S512", Slot.group_id_ecp_hyb 12),
  ("OQS_CODEPOINT_X25519_KYBER90S512", Slot.group_id_ecx_hyb 12),
  ("OQS_CODEPOINT_KYBER90S768", Slot.group_id 13),
  ("OQS_CODEPOINT_P384_KYBER90S768", Slot.group_id_ecp_hyb 13),
  ("OQS_CODEPOINT_X448_KYBER90S768", Slot.group_id_ecx_hyb 13),
  ("OQS_CODEPOINT_KYBER90S1024", Slot.group_id 14),
  ("OQS_CODEPOINT_P521_KYBER90S1024", Slot.group_id_ecp_hyb 14),
  ("OQS_CODEPOINT_HQC128", Slot.group_id 15),
  ("OQS_CODEPOINT_P256_HQC128", Slot.group_id_ecp_hyb 15),
  ("OQS_CODEPOINT_X25519_HQC128", Slot.group_id_ecx_hyb 15),
  ("OQS_CODEPOINT_HQC192", Slot.group_id 16),
  ("OQS_CODEPOINT_P384_HQC192", Slot.group_id_ecp_hyb 16),
  ("OQS_CODEPOINT_X448_HQC192", Slot.group_id_ecx_hyb 16),
  ("OQS_CODEPOINT_HQC256", Slot.group_id 17),
  ("OQS_CODEPOINT_P521_HQC256", Slot.group_id_ecp_hyb 17),
  ("OQS_CODEPOINT_DILITHIUM2", Slot.code_point 0),
  ("OQS_CODEPOINT_P256_DILITHIUM2", Slot.code_point 1),
  ("OQS_CODEPOINT_RSA3072_DILITHIUM2", Slot.code_point 2),
  ("OQS_CODEPOINT_DILITHIUM3", Slot.code_point 3),
  ("OQS_CODEPOINT_P384_DILITHIUM3", Slot.code_point 4),
  ("OQS_CODEPOINT_DILITHIUM5", Slot.code_point 5),
  ("OQS_CODEPOINT_P521_DILITHIUM5", Slot.code_point 6),
  ("OQS_CODEPOINT_DILITHIUM2_AES", Slot.code_point 7),
  ("OQS_CODEPOINT_P256_DILITHIUM2_AES", Slot.code_point 8),
  ("OQS_CODEPOINT_RSA3072_DILITHIUM2_AES", Slot.code_point 9),
  ("OQS_CODEPOINT_DILITHIUM3_AES", Slot.code_point 10),
  ("OQS_CODEPOINT_P384_DILITHIUM3_AES", Slot.code_point 11),
  ("OQS_CODEPOINT_DILITHIUM5_AES", Slot.code_point 12),
  ("OQS_CODEPOINT_P521_DILITHIUM5_AES", Slot.code_point 13),
  ("OQS_CODEPOINT_FALCON512", Slot.code_point 14),
  ("OQS_CODEPOINT_P256_FALCON512", Slot.code_point 15),
  ("OQS_CODEPOINT_RSA3072_FALCON512", Slot.code_point 16),
  ("OQS_CODEPOINT_FALCON1024", Slot.code_point 17),
  ("OQS_CODEPOINT_P521_FALCON1024", Slot.code_point 18),
  ("OQS_CODEPOINT_SPHINCSHARAKA128FROBUST", Slot.code_point 19),
  ("OQS_CODEPOINT_P256_SPHINCSHARAKA128FROBUST", Slot.code_point 20),
  ("OQS_CODEPOINT_RSA3072_SPHINCSHARAKA128FROBUST", Slot.code_point 21),
  ("OQS_CODEPOINT_SPHINCSHARAKA128FSIMPLE", Slot.code_point 22),
  ("OQS_CODEPOINT_P256_SPHINCSHARAKA128FSIMPLE", Slot.code_point 23),
  ("OQS_CODEPOINT_RSA3072_SPHINCSHARAKA128FSIMPLE", Slot.code_point 24),
  ("OQS_CODEPOINT_SPHINCSSHA256128FROBUST", Slot.code_point 25),
  ("OQS_CODEPOINT_P256_SPHINCSSHA256128FROBUST", Slot.code_point 26),
  ("OQS_CODEPOINT_RSA3072_SPHINCSSHA256128FROBUST", Slot.code_point 27),
  ("OQS_CODEPOINT_SPHINCSSHA256128SSIMPLE", Slot.code_point 28),
  ("OQS_CODEPOINT_P256_SPHINCSSHA256128SSIMPLE", Slot.code_point 29),
  ("OQS_CODEPOINT_RSA3072_SPHINCSSHA256128SSIMPLE", Slot.code_point 30),
  ("OQS_CODEPOINT_SPHINCSSHAKE256128FSIMPLE", Slot.code_point 31),
  ("OQS_CODEPOINT_P256_SPHINCSSHAKE256128FSIMPLE", Slot.code_point 32),
  ("OQS_CODEPOINT_RSA3072_SPHINCSSHAKE256128FSIMPLE", Slot.code_point 33)
]

/-- One statement `if (getenv(V)) slot = atoi(getenv(V));`. -/
def patch_statement (getenv : Environment) (t : Tables) (p : String × Slot) : Tables :=
  match getenv p.1 with
  | some v => t.store p.2 (to_uint (atoi v))
  | none => t

/-- The function `oqs_patch_codepoints`: the C return value and the globals afterwards. -/
def oqs_patch_codepoints (getenv : Environment) (t : Tables) : Int × Tables :=
  (1, CODEPOINT_PATCHING.foldl (patch_statement getenv) t)

/-! ## Parameter records -/

/-- The macro `ECP_NAME (secbits, oqsname)`, as defined in `test/oqs_test_kems.c`. The provider
takes the macro of this name from `oqs_prov.h`, which is not among the files embedded here; it
is taken to be the same. -/
def ECP_NAME (secbits : Nat) (oqsname : String) : String :=
  if secbits = 128 then "p256_" ++ oqsname
  else if secbits = 192 then "p384_" ++ oqsname
  else "p521_" ++ oqsname

/-- The macro `ECX_NAME (secbits, oqsname)`, as defined in `test/oqs_test_kems.c`; see
`ECP_NAME`. -/
def ECX_NAME (secbits : Nat) (oqsname : String) : String :=
  if secbits = 128 then "x25519_" ++ oqsname
  else "x448_" ++ oqsname

/-- One element of `oqs_param_group_list`: three string parameters and seven parameters whose
data pointer refers to a field of `oqs_group_list[idx]`. `TLS_GROUP_ID` is the target of the
group-ID pointer; `sb` keeps the security-bits argument the entry was built with. -/
structure GROUP_PARAMS where
  TLS_GROUP_NAME : String
  TLS_GROUP_NAME_INTERNAL : String
  TLS_GROUP_ALG : String
  TLS_GROUP_ID : Slot
  idx : Nat
  sb : Nat
  deriving DecidableEq, Repr

/-- The macro `OQS_GROUP_ENTRY`. -/
def OQS_GROUP_ENTRY (tlsname realname algorithm : String) (sb idx : Nat) : GROUP_PARAMS :=
  { TLS_GROUP_NAME := tlsname
    TLS_GROUP_NAME_INTERNAL := realname
    TLS_GROUP_ALG := algorithm
    TLS_GROUP_ID := Slot.group_id idx
    idx := idx
    sb := sb }

/-- The macro `OQS_GROUP_ENTRY_ECP`. -/
def OQS_GROUP_ENTRY_ECP (tlsname realname algorithm : String) (sb idx : Nat) : GROUP_PARAMS :=
  { TLS_GROUP_NAME := ECP_NAME sb tlsname
    TLS_GROUP_NAME_INTERNAL := ECP_NAME sb realname
    TLS_GROUP_ALG := ECP_NAME sb algorithm
    TLS_GROUP_ID := Slot.group_id_ecp_hyb idx
    idx := idx
    sb := sb }

/-- The macro `OQS_GROUP_ENTRY_ECX`. -/
def OQS_GROUP_ENTRY_ECX (tlsname realname algorithm : String) (sb idx : Nat) : GROUP_PARAMS :=
  { TLS_GROUP_NAME := ECX_NAME sb tlsname
    TLS_GROUP_NAME_INTERNAL := ECX_NAME sb realname
    TLS_GROUP_ALG := ECX_NAME sb algorithm
    TLS_GROUP_ID := Slot.group_id_ecx_hyb idx
    idx := idx
    sb := sb }

/-- The initialiser of `oqs_param_group_list`, one block per `#ifdef ... #endif`. -/
def GROUP_NAMES : List (String × List GROUP_PARAMS) := [
  ("OQS_ENABLE_KEM_frodokem_640_aes", [
    OQS_GROUP_ENTRY "frodo640aes" "frodo640aes" "frodo640aes" 128 0,
    OQS_GROUP_ENTRY_ECP "frodo640aes" "frodo640aes" "frodo640aes" 128 0,
    OQS_GROUP_ENTRY_ECX "frodo640aes" "frodo640aes" "frodo640aes" 128 0]),
  ("OQS_ENABLE_KEM_frodokem_640_shake", [
    OQS_GROUP_ENTRY "frodo640shake" "frodo640shake" "frodo640shake" 128 1,
    OQS_GROUP_ENTRY_ECP "frodo640shake" "frodo640shake" "frodo640shake" 128 1,
    OQS_GROUP_ENTRY_ECX "frodo640shake" "frodo640shake" "frodo640shake" 128 1]),
  ("OQS_ENABLE_KEM_frodokem_976_aes", [
    OQS_GROUP_ENTRY "frodo976aes" "frodo976aes" "frodo976aes" 192 2,
    OQS_GROUP_ENTRY_ECP "frodo976aes" "frodo976aes" "frodo976aes" 192 2,
    OQS_GROUP_ENTRY_ECX "frodo976aes" "frodo976aes" "frodo976aes" 192 2]),
  ("OQS_ENABLE_KEM_frodokem_976_shake", [
    OQS_GROUP_ENTRY "frodo976shake" "frodo976shake" "frodo976shake" 192 3,
    OQS_GROUP_ENTRY_ECP "frodo976shake" "frodo976shake" "frodo976shake" 192 3,
    OQS_GROUP_ENTRY_ECX "frodo976shake" "frodo976shake" "frodo976shake" 192 3]),
  ("OQS_ENABLE_KEM_frodokem_1344_aes", [
    OQS_GROUP_ENTRY "frodo1344aes" "frodo1344aes" "frodo1344aes" 256 4,
    OQS_GROUP_ENTRY_ECP "frodo1344aes" "frodo1344aes" "frodo1344aes" 256 4]),
  ("OQS_ENABLE_KEM_frodokem_1344_shake", [
    OQS_GROUP_ENTRY "frodo1344shake" "frodo1344shake" "frodo1344shake" 256 5,
    OQS_GROUP_ENTRY_ECP "frodo1344shake" "frodo1344shake" "frodo1344shake" 256 5]),
  ("OQS_ENABLE_KEM_kyber_512", [
    OQS_GROUP_ENTRY "kyber512" "kyber512" "kyber512" 128 6,
    OQS_GROUP_ENTRY_ECP "kyber512" "kyber512" "kyber512" 128 6,
    OQS_GROUP_ENTRY_ECX "kyber512" "kyber512" "kyber512" 128 6]),
  ("OQS_ENABLE_KEM_kyber_768", [
    OQS_GROUP_ENTRY "kyber768" "kyber768" "kyber768" 192 7,
    OQS_GROUP_ENTRY_ECP "kyber768" "kyber768" "kyber768" 192 7,
    OQS_GROUP_ENTRY_ECX "kyber768" "kyber768" "kyber768" 192 7]),
  ("OQS_ENABLE_KEM_kyber_1024", [
    OQS_GROUP_ENTRY "kyber1024" "kyber1024" "kyber1024" 256 8,
    OQS_GROUP_ENTRY_ECP "kyber1024" "kyber1024" "kyber1024" 256 8]),
  ("OQS_ENABLE_KEM_bike_l1", [
    OQS_GROUP_ENTRY "bikel1" "bikel1" "bikel1" 128 9,
    OQS_GROUP_ENTRY_ECP "bikel1" "bikel1" "bikel1" 128 9,
    OQS_GROUP_ENTRY_ECX "bikel1" "bikel1" "bikel1" 128 9]),
  ("OQS_ENABLE_KEM_bike_l3", [
    OQS_GROUP_ENTRY "bikel3" "bikel3" "bikel3" 192 10,
    OQS_GROUP_ENTRY_ECP "bikel3" "bikel3" "bikel3" 192 10,
    OQS_GROUP_ENTRY_ECX "bikel3" "bikel3" "bikel3" 192 10]),
  ("OQS_ENABLE_KEM_bike_l5", [
    OQS_GROUP_ENTRY "bikel5" "bikel5" "bikel5" 256 11,
    OQS_GROUP_ENTRY_ECP "bikel5" "bikel5" "bikel5" 256 11]),
  ("OQS_ENABLE_KEM_kyber_512_90s", [
    OQS_GROUP_ENTRY "kyber90s512" "kyber90s512" "kyber90s512" 128 12,
    OQS_GROUP_ENTRY_ECP "kyber90s512" "kyber90s512" "kyber90s512" 128 12,
    OQS_GROUP_ENTRY_ECX "kyber90s512" "kyber90s512" "kyber90s512" 128 12]),
  ("OQS_ENABLE_KEM_kyber_768_90s", [
    OQS_GROUP_ENTRY "kyber90s768" "kyber90s768" "kyber90s768" 192 13,
    OQS_GROUP_ENTRY_ECP "kyber90s768" "kyber90s768" "kyber90s768" 192 13,
    OQS_GROUP_ENTRY_ECX "kyber90s768" "kyber90s768" "kyber90s768" 192 13]),
  ("OQS_ENABLE_KEM_kyber_1024_90s", [
    OQS_GROUP_ENTRY "kyber90s1024" "kyber90s1024" "kyber90s1024" 256 14,
    OQS_GROUP_ENTRY_ECP "kyber90s1024" "kyber90s1024" "kyber90s1024" 256 14]),
  ("OQS_ENABLE_KEM_hqc_128", [
    OQS_GROUP_ENTRY "hqc128" "hqc128" "hqc128" 128 15,
    OQS_GROUP_ENTRY_ECP "hqc128" "hqc128" "hqc128" 128 15,
    OQS_GROUP_ENTRY_ECX "hqc128" "hqc128" "hqc128" 128 15]),
  ("OQS_ENABLE_KEM_hqc_192", [
    OQS_GROUP_ENTRY "hqc192" "hqc192" "hqc192" 192 16,
    OQS_GROUP_ENTRY_ECP "hqc192" "hqc192" "hqc192" 192 16,
    OQS_GROUP_ENTRY_ECX "hqc192" "hqc192" "hqc192" 192 16]),
  ("OQS_ENABLE_KEM_hqc_256", [
    OQS_GROUP_ENTRY "hqc256" "hqc256" "hqc256" 256 17,
    OQS_GROUP_ENTRY_ECP "hqc256" "hqc256" "hqc256" 256 17])
]

/-- Conditional inclusion: the blocks whose guard is a defined preprocessor symbol. -/
def ifdef_blocks {α : Type} (defined : String → Bool) (blocks : List (String × List α)) :
    List α :=
  blocks.flatMap (fun b => if defined b.1 then b.2 else [])

/-- The array `oqs_param_group_list` of a build in which `defined` tells the defined symbols. -/
def oqs_param_group_list (defined : String → Bool) : List GROUP_PARAMS :=
  ifdef_blocks defined GROUP_NAMES

/-- One element of `oqs_param_sigalg_list`: three string parameters and four parameters whose
data pointer refers to a field of `oqs_sigalg_list[idx]`. -/
structure SIGALG_PARAMS where
  TLS_SIGALG_IANA_NAME : String
  TLS_SIGALG_NAME : String
  TLS_SIGALG_OID : String
  idx : Nat
  deriving DecidableEq, Repr

/-- The macro `OQS_SIGALG_ENTRY`. Every argument is given as its token text, which is what the
stringification operator yields: for `oid`, written as a string literal in the source, the text
includes the quotation marks. `realname` and `algorithm` are not used by the macro. -/
def OQS_SIGALG_ENTRY (tlsname _realname _algorithm oid : String) (idx : Nat) : SIGALG_PARAMS :=
  { TLS_SIGALG_IANA_NAME := tlsname
    TLS_SIGALG_NAME := tlsname
    TLS_SIGALG_OID := oid
    idx := idx }

/-- The initialiser of `oqs_param_sigalg_list`, one block per `#ifdef ... #endif`. -/
def SIGALG_NAMES : List (String × List SIGALG_PARAMS) := [
  ("OQS_ENABLE_SIG_dilithium_2", [
    OQS_SIGALG_ENTRY "dilithium2" "dilithium2" "dilithium2" "\"1.3.6.1.4.1.2.267.7.4.4\"" 0,
    OQS_SIGALG_ENTRY "p256_dilithium2" "p256_dilithium2" "p256_dilithium2" "\"1.3.9999.2.7.1\"" 1,
    OQS_SIGALG_ENTRY "rsa3072_dilithium2" "rsa3072_dilithium2" "rsa3072_dilithium2" "\"1.3.9999.2.7.2\"" 2]),
  ("OQS_ENABLE_SIG_dilithium_3", [
    OQS_SIGALG_ENTRY "dilithium3" "dilithium3" "dilithium3" "\"1.3.6.1.4.1.2.267.7.6.5\"" 3,
    OQS_SIGALG_ENTRY "p384_dilithium3" "p384_dilithium3" "p384_dilithium3" "\"1.3.9999.2.7.3\"" 4]),
  ("OQS_ENABLE_SIG_dilithium_5", [
    OQS_SIGALG_ENTRY "dilithium5" "dilithium5" "dilithium5" "\"1.3.6.1.4.1.2.267.7.8.7\"" 5,
    OQS_SIGALG_ENTRY "p521_dilithium5" "p521_dilithium5" "p521_dilithium5" "\"1.3.9999.2.7.4\"" 6]),
  ("OQS_ENABLE_SIG_dilithium_2_aes", [
    OQS_SIGALG_ENTRY "dilithium2_aes" "dilithium2_aes" "dilithium2_aes" "\"1.3.6.1.4.1.2.267.11.4.4\"" 7,
    OQS_SIGALG_ENTRY "p256_dilithium2_aes" "p256_dilithium2_aes" "p256_dilithium2_aes" "\"1.3.9999.2.11.1\"" 8,
    OQS_SIGALG_ENTRY "rsa3072_dilithium2_aes" "rsa3072_dilithium2_aes" "rsa3072_dilithium2_aes" "\"1.3.9999.2.11.2\"" 9]),
  ("OQS_ENABLE_SIG_dilithium_3_aes", [
    OQS_SIGALG_ENTRY "dilithium3_aes" "dilithium3_aes" "dilithium3_aes" "\"1.3.6.1.4.1.2.267.11.6.5\"" 10,
    OQS_SIGALG_ENTRY "p384_dilithium3_aes" "p384_dilithium3_aes" "p384_dilithium3_aes" "\"1.3.9999.2.11.3\"" 11]),
  ("OQS_ENABLE_SIG_dilithium_5_aes", [
    OQS_SIGALG_ENTRY "dilithium5_aes" "dilithium5_aes" "dilithium5_aes" "\"1.3.6.1.4.1.2.267.11.8.7\"" 12,
    OQS_SIGALG_ENTRY "p521_dilithium5_aes" "p521_dilithium5_aes" "p521_dilithium5_aes" "\"1.3.9999.2.11.4\"" 13]),
  ("OQS_ENABLE_SIG_falcon_512", [
    OQS_SIGALG_ENTRY "falcon512" "falcon512" "falcon512" "\"1.3.9999.3.6\"" 14,
    OQS_SIGALG_ENTRY "p256_falcon512" "p256_falcon512" "p256_falcon512" "\"1.3.9999.3.7\"" 15,
    OQS_SIGALG_ENTRY "rsa3072_falcon512" "rsa3072_falcon512" "rsa3072_falcon512" "\"1.3.9999.3.8\"" 16]),
  ("OQS_ENABLE_SIG_falcon_1024", [
    OQS_SIGALG_ENTRY "falcon1024" "falcon1024" "falcon1024" "\"1.3.9999.3.9\"" 17,
    OQS_SIGALG_ENTRY "p521_falcon1024" "p521_falcon1024" "p521_falcon1024" "\"1.3.9999.3.10\"" 18]),
  ("OQS_ENABLE_SIG_sphincs_haraka_128f_robust", [
    OQS_SIGALG_ENTRY "sphincsharaka128frobust" "sphincsharaka128frobust" "sphincsharaka128frobust" "\"1.3.9999.6.1.1\"" 19,
    OQS_SIGALG_ENTRY "p256_sphincsharaka128frobust" "p256_sphincsharaka128frobust" "p256_sphincsharaka128frobust" "\"1.3.9999.6.1.2\"" 20,
    OQS_SIGALG_ENTRY "rsa3072_sphincsharaka128frobust" "rsa3072_sphincsharaka128frobust" "rsa3072_sphincsharaka128frobust" "\"1.3.9999.6.1.3\"" 21]),
  ("OQS_ENABLE_SIG_sphincs_haraka_128f_simple", [
    OQS_SIGALG_ENTRY "sphincsharaka128fsimple" "sphincsharaka128fsimple" "sphincsharaka128fsimple" "\"1.3.9999.6.1.4\"" 22,
    OQS_SIGALG_ENTRY "p256_sphincsharaka128fsimple" "p256_sphincsharaka128fsimple" "p256_sphincsharaka128fsimple" "\"1.3.9999.6.1.5\"" 23,
    OQS_SIGALG_ENTRY "rsa3072_sphincsharaka128fsimple" "rsa3072_sphincsharaka128fsimple" "rsa3072_sphincsharaka128fsimple" "\"1.3.9999.6.1.6\"" 24]),
  ("OQS_ENABLE_SIG_sphincs_sha256_128f_robust", [
    OQS_SIGALG_ENTRY "sphincssha256128frobust" "sphincssha256128frobust" "sphincssha256128frobust" "\"1.3.9999.6.4.1\"" 25,
    OQS_SIGALG_ENTRY "p256_sphincssha256128frobust" "p256_sphincssha256128frobust" "p256_sphincssha256128frobust" "\"1.3.9999.6.4.2\"" 26,
    OQS_SIGALG_ENTRY "rsa3072_sphincssha256128frobust" "rsa3072_sphincssha256128frobust" "rsa3072_sphincssha256128frobust" "\"1.3.9999.6.4.3\"" 27]),
  ("OQS_ENABLE_SIG_sphincs_sha256_128s_simple", [
    OQS_SIGALG_ENTRY "sphincssha256128ssimple" "sphincssha256128ssimple" "sphincssha256128ssimple" "\"1.3.9999.6.4.10\"" 28,
    OQS_SIGALG_ENTRY "p256_sphincssha256128ssimple" "p256_sphincssha256128ssimple" "p256_sphincssha256128ssimple" "\"1.3.9999.6.4.11\"" 29,
    OQS_SIGALG_ENTRY "rsa3072_sphincssha256128ssimple" "rsa3072_sphincssha256128ssimple" "rsa3072_sphincssha256128ssimple" "\"1.3.9999.6.4.12\"" 30]),
  ("OQS_ENABLE_SIG_sphincs_shake256_128f_simple", [
    OQS_SIGALG_ENTRY "sphincsshake256128fsimple" "sphincsshake256128fsimple" "sphincsshake256128fsimple" "\"1.3.9999.6.7.4\"" 31,
    OQS_SIGALG_ENTRY "p256_sphincsshake256128fsimple" "p256_sphincsshake256128fsimple" "p256_sphincsshake256128fsimple" "\"1.3.9999.6.7.5\"" 32,
    OQS_SIGALG_ENTRY "rsa3072_sphincsshake256128fsimple" "rsa3072_sphincsshake256128fsimple" "rsa3072_sphincsshake256128fsimple" "\"1.3.9999.6.7.6\"" 33])
]

/-- The array `oqs_param_sigalg_list` of a build in which `defined` tells the defined symbols. -/
def oqs_param_sigalg_list (defined : String → Bool) : List SIGALG_PARAMS :=
  ifdef_blocks defined SIGALG_NAMES

/-- What a callback reads from an element of `oqs_param_group_list`. -/
structure GROUP_RECORD where
  TLS_GROUP_NAME : String
  TLS_GROUP_NAME_INTERNAL : String
  TLS_GROUP_ALG : String
  TLS_GROUP_ID : Nat
  TLS_GROUP_SECURITY_BITS : Nat
  TLS_GROUP_MIN_TLS : Int
  TLS_GROUP_MAX_TLS : Int
  TLS_GROUP_MIN_DTLS : Int
  TLS_GROUP_MAX_DTLS : Int
  TLS_GROUP_IS_KEM : Int
  deriving DecidableEq, Repr

/-- What a callback reads from an element of `oqs_param_sigalg_list`. -/
structure SIGALG_RECORD where
  TLS_SIGALG_IANA_NAME : String
  TLS_SIGALG_NAME : String
  TLS_SIGALG_OID : String
  TLS_SIGALG_CODE_POINT : Nat
  TLS_SIGALG_SECURITY_BITS : Nat
  TLS_SIGALG_MIN_TLS : Int
  TLS_SIGALG_MAX_TLS : Int
  deriving DecidableEq, Repr

/-- Dereference the data pointers of a group entry in the current tables. -/
def GROUP_PARAMS.read (t : Tables) (e : GROUP_PARAMS) : GROUP_RECORD :=
  let row := t.oqs_group_list.getD e.idx default
  { TLS_GROUP_NAME := e.TLS_GROUP_NAME
    TLS_GROUP_NAME_INTERNAL := e.TLS_GROUP_NAME_INTERNAL
    TLS_GROUP_ALG := e.TLS_GROUP_ALG
    TLS_GROUP_ID := t.load e.TLS_GROUP_ID
    TLS_GROUP_SECURITY_BITS := row.secbits
    TLS_GROUP_MIN_TLS := row.mintls
    TLS_GROUP_MAX_TLS := row.maxtls
    TLS_GROUP_MIN_DTLS := row.mindtls
    TLS_GROUP_MAX_DTLS := row.maxdtls
    TLS_GROUP_IS_KEM := row.is_kem }

/-- Dereference the data pointers of a signature entry in the current tables. -/
def SIGALG_PARAMS.read (t : Tables) (e : SIGALG_PARAMS) : SIGALG_RECORD :=
  let row := t.oqs_sigalg_list.getD e.idx default
  { TLS_SIGALG_IANA_NAME := e.TLS_SIGALG_IANA_NAME
    TLS_SIGALG_NAME := e.TLS_SIGALG_NAME
    TLS_SIGALG_OID := e.TLS_SIGALG_OID
    TLS_SIGALG_CODE_POINT := t.load (Slot.code_point e.idx)
    TLS_SIGALG_SECURITY_BITS := row.secbits
    TLS_SIGALG_MIN_TLS := row.mintls
    TLS_SIGALG_MAX_TLS := row.maxtls }

/-- The `OSSL_PARAM` array handed to a callback, as the callback reads it. -/
inductive OSSL_PARAMS where
  | group (r : GROUP_RECORD)
  | sigalg (r : SIGALG_RECORD)
  deriving DecidableEq, Repr

/-! ## Enumerators and dispatcher -/

/-- An `OSSL_CALLBACK` together with its `arg`: it receives a record and the state behind
`arg`, and returns its `int` result and the new state. -/
abbrev OSSL_CALLBACK (σ : Type) := OSSL_PARAMS → σ → Int × σ

/-- Result of an enumeration: the C return value, the callback state afterwards, and the
invocations of the callback that were made, each with the value the callback returned. -/
structure Outcome (σ : Type) where
  ret : Int
  arg : σ
  calls : List (OSSL_PARAMS × Int)

/-- The loop `for (i = 0; i < OSSL_NELEM(list); i++) if (!cb(list[i], arg)) return 0;` followed
by `return 1;`. -/
def capability_loop {σ : Type} (cb : OSSL_CALLBACK σ) : List OSSL_PARAMS → σ → Outcome σ
  | [], arg => { ret := 1, arg := arg, calls := [] }
  | r :: rs, arg =>
    let reply := cb r arg
    if reply.1 = 0 then
      { ret := 0, arg := reply.2, calls := [(r, reply.1)] }
    else
      let rest := capability_loop cb rs reply.2
      { rest with calls := (r, reply.1) :: rest.calls }

/-- The records of `oqs_param_group_list` as a callback reads them. -/
def group_records (defined : String → Bool) (t : Tables) : List OSSL_PARAMS :=
  (oqs_param_group_list defined).map (fun e => OSSL_PARAMS.group (e.read t))

/-- The records of `oqs_param_sigalg_list` as a callback reads them. -/
def sigalg_records (defined : String → Bool) (t : Tables) : List OSSL_PARAMS :=
  (oqs_param_sigalg_list defined).map (fun e => OSSL_PARAMS.sigalg (e.read t))

/-- The function `oqs_group_capability`. -/
def oqs_group_capability {σ : Type} (defined : String → Bool) (t : Tables)
    (cb : OSSL_CALLBACK σ) (arg : σ) : Outcome σ :=
  capability_loop cb (group_records defined t) arg

/-- The function `oqs_sigalg_capability`; `none` is the failure of its `assert`, which compares
the two array sizes fixed at compile time by the initialisers. -/
def oqs_sigalg_capability {σ : Type} (defined : String → Bool) (t : Tables)
    (cb : OSSL_CALLBACK σ) (arg : σ) : Option (Outcome σ) :=
  if (oqs_param_sigalg_list defined).length ≤ oqs_sigalg_list.length then
    some (capability_loop cb (sigalg_records defined t) arg)
  else
    none

/-- The `tolower` of the C locale, as a character code. -/
def tolower (c : Char) : Int := (c.toLower.toNat : Int)

/-- The libc function `strcasecmp` in the C locale. The lists are the characters of the two
C strings before their terminating NUL, which reads as code `0`. -/
def strcasecmp : List Char → List Char → Int
  | [], [] => 0
  | [], b :: _ => 0 - tolower b
  | a :: _, [] => tolower a - 0
  | a :: s, b :: t => if tolower a = tolower b then strcasecmp s t else tolower a - tolower b

/-- The function `oqs_provider_get_capabilities` (`provctx` is not used by it); `none` is the
failure of the `assert` in `oqs_sigalg_capability`. -/
def oqs_provider_get_capabilities {σ : Type} (defined : String → Bool) (t : Tables)
    (capability : String) (cb : OSSL_CALLBACK σ) (arg : σ) : Option (Outcome σ) :=
  if strcasecmp capability.data "TLS-GROUP".data = 0 then
    some (oqs_group_capability defined t cb arg)
  else if defined "OSSL_CAPABILITY_TLS_SIGALG_NAME"
      && strcasecmp capability.data "TLS-SIGALG".data = 0 then
    oqs_sigalg_capability defined t cb arg
  else
    some { ret := 0, arg := arg, calls := [] }

/-! ## The dispatcher with the arrays in memory

The data pointers of an `OSSL_PARAM` record refer to fields of the two arrays, which are not
`const`: a callback reads the arrays through them and is able to store through them. The
definitions below repeat the two enumerators and the dispatcher with the arrays threaded
through the callback, so that what a query does to the arrays can be stated. -/

/-- An element of `oqs_param_group_list` or of `oqs_param_sigalg_list`, data pointers
included. -/
inductive PARAM_ENTRY where
  | group (e : GROUP_PARAMS)
  | sigalg (e : SIGALG_PARAMS)
  deriving DecidableEq, Repr

/-- What is read through the data pointers of an element in the current tables. -/
def PARAM_ENTRY.read (t : Tables) : PARAM_ENTRY → OSSL_PARAMS
  | .group e => OSSL_PARAMS.group (e.read t)
  | .sigalg e => OSSL_PARAMS.sigalg (e.read t)

/-- An `OSSL_CALLBACK` together with its `arg`, acting on memory: it receives the element it
is handed, the two arrays and the state behind `arg`, and returns its `int` result, the new
state and the arrays as it leaves them. -/
abbrev MEMORY_CALLBACK (σ : Type) := PARAM_ENTRY → Tables → σ → Int × σ × Tables

/-- Result of a query with the arrays in memory: the C return value, the callback state and
the two arrays afterwards, and the invocations made, each with the record as it read when the
callback was invoked and the value the callback returned. -/
structure QueryOutcome (σ : Type) where
  ret : Int
  arg : σ
  tables : Tables
  calls : List (OSSL_PARAMS × Int)

/-- The loop `for (i = 0; i < OSSL_NELEM(list); i++) if (!cb(list[i], arg)) return 0;` followed
by `return 1;`, with the arrays in memory. The loop itself stores nothing. -/
def query_loop {σ : Type} (cb : MEMORY_CALLBACK σ) :
    List PARAM_ENTRY → Tables → σ → QueryOutcome σ
  | [], t, arg => { ret := 1, arg := arg, tables := t, calls := [] }
  | e :: es, t, arg =>
    let reply := cb e t arg
    if reply.1 = 0 then
      { ret := 0, arg := reply.2.1, tables := reply.2.2, calls := [(e.read t, reply.1)] }
    else
      let rest := query_loop cb es reply.2.2 reply.2.1
      { rest with calls := (e.read t, reply.1) :: rest.calls }

/-- The function `oqs_provider_get_capabilities` with the arrays in memory: `oqs_group_capability`
and `oqs_sigalg_capability` are the two inner branches; `none` is the failure of the `assert`. -/
def provider_query {σ : Type} (defined : String → Bool) (t : Tables) (capability : String)
    (cb : MEMORY_CALLBACK σ) (arg : σ) : Option (QueryOutcome σ) :=
  if strcasecmp capability.data "TLS-GROUP".data = 0 then
    some (query_loop cb ((oqs_param_group_list defined).map PARAM_ENTRY.group) t arg)
  else if defined "OSSL_CAPABILITY_TLS_SIGALG_NAME"
      && strcasecmp capability.data "TLS-SIGALG".data = 0 then
    if (oqs_param_sigalg_list defined).length ≤ oqs_sigalg_list.length then
      some (query_loop cb ((oqs_param_sigalg_list defined).map PARAM_ENTRY.sigalg) t arg)
    else
      none
  else
    some { ret := 0, arg := arg, tables := t, calls := [] }

/-! ## The KEM test harness (`test/oqs_test_kems.c`) -/

/-- What a call of `EVP_PKEY_encapsulate` leaves behind: its return value, the contents of the
buffers `out` and `secenc`, and the lengths stored through `&outlen` and `&seclen`. For the
size query (null buffers) only the return value and the two lengths are meaningful. -/
structure Encapsulated where
  ret : Int
  out : List Nat
  outlen : Nat
  secenc : List Nat
  seclen : Nat

/-- What a call of `EVP_PKEY_decapsulate` leaves behind: its return value, the contents of the
buffer `secdec` and the length stored through `&seclen`. -/
structure Decapsulated where
  ret : Int
  secdec : List Nat
  seclen : Nat

/-- The functions the harness calls and does not define. The library is stateful, so a function
called at several places takes the number of earlier calls of it as first argument (0 for the
first call). Pointer results are given as "is not NULL". -/
structure Library where
  alg_is_enabled : String → Int
  OSSL_PROVIDER_available : String → Int
  EVP_PKEY_CTX_new_from_name : String → Bool
  EVP_PKEY_keygen_init : Int
  EVP_PKEY_generate : Int
  EVP_PKEY_CTX_new_from_pkey : Bool
  EVP_PKEY_encapsulate_init : Int
  EVP_PKEY_encapsulate : Nat → Encapsulated
  OPENSSL_malloc : Nat → Nat → Bool
  EVP_PKEY_decapsulate_init : Nat → Int
  EVP_PKEY_decapsulate : Nat → List Nat → Nat → List Nat → Nat → Decapsulated

/-- The steps of a run of `test_oqs_kems` that are recorded: the library calls and the
corruption of the ciphertext. -/
inductive Step where
  | EVP_PKEY_CTX_new_from_name
  | EVP_PKEY_keygen_init
  | EVP_PKEY_generate
  | EVP_PKEY_CTX_new_from_pkey
  | EVP_PKEY_encapsulate_init
  | EVP_PKEY_encapsulate
  | OPENSSL_malloc
  | EVP_PKEY_decapsulate_init
  | EVP_PKEY_decapsulate
  | corrupt_ciphertext
  deriving DecidableEq, Repr

/-- The local variables `out`, `secenc`, `secdec`, `outlen`, `seclen` of `test_oqs_kems`
(buffers as lists of bytes) and the steps taken so far. -/
structure KemRun where
  out : List Nat
  secenc : List Nat
  secdec : List Nat
  outlen : Nat
  seclen : Nat
  steps : List Step

/-- The operator `~` applied to an `unsigned char` and stored back into one. -/
def complement (b : Nat) : Nat := 255 - b % 256

/-- The call `memset (buf, c, n)` on a buffer. -/
def memset (buf : List Nat) (c : Nat) (n : Nat) : List Nat :=
  List.replicate (min n buf.length) c ++ buf.drop n

/-- The value of `memcmp (a, b, n)` is zero. -/
def memcmp_zero (a b : List Nat) (n : Nat) : Bool :=
  a.take n == b.take n

/-- The two statements `out[0] = ~out[0]; out[outlen - 1] = ~out[outlen - 1];`, with `outlen - 1`
computed in `size_t`. -/
def corrupt (out : List Nat) (outlen : Nat) : List Nat :=
  let out₁ := out.set 0 (complement (out.getD 0 0))
  let last := (outlen + 2 ^ 64 - 1) % 2 ^ 64
  out₁.set last (complement (out₁.getD last 0))

/-- The first `&&` chain of `test_oqs_kems` (key generation): its value and the run after it. -/
def keygen_chain (lib : Library) (kemalg_name : String) (run : KemRun) : Nat × KemRun :=
  let run := { run with steps := run.steps ++ [Step.EVP_PKEY_CTX_new_from_name] }
  if lib.EVP_PKEY_CTX_new_from_name kemalg_name = false then (0, run) else
  let run := { run with steps := run.steps ++ [Step.EVP_PKEY_keygen_init] }
  if lib.EVP_PKEY_keygen_init = 0 then (0, run) else
  let run := { run with steps := run.steps ++ [Step.EVP_PKEY_generate] }
  if lib.EVP_PKEY_generate = 0 then (0, run) else
  (1, run)

/-- The second `&&` chain of `test_oqs_kems` (encapsulation, decapsulation, comparison of the
two secrets): its value and the run after it. -/
def encaps_chain (lib : Library) (run : KemRun) : Nat × KemRun :=
  let run := { run with steps := run.steps ++ [Step.EVP_PKEY_CTX_new_from_pkey] }
  if lib.EVP_PKEY_CTX_new_from_pkey = false then (0, run) else
  let run := { run with steps := run.steps ++ [Step.EVP_PKEY_encapsulate_init] }
  if lib.EVP_PKEY_encapsulate_init = 0 then (0, run) else
  let query := lib.EVP_PKEY_encapsulate 0
  let run := { run with outlen := query.outlen, seclen := query.seclen,
                        steps := run.steps ++ [Step.EVP_PKEY_encapsulate] }
  if query.ret = 0 then (0, run) else
  let run := { run with out := List.replicate run.outlen 0,
                        steps := run.steps ++ [Step.OPENSSL_malloc] }
  if lib.OPENSSL_malloc 0 run.outlen = false then (0, run) else
  let run := { run with secenc := List.replicate run.seclen 0,
                        steps := run.steps ++ [Step.OPENSSL_malloc] }
  if lib.OPENSSL_malloc 1 run.seclen = false then (0, run) else
  let run := { run with secenc := memset run.secenc 0x11 run.seclen }
  let run := { run with secdec := List.replicate run.seclen 0,
                        steps := run.steps ++ [Step.OPENSSL_malloc] }
  if lib.OPENSSL_malloc 2 run.seclen = false then (0, run) else
  let run := { run with secdec := memset run.secdec 0xff run.seclen }
  let enc := lib.EVP_PKEY_encapsulate 1
  let run := { run with out := enc.out, outlen := enc.outlen, secenc := enc.secenc,
                        seclen := enc.seclen,
                        steps := run.steps ++ [Step.EVP_PKEY_encapsulate] }
  if enc.ret = 0 then (0, run) else
  let run := { run with steps := run.steps ++ [Step.EVP_PKEY_decapsulate_init] }
  if lib.EVP_PKEY_decapsulate_init 0 = 0 then (0, run) else
  let dec := lib.EVP_PKEY_decapsulate 0 run.out run.outlen run.secdec run.seclen
  let run := { run with secdec := dec.secdec, seclen := dec.seclen,
                        steps := run.steps ++ [Step.EVP_PKEY_decapsulate] }
  if dec.ret = 0 then (0, run) else
  if memcmp_zero run.secenc run.secdec run.seclen then (1, run) else (0, run)

/-- The third `&&` chain of `test_oqs_kems` (decapsulation of the corrupted ciphertext): its
value and the run after it. The value of `EVP_PKEY_decapsulate (...) || 1` is 1. -/
def tamper_chain (lib : Library) (run : KemRun) : Nat × KemRun :=
  let run := { run with secdec := memset run.secdec 0xff run.seclen }
  let run := { run with steps := run.steps ++ [Step.EVP_PKEY_decapsulate_init] }
  if lib.EVP_PKEY_decapsulate_init 1 = 0 then (0, run) else
  let dec := lib.EVP_PKEY_decapsulate 1 run.out run.outlen run.secdec run.seclen
  let run := { run with secdec := dec.secdec, seclen := dec.seclen,
                        steps := run.steps ++ [Step.EVP_PKEY_decapsulate] }
  if memcmp_zero run.secenc run.secdec run.seclen then (0, run) else (1, run)

/-- The function `test_oqs_kems`: its return value and the run it made. -/
def test_oqs_kems (lib : Library) (kemalg_name : String) : Int × KemRun :=
  let run : KemRun := { out := [], secenc := [], secdec := [], outlen := 0, seclen := 0,
                        steps := [] }
  let testresult : Nat := 1
  if lib.alg_is_enabled kemalg_name = 0 then (1, run) else
  if lib.OSSL_PROVIDER_available "default" ≠ 0 then
    let keygen := keygen_chain lib kemalg_name run
    let testresult := testresult &&& keygen.1
    if testresult = 0 then ((testresult : Int), keygen.2) else
    let encaps := encaps_chain lib keygen.2
    let testresult := testresult &&& encaps.1
    if testresult = 0 then ((testresult : Int), encaps.2) else
    let run := { encaps.2 with out := corrupt encaps.2.out encaps.2.outlen,
                               steps := encaps.2.steps ++ [Step.corrupt_ciphertext] }
    let tamper := tamper_chain lib run
    let testresult := testresult &&& tamper.1
    ((testresult : Int), tamper.2)
  else ((testresult : Int), run)

/-- The macro `KEMALG3 (NAMES, SECBITS)` of the test. -/
def KEMALG3 (names : String) (secbits : Nat) : List String :=
  [names, ECP_NAME secbits names, ECX_NAME secbits names]

/-- The macro `KEMALG2 (NAMES, SECBITS)` of the test. -/
def KEMALG2 (names : String) (secbits : Nat) : List String :=
  [names, ECP_NAME secbits names]

/-- The initialiser of `kemalg_names`, one block per `#ifdef ... #endif`. -/
def KEM_CASES : List (String × List String) := [
  ("OQS_ENABLE_KEM_frodokem_640_aes", KEMALG3 "frodo640aes" 128),
  ("OQS_ENABLE_KEM_frodokem_640_shake", KEMALG3 "frodo640shake" 128),
  ("OQS_ENABLE_KEM_frodokem_976_aes", KEMALG3 "frodo976aes" 192),
  ("OQS_ENABLE_KEM_frodokem_976_shake", KEMALG3 "frodo976shake" 192),
  ("OQS_ENABLE_KEM_frodokem_1344_aes", KEMALG2 "frodo1344aes" 256),
  ("OQS_ENABLE_KEM_frodokem_1344_shake", KEMALG2 "frodo1344shake" 256),
  ("OQS_ENABLE_KEM_kyber_512", KEMALG3 "kyber512" 128),
  ("OQS_ENABLE_KEM_kyber_768", KEMALG3 "kyber768" 192),
  ("OQS_ENABLE_KEM_kyber_1024", KEMALG2 "kyber1024" 256),
  ("OQS_ENABLE_KEM_bike_l1", KEMALG3 "bikel1" 128),
  ("OQS_ENABLE_KEM_bike_l3", KEMALG3 "bikel3" 192),
  ("OQS_ENABLE_KEM_bike_l5", KEMALG2 "bikel5" 256),
  ("OQS_ENABLE_KEM_kyber_512_90s", KEMALG3 "kyber90s512" 128),
  ("OQS_ENABLE_KEM_kyber_768_90s", KEMALG3 "kyber90s768" 192),
  ("OQS_ENABLE_KEM_kyber_1024_90s", KEMALG2 "kyber90s1024" 256),
  ("OQS_ENABLE_KEM_hqc_128", KEMALG3 "hqc128" 128),
  ("OQS_ENABLE_KEM_hqc_192", KEMALG3 "hqc192" 192),
  ("OQS_ENABLE_KEM_hqc_256", KEMALG2 "hqc256" 256)
]

/-- The array `kemalg_names` of a build in which `defined` tells the defined symbols. -/
def kemalg_names (defined : String → Bool) : List String :=
  ifdef_blocks defined KEM_CASES

/-! ## Vocabulary of the statements -/

/-- Equality of two strings up to ASCII case. -/
def same_ignoring_case (s t : String) : Prop :=
  s.data.map Char.toLower = t.data.map Char.toLower

instance (s t : String) : Decidable (same_ignoring_case s t) := by
  unfold same_ignoring_case; infer_instance

/-- The string can be the content of a C string: it has no NUL character. -/
def is_c_string (s : String) : Prop := ∀ c ∈ s.data, c.toNat ≠ 0

instance (s : String) : Decidable (is_c_string s) := by
  unfold is_c_string; infer_instance

/-- The invocations a callback would go through if it were handed every record of the list in
turn, whatever it answers: each record with the value returned for it. -/
def cb_run {σ : Type} (cb : OSSL_CALLBACK σ) : List OSSL_PARAMS → σ → List (OSSL_PARAMS × Int)
  | [], _ => []
  | r :: rs, arg => (r, (cb r arg).1) :: cb_run cb rs (cb r arg).2

/-- The records of the capability class a name asks for; no record for an unknown name. -/
def requested_records (defined : String → Bool) (t : Tables) (capability : String) :
    List OSSL_PARAMS :=
  if same_ignoring_case capability "TLS-GROUP" then group_records defined t
  else if defined "OSSL_CAPABILITY_TLS_SIGALG_NAME" = true
      ∧ same_ignoring_case capability "TLS-SIGALG" then sigalg_records defined t
  else []

/-- The slot lies inside its array. -/
def Tables.in_range (t : Tables) : Slot → Prop
  | .group_id i => i < t.oqs_group_list.length
  | .group_id_ecp_hyb i => i < t.oqs_group_list.length
  | .group_id_ecx_hyb i => i < t.oqs_group_list.length
  | .code_point i => i < t.oqs_sigalg_list.length

instance (t : Tables) (s : Slot) : Decidable (t.in_range s) := by
  cases s <;> unfold Tables.in_range <;> infer_instance

/-- The arrays have the sizes fixed by their initialisers. -/
def Tables.same_shape (t : Tables) : Prop :=
  t.oqs_group_list.length = OqsProvider.oqs_group_list.length ∧
  t.oqs_sigalg_list.length = OqsProvider.oqs_sigalg_list.length

instance (t : Tables) : Decidable t.same_shape := by
  unfold Tables.same_shape; infer_instance

/-- Everything in the tables that is not a codepoint: per group row `secbits`, `mintls`,
`maxtls`, `mindtls`, `maxdtls`, `is_kem`, per signature row `secbits`, `mintls`, `maxtls`. -/
def Tables.frame (t : Tables) :
    List (Nat × Int × Int × Int × Int × Int) × List (Nat × Int × Int) :=
  (t.oqs_group_list.map (fun r => (r.secbits, r.mintls, r.maxtls, r.mindtls, r.maxdtls, r.is_kem)),
   t.oqs_sigalg_list.map (fun r => (r.secbits, r.mintls, r.maxtls)))

/-- The value the environment imposes on a slot through a list of patching statements, if any:
that of the last statement for the slot whose variable is set. -/
def last_override (getenv : Environment) : List (String × Slot) → Slot → Option Nat
  | [], _ => none
  | p :: l, s =>
    match last_override getenv l s with
    | some v => some v
    | none => if p.2 = s then (getenv p.1).map (fun x => to_uint (atoi x)) else none

/-- The codepoint a record reports: its group ID or its signature code point. -/
def OSSL_PARAMS.codepoint : OSSL_PARAMS → Nat
  | .group r => r.TLS_GROUP_ID
  | .sigalg r => r.TLS_SIGALG_CODE_POINT

/-- The group codepoints stored in the tables, row by row. -/
def Tables.group_codepoints (t : Tables) : List Nat :=
  t.oqs_group_list.flatMap (fun r => [r.group_id, r.group_id_ecp_hyb, r.group_id_ecx_hyb])

/-- The signature code points stored in the tables, row by row. -/
def Tables.sigalg_codepoints (t : Tables) : List Nat :=
  t.oqs_sigalg_list.map (fun r => r.code_point)

/-- The slot belongs to the key-exchange class (`oqs_group_list`), not to the signature class
(`oqs_sigalg_list`). -/
def Slot.is_group : Slot → Bool
  | .code_point _ => false
  | _ => true

/-- The codepoint in force for the slot of a patching statement when the compiled-in tables are
patched in the given environment: the value of the override variable if it is set, else the
compiled-in codepoint. -/
def codepoint_in_force (getenv : Environment) (p : String × Slot) : Nat :=
  match getenv p.1 with
  | some x => to_uint (atoi x)
  | none => initial_tables.load p.2

/-- The name of the override variable that belongs to a display name: "OQS_CODEPOINT_" followed
by the name in upper case. -/
def override_variable (name : String) : String :=
  "OQS_CODEPOINT_" ++ String.mk (name.data.map Char.toUpper)

/-- The row a slot belongs to. -/
def Slot.row : Slot → Nat
  | .group_id i => i
  | .group_id_ecp_hyb i => i
  | .group_id_ecx_hyb i => i
  | .code_point i => i

/-- The string has no numeral at its start: after leading white space and one optional sign
there is no decimal digit. -/
def numeral_absent (s : String) : Bool :=
  match s.data.dropWhile isspace with
  | [] => true
  | c :: r =>
    if c = '-' ∨ c = '+' then
      match r with
      | [] => true
      | d :: _ => !d.isDigit
    else !c.isDigit

/-- The name prefix of the ECP hybrid for a number of security bits. -/
def ecp_partner (secbits : Nat) : String :=
  if secbits = 128 then "p256_" else if secbits = 192 then "p384_" else "p521_"

/-- The name prefix of the ECX hybrid for a number of security bits. -/
def ecx_partner (secbits : Nat) : String :=
  if secbits = 128 then "x25519_" else "x448_"

/-- Key generation succeeds: none of its three calls returns NULL or 0. -/
def keygen_succeeds (lib : Library) (kemalg_name : String) : Prop :=
  lib.EVP_PKEY_CTX_new_from_name kemalg_name = true ∧ lib.EVP_PKEY_keygen_init ≠ 0 ∧
    lib.EVP_PKEY_generate ≠ 0

/-- Encapsulation succeeds: none of its calls returns NULL or 0, the allocation of its three
buffers included. -/
def encapsulation_succeeds (lib : Library) : Prop :=
  lib.EVP_PKEY_CTX_new_from_pkey = true ∧ lib.EVP_PKEY_encapsulate_init ≠ 0 ∧
    (lib.EVP_PKEY_encapsulate 0).ret ≠ 0 ∧
    lib.OPENSSL_malloc 0 (lib.EVP_PKEY_encapsulate 0).outlen = true ∧
    lib.OPENSSL_malloc 1 (lib.EVP_PKEY_encapsulate 0).seclen = true ∧
    lib.OPENSSL_malloc 2 (lib.EVP_PKEY_encapsulate 0).seclen = true ∧
    (lib.EVP_PKEY_encapsulate 1).ret ≠ 0

/-- What decapsulating the ciphertext produced by the encapsulation leaves behind. -/
def honest_decapsulation (lib : Library) : Decapsulated :=
  lib.EVP_PKEY_decapsulate 0 (lib.EVP_PKEY_encapsulate 1).out (lib.EVP_PKEY_encapsulate 1).outlen
    (memset (List.replicate (lib.EVP_PKEY_encapsulate 0).seclen 0) 0xff
      (lib.EVP_PKEY_encapsulate 0).seclen)
    (lib.EVP_PKEY_encapsulate 1).seclen

/-- Decapsulation of the honest ciphertext succeeds: neither of its two calls returns 0. -/
def decapsulation_succeeds (lib : Library) : Prop :=
  lib.EVP_PKEY_decapsulate_init 0 ≠ 0 ∧ (honest_decapsulation lib).ret ≠ 0

/-- The decapsulated secret equals the encapsulated secret on its `seclen` bytes. -/
def secrets_agree (lib : Library) : Prop :=
  memcmp_zero (lib.EVP_PKEY_encapsulate 1).secenc (honest_decapsulation lib).secdec
    (honest_decapsulation lib).seclen = true

/-- What decapsulating the corrupted ciphertext leaves behind. -/
def tampered_decapsulation (lib : Library) : Decapsulated :=
  lib.EVP_PKEY_decapsulate 1
    (corrupt (lib.EVP_PKEY_encapsulate 1).out (lib.EVP_PKEY_encapsulate 1).outlen)
    (lib.EVP_PKEY_encapsulate 1).outlen
    (memset (honest_decapsulation lib).secdec 0xff (honest_decapsulation lib).seclen)
    (honest_decapsulation lib).seclen

/-- The same library, except that the decapsulation of the corrupted ciphertext returns `v`. -/
def Library.with_tampered_return (lib : Library) (v : Int) : Library :=
  { lib with EVP_PKEY_decapsulate := fun call out outlen secdec seclen =>
      if call = 1 then { lib.EVP_PKEY_decapsulate call out outlen secdec seclen with ret := v }
      else lib.EVP_PKEY_decapsulate call out outlen secdec seclen }

/-- A library in which every call succeeds once, the ciphertext is `ct`, the secret is `sec`,
decapsulation returns the secret for `ct` and fails on anything else leaving the buffer as it
was, and the second `EVP_PKEY_decapsulate_init` returns `reinit`. -/
def sample_library (ct sec : List Nat) (reinit : Int) : Library :=
  { alg_is_enabled := fun _ => 1
    OSSL_PROVIDER_available := fun _ => 1
    EVP_PKEY_CTX_new_from_name := fun _ => true
    EVP_PKEY_keygen_init := 1
    EVP_PKEY_generate := 1
    EVP_PKEY_CTX_new_from_pkey := true
    EVP_PKEY_encapsulate_init := 1
    EVP_PKEY_encapsulate := fun _ =>
      { ret := 1, out := ct, outlen := ct.length, secenc := sec, seclen := sec.length }
    OPENSSL_malloc := fun _ _ => true
    EVP_PKEY_decapsulate_init := fun call => if call = 0 then 1 else reinit
    EVP_PKEY_decapsulate := fun _ out _ secdec seclen =>
      if out = ct then { ret := 1, secdec := sec, seclen := sec.length }
      else { ret := 0, secdec := secdec, seclen := seclen } }

/-- The same library, except that the decapsulation of the honest ciphertext succeeds with a
secret whose first byte is wrong. -/
def Library.with_honest_secret (lib : Library) : Library :=
  { lib with EVP_PKEY_decapsulate := fun call out outlen secdec seclen =>
      if call = 0 then
        { lib.EVP_PKEY_decapsulate call out outlen secdec seclen with
          secdec := (lib.EVP_PKEY_decapsulate call out outlen secdec seclen).secdec.set 0
            (complement ((lib.EVP_PKEY_decapsulate call out outlen secdec seclen).secdec.getD 0 0)) }
      else lib.EVP_PKEY_decapsulate call out outlen secdec seclen }

/-- The first string starts with the second. -/
def starts_with (name start : String) : Bool :=
  start.data.isPrefixOf name.data

/-- A callback that only reads: the callback `cb` of the record-passing form, handed what the
data pointers read and leaving the arrays as they are. -/
def reading_callback {σ : Type} (cb : OSSL_CALLBACK σ) : MEMORY_CALLBACK σ :=
  fun e t arg => ((cb (e.read t) arg).1, (cb (e.read t) arg).2, t)

/-- A callback that accepts every record and stores 0 through the group-ID pointer of every
group record it is handed. -/
def zeroing_callback : MEMORY_CALLBACK Unit :=
  fun e t arg =>
    match e with
    | .group g => (1, arg, t.store g.TLS_GROUP_ID 0)
    | .sigalg _ => (1, arg, t)

/-- The elements of the capability class a name asks for; none for an unknown name. -/
def requested_entries (defined : String → Bool) (capability : String) : List PARAM_ENTRY :=
  if same_ignoring_case capability "TLS-GROUP" then
    (oqs_param_group_list defined).map PARAM_ENTRY.group
  else if defined "OSSL_CAPABILITY_TLS_SIGALG_NAME" = true
      ∧ same_ignoring_case capability "TLS-SIGALG" then
    (oqs_param_sigalg_list defined).map PARAM_ENTRY.sigalg
  else []

/-- A return value that reports failure by the convention of the OpenSSL functions called by
the test: 1 stands for success, 0 or a negative value for failure. -/
def reports_failure (ret : Int) : Prop := ret ≤ 0

instance (ret : Int) : Decidable (reports_failure ret) := by
  unfold reports_failure; infer_instance

/-! ## The enumeration loop -/

theorem cb_run_map_fst {σ : Type} (cb : OSSL_CALLBACK σ) (recs : List OSSL_PARAMS) (arg : σ) :
    (cb_run cb recs arg).map Prod.fst = recs := by
  induction recs generalizing arg with
  | nil => rfl
  | cons r rs ih => simp [cb_run, ih]

theorem cb_run_length {σ : Type} (cb : OSSL_CALLBACK σ) (recs : List OSSL_PARAMS) (arg : σ) :
    (cb_run cb recs arg).length = recs.length := by
  rw [← List.length_map (cb_run cb recs arg) Prod.fst, cb_run_map_fst]

theorem capability_loop_calls_initial {σ : Type} (cb : OSSL_CALLBACK σ)
    (recs : List OSSL_PARAMS) (arg : σ) :
    (capability_loop cb recs arg).calls <+: cb_run cb recs arg := by
  induction recs generalizing arg with
  | nil => simp [capability_loop, cb_run]
  | cons r rs ih =>
    by_cases h : (cb r arg).1 = 0
    · simp [capability_loop, cb_run, h]
    · simpa [capability_loop, cb_run, h, List.cons_prefix_cons] using ih (cb r arg).2

theorem capability_loop_ret {σ : Type} (cb : OSSL_CALLBACK σ)
    (recs : List OSSL_PARAMS) (arg : σ) :
    ((capability_loop cb recs arg).ret = 1 ↔
      ∀ c ∈ (capability_loop cb recs arg).calls, c.2 ≠ 0) ∧
    ((capability_loop cb recs arg).ret = 0 ∨ (capability_loop cb recs arg).ret = 1) := by
  induction recs generalizing arg with
  | nil => simp [capability_loop]
  | cons r rs ih =>
    by_cases h : (cb r arg).1 = 0
    · simp [capability_loop, h]
    · simpa [capability_loop, h] using ih (cb r arg).2

theorem capability_loop_all_accepted {σ : Type} (cb : OSSL_CALLBACK σ)
    (recs : List OSSL_PARAMS) (arg : σ)
    (h : ∀ c ∈ (capability_loop cb recs arg).calls, c.2 ≠ 0) :
    (capability_loop cb recs arg).calls = cb_run cb recs arg := by
  induction recs generalizing arg with
  | nil => simp [capability_loop, cb_run]
  | cons r rs ih =>
    by_cases h0 : (cb r arg).1 = 0
    · simp [capability_loop, h0] at h
    · simp only [capability_loop, h0, if_false, List.mem_cons, forall_eq_or_imp] at h
      simp [capability_loop, cb_run, h0, ih (cb r arg).2 h.2]

theorem capability_loop_stops {σ : Type} (cb : OSSL_CALLBACK σ)
    (recs : List OSSL_PARAMS) (arg : σ) :
    ∀ c ∈ (capability_loop cb recs arg).calls.dropLast, c.2 ≠ 0 := by
  induction recs generalizing arg with
  | nil => simp [capability_loop]
  | cons r rs ih =>
    by_cases h0 : (cb r arg).1 = 0
    · simp [capability_loop, h0]
    · intro c hc
      simp only [capability_loop, h0, if_false] at hc
      cases hrest : (capability_loop cb rs (cb r arg).2).calls with
      | nil => simp [hrest] at hc
      | cons d ds =>
        rw [hrest, List.dropLast_cons₂] at hc
        rcases List.mem_cons.1 hc with rfl | hc
        · exact h0
        · exact ih (cb r arg).2 c (by rw [hrest]; exact hc)

theorem capability_loop_early_stop {σ : Type} (cb : OSSL_CALLBACK σ)
    (recs : List OSSL_PARAMS) (arg : σ) (k : Nat) (hk : 1 ≤ k)
    (hzero : ∃ p, (cb_run cb recs arg)[k - 1]? = some p ∧ p.2 = 0)
    (hbefore : ∀ j, j < k - 1 → ∀ p, (cb_run cb recs arg)[j]? = some p → p.2 ≠ 0) :
    (capability_loop cb recs arg).calls = (cb_run cb recs arg).take k ∧
    (capability_loop cb recs arg).ret = 0 := by
  induction recs generalizing arg k with
  | nil => obtain ⟨p, hp, _⟩ := hzero; simp [cb_run] at hp
  | cons r rs ih =>
    obtain ⟨p, hp, hp0⟩ := hzero
    by_cases h1 : k = 1
    · subst h1
      simp [cb_run] at hp
      subst hp
      simp at hp0
      simp [capability_loop, cb_run, hp0]
    · obtain ⟨m, rfl⟩ : ∃ m, k = m + 2 := ⟨k - 2, by omega⟩
      have h0 : (cb r arg).1 ≠ 0 := by
        have := hbefore 0 (by omega) (r, (cb r arg).1) (by simp [cb_run])
        simpa using this
      have hrec := ih (cb r arg).2 (m + 1) (by omega)
        ⟨p, by simpa [cb_run] using hp, hp0⟩
        (fun j hj q hq => hbefore (j + 1) (by omega) q (by simpa [cb_run] using hq))
      simp [capability_loop, cb_run, h0, hrec.1, hrec.2]


/-! ## Case-insensitive comparison -/

theorem toNat_toLower_ne_zero (c : Char) (h : c.toNat ≠ 0) : c.toLower.toNat ≠ 0 := by
  unfold Char.toLower
  simp only
  split
  · rename_i hc
    obtain ⟨h1, h2⟩ := hc
    generalize c.toNat = n at h1 h2
    interval_cases n <;> decide
  · exact h

theorem char_toNat_injective (a b : Char) (h : a.toNat = b.toNat) : a = b := by
  rw [← Char.ofNat_toNat a, ← Char.ofNat_toNat b, h]

theorem tolower_eq_iff (a b : Char) : tolower a = tolower b ↔ a.toLower = b.toLower := by
  unfold tolower
  constructor
  · intro h
    exact char_toNat_injective _ _ (by exact_mod_cast h)
  · intro h; rw [h]

theorem strcasecmp_eq_zero_iff (s t : List Char)
    (hs : ∀ c ∈ s, c.toNat ≠ 0) (ht : ∀ c ∈ t, c.toNat ≠ 0) :
    strcasecmp s t = 0 ↔ s.map Char.toLower = t.map Char.toLower := by
  induction s generalizing t with
  | nil =>
    cases t with
    | nil => simp [strcasecmp]
    | cons b t =>
      have hb := toNat_toLower_ne_zero b (ht b (List.mem_cons_self _ _))
      simp only [strcasecmp, tolower, List.map_nil, List.map_cons]
      constructor
      · intro h; exfalso; apply hb; omega
      · intro h; simp at h
  | cons a s ih =>
    cases t with
    | nil =>
      have ha := toNat_toLower_ne_zero a (hs a (List.mem_cons_self _ _))
      simp only [strcasecmp, tolower, List.map_nil, List.map_cons]
      constructor
      · intro h; exfalso; apply ha; omega
      · intro h; simp at h
    | cons b t =>
      have ih1 := ih t (fun c hc => hs c (List.mem_cons_of_mem _ hc))
        (fun c hc => ht c (List.mem_cons_of_mem _ hc))
      by_cases hab : tolower a = tolower b
      · simp only [strcasecmp, hab, if_true, List.map_cons, List.cons.injEq]
        rw [ih1]
        simp [(tolower_eq_iff a b).1 hab]
      · simp only [strcasecmp, hab, if_false, List.map_cons, List.cons.injEq]
        constructor
        · intro h; exfalso; apply hab; omega
        · intro h; exact absurd ((tolower_eq_iff a b).2 h.1) hab

theorem is_c_string_of_same_ignoring_case (s t : String) (h : same_ignoring_case s t)
    (ht : is_c_string t) : is_c_string s := by
  unfold same_ignoring_case at h
  intro c hc hz
  have hmem : c.toLower ∈ t.data.map Char.toLower := by
    rw [← h]; exact List.mem_map_of_mem _ hc
  obtain ⟨d, hd, hdc⟩ := List.mem_map.1 hmem
  have h1 : c.toLower = c := by
    unfold Char.toLower; simp [hz]
  have h2 := toNat_toLower_ne_zero d (ht d hd)
  rw [hdc, h1] at h2
  exact h2 hz

/-! ## Conditional inclusion -/

theorem ifdef_blocks_sublist {α : Type} (defined : String → Bool)
    (blocks : List (String × List α)) :
    (ifdef_blocks defined blocks).Sublist (ifdef_blocks (fun _ => true) blocks) := by
  unfold ifdef_blocks
  induction blocks with
  | nil => simp
  | cons b bs ih =>
    simp only [List.flatMap_cons, if_true]
    apply List.Sublist.append _ ih
    split
    · exact List.Sublist.refl _
    · exact List.nil_sublist _

theorem sigalg_assert_holds (defined : String → Bool) :
    (oqs_param_sigalg_list defined).length ≤ oqs_sigalg_list.length := by
  have h := (ifdef_blocks_sublist defined SIGALG_NAMES).length_le
  have h2 : (ifdef_blocks (fun _ => true) SIGALG_NAMES).length = oqs_sigalg_list.length := by
    decide
  unfold oqs_param_sigalg_list
  omega


theorem group_names_nodup :
    ((ifdef_blocks (fun _ => true) GROUP_NAMES).map GROUP_PARAMS.TLS_GROUP_NAME).Nodup := by
  decide

theorem sigalg_names_nodup :
    ((ifdef_blocks (fun _ => true) SIGALG_NAMES).map SIGALG_PARAMS.TLS_SIGALG_NAME).Nodup := by
  decide

theorem group_records_nodup (defined : String → Bool) (t : Tables) :
    (group_records defined t).Nodup := by
  have hn : ((oqs_param_group_list defined).map GROUP_PARAMS.TLS_GROUP_NAME).Nodup :=
    List.Nodup.sublist ((ifdef_blocks_sublist defined GROUP_NAMES).map _) group_names_nodup
  unfold group_records
  refine List.Nodup.map_on ?_ hn.of_map
  intro x hx y hy hxy
  apply List.inj_on_of_nodup_map hn hx hy
  have := congrArg (fun r => match r with
    | OSSL_PARAMS.group g => g.TLS_GROUP_NAME
    | OSSL_PARAMS.sigalg g => g.TLS_SIGALG_NAME) hxy
  simpa [GROUP_PARAMS.read] using this

theorem sigalg_records_nodup (defined : String → Bool) (t : Tables) :
    (sigalg_records defined t).Nodup := by
  have hn : ((oqs_param_sigalg_list defined).map SIGALG_PARAMS.TLS_SIGALG_NAME).Nodup :=
    List.Nodup.sublist ((ifdef_blocks_sublist defined SIGALG_NAMES).map _) sigalg_names_nodup
  unfold sigalg_records
  refine List.Nodup.map_on ?_ hn.of_map
  intro x hx y hy hxy
  apply List.inj_on_of_nodup_map hn hx hy
  have := congrArg (fun r => match r with
    | OSSL_PARAMS.group g => g.TLS_GROUP_NAME
    | OSSL_PARAMS.sigalg g => g.TLS_SIGALG_NAME) hxy
  simpa [SIGALG_PARAMS.read] using this

/-! ## Decimal numerals and `atoi` -/

theorem isDigit_iff (c : Char) : c.isDigit = true ↔ 48 ≤ c.toNat ∧ c.toNat ≤ 57 := by
  simp [Char.isDigit, Char.toNat, UInt32.le_def, Fin.le_def]
  rfl

theorem digitChar_spec (m : Nat) (h : m < 10) :
    (Nat.digitChar m).isDigit = true ∧ (Nat.digitChar m).toNat - 48 = m := by
  interval_cases m <;> decide

theorem digits_value_append_digit (acc : Nat) (l : List Char) (d : Char)
    (hl : ∀ c ∈ l, c.isDigit = true) (hd : d.isDigit = true) :
    digits_value acc (l ++ [d]) = digits_value acc l * 10 + (d.toNat - 48) := by
  induction l generalizing acc with
  | nil => simp [digits_value, hd]
  | cons c cs ih =>
    have hc : c.isDigit = true := hl c (List.mem_cons_self _ _)
    simp only [List.cons_append, digits_value, hc, if_true]
    exact ih _ (fun x hx => hl x (List.mem_cons_of_mem _ hx))

theorem toDigitsCore_append (f n : Nat) (ds : List Char) :
    Nat.toDigitsCore 10 f n ds = Nat.toDigitsCore 10 f n [] ++ ds := by
  induction f generalizing n ds with
  | zero => simp [Nat.toDigitsCore]
  | succ f ih =>
    simp only [Nat.toDigitsCore]
    split
    · simp
    · rw [ih (n / 10) (Nat.digitChar (n % 10) :: ds), ih (n / 10) [Nat.digitChar (n % 10)]]
      simp

theorem toDigitsCore_spec (f n : Nat) (h : n < f) :
    (∀ c ∈ Nat.toDigitsCore 10 f n [], c.isDigit = true) ∧
      digits_value 0 (Nat.toDigitsCore 10 f n []) = n := by
  induction f generalizing n with
  | zero => omega
  | succ f ih =>
    have hd := digitChar_spec (n % 10) (Nat.mod_lt _ (by decide))
    simp only [Nat.toDigitsCore]
    split
    · rename_i h0
      have hn : n % 10 = n := by omega
      simp only [List.mem_singleton, forall_eq, digits_value, hd.1, if_true, hd.2, true_and]
      omega
    · rename_i h0
      have hrec := ih (n / 10) (by omega)
      rw [toDigitsCore_append]
      constructor
      · intro c hc
        rcases List.mem_append.1 hc with hc | hc
        · exact hrec.1 c hc
        · simp at hc; rw [hc]; exact hd.1
      · rw [digits_value_append_digit 0 _ _ hrec.1 hd.1, hrec.2, hd.2]
        omega

theorem strtol10_digits (l : List Char) (hl : ∀ c ∈ l, c.isDigit = true) :
    strtol10 l = max (-(2 : Int) ^ 63) (min (digits_value 0 l : Int) ((2 : Int) ^ 63 - 1)) := by
  cases l with
  | nil => simp [strtol10]
  | cons c r =>
    have hc := (isDigit_iff c).1 (hl c (List.mem_cons_self _ _))
    have hsp : isspace c = false := by
      simp only [isspace, Bool.or_eq_false_iff, decide_eq_false_iff_not, Bool.and_eq_false_imp,
        decide_eq_true_eq]
      omega
    have hminus : c ≠ '-' := by rintro rfl; revert hc; decide
    have hplus : c ≠ '+' := by rintro rfl; revert hc; decide
    simp only [strtol10, List.dropWhile_cons, hsp]
    split
    · rename_i heq; simp at heq; exact absurd heq.1 hminus
    · rename_i heq; simp at heq; exact absurd heq.1 hplus
    · rfl

theorem atoi_decimal (n : Nat) (h : n < 2 ^ 31) : atoi (toString n) = n := by
  have hs := toDigitsCore_spec (n + 1) n (by omega)
  have hdata : (toString n).data = Nat.toDigitsCore 10 (n + 1) n [] := rfl
  unfold atoi
  rw [hdata, strtol10_digits _ hs.1, hs.2]
  norm_num at h ⊢
  omega

theorem to_uint_natCast (n : Nat) (h : n < 2 ^ 32) : to_uint (n : Int) = n := by
  unfold to_uint
  norm_num at h ⊢
  omega

/-! ## Loads and stores -/

theorem frame_store (t : Tables) (s : Slot) (v : Nat) : (t.store s v).frame = t.frame := by
  cases s <;> simp only [Tables.store, Tables.frame, Prod.mk.injEq, and_true, true_and] <;>
    apply List.ext_getElem? <;> intro n <;>
    simp only [List.getElem?_map, List.getElem?_modify] <;>
    cases t.oqs_group_list[n]? <;> cases t.oqs_sigalg_list[n]? <;> simp <;> split <;> simp

theorem in_range_store (t : Tables) (s : Slot) (v : Nat) (s' : Slot) :
    (t.store s v).in_range s' ↔ t.in_range s' := by
  cases s <;> cases s' <;> simp [Tables.store, Tables.in_range]

theorem load_store (t : Tables) (s : Slot) (v : Nat) (s' : Slot) :
    (t.store s v).load s' = if s' = s ∧ t.in_range s then v else t.load s' := by
  cases s <;> cases s' <;>
    simp only [Tables.store, Tables.load, Tables.in_range, List.getD_eq_getElem?_getD,
      List.getElem?_modify, Slot.group_id.injEq, Slot.group_id_ecp_hyb.injEq,
      Slot.group_id_ecx_hyb.injEq, Slot.code_point.injEq, reduceCtorEq, false_and, if_false]
  all_goals
    rename_i i j
    by_cases hij : j = i
    · subst hij
      first
        | by_cases hr : j < t.oqs_group_list.length
          · simp [hr, List.getElem?_eq_getElem hr]
          · simp [hr, List.getElem?_eq_none (Nat.le_of_not_lt hr)]
        | by_cases hr : j < t.oqs_sigalg_list.length
          · simp [hr, List.getElem?_eq_getElem hr]
          · simp [hr, List.getElem?_eq_none (Nat.le_of_not_lt hr)]
    · have hji : ¬ i = j := fun h => hij h.symm
      cases t.oqs_group_list[j]? <;> cases t.oqs_sigalg_list[j]? <;> simp [hij, hji]

theorem tables_ext (t₁ t₂ : Tables) (hf : t₁.frame = t₂.frame)
    (hl : ∀ s, t₁.load s = t₂.load s) : t₁ = t₂ := by
  obtain ⟨g₁, s₁⟩ := t₁
  obtain ⟨g₂, s₂⟩ := t₂
  simp only [Tables.frame, Prod.mk.injEq] at hf
  obtain ⟨hg, hs⟩ := hf
  have hlg : g₁.length = g₂.length := by simpa using congrArg List.length hg
  have hls : s₁.length = s₂.length := by simpa using congrArg List.length hs
  simp only [Tables.mk.injEq]
  constructor
  · apply List.ext_getElem hlg
    intro n h₁ h₂
    have e1 := hl (Slot.group_id n)
    have e2 := hl (Slot.group_id_ecp_hyb n)
    have e3 := hl (Slot.group_id_ecx_hyb n)
    simp only [Tables.load, List.getD_eq_getElem?_getD, List.getElem?_eq_getElem h₁,
      List.getElem?_eq_getElem h₂, Option.getD_some] at e1 e2 e3
    have e4 := congrArg (fun l => l[n]?) hg
    simp only [List.getElem?_map, List.getElem?_eq_getElem h₁, List.getElem?_eq_getElem h₂,
      Option.map_some', Option.some.injEq, Prod.mk.injEq] at e4
    cases hr₁ : g₁[n]
    cases hr₂ : g₂[n]
    simp only [hr₁, hr₂] at e1 e2 e3 e4
    simp [e1, e2, e3, e4]
  · apply List.ext_getElem hls
    intro n h₁ h₂
    have e1 := hl (Slot.code_point n)
    simp only [Tables.load, List.getD_eq_getElem?_getD, List.getElem?_eq_getElem h₁,
      List.getElem?_eq_getElem h₂, Option.getD_some] at e1
    have e4 := congrArg (fun l => l[n]?) hs
    simp only [List.getElem?_map, List.getElem?_eq_getElem h₁, List.getElem?_eq_getElem h₂,
      Option.map_some', Option.some.injEq, Prod.mk.injEq] at e4
    cases hr₁ : s₁[n]
    cases hr₂ : s₂[n]
    simp only [hr₁, hr₂] at e1 e4
    simp [e1, e4]

/-! ## The fold of patching statements -/

theorem frame_patch_statement (getenv : Environment) (t : Tables) (p : String × Slot) :
    (patch_statement getenv t p).frame = t.frame := by
  unfold patch_statement
  cases getenv p.1 <;> simp [frame_store]

theorem in_range_patch_statement (getenv : Environment) (t : Tables) (p : String × Slot)
    (s : Slot) : (patch_statement getenv t p).in_range s ↔ t.in_range s := by
  unfold patch_statement
  cases getenv p.1 <;> simp [in_range_store]

theorem frame_patch (getenv : Environment) (l : List (String × Slot)) (t : Tables) :
    (l.foldl (patch_statement getenv) t).frame = t.frame := by
  induction l generalizing t with
  | nil => rfl
  | cons p l ih => rw [List.foldl_cons, ih, frame_patch_statement]

theorem in_range_patch (getenv : Environment) (l : List (String × Slot)) (t : Tables)
    (s : Slot) : (l.foldl (patch_statement getenv) t).in_range s ↔ t.in_range s := by
  induction l generalizing t with
  | nil => rfl
  | cons p l ih => rw [List.foldl_cons, ih, in_range_patch_statement]

theorem load_patch (getenv : Environment) (l : List (String × Slot)) (t : Tables) (s : Slot) :
    (l.foldl (patch_statement getenv) t).load s =
      if t.in_range s then (last_override getenv l s).getD (t.load s) else t.load s := by
  induction l generalizing t with
  | nil => simp [last_override]
  | cons p l ih =>
    rw [List.foldl_cons, ih]
    have hstep : (patch_statement getenv t p).load s =
        if t.in_range s then
          ((if p.2 = s then (getenv p.1).map (fun x => to_uint (atoi x)) else none).getD
            (t.load s))
        else t.load s := by
      unfold patch_statement
      cases hv : getenv p.1 with
      | none => simp
      | some x =>
        simp only [load_store, Option.map_some']
        by_cases hps : p.2 = s
        · subst hps; simp
        · have hsp : ¬ s = p.2 := fun h => hps h.symm
          simp [hps, hsp]
    simp only [in_range_patch_statement, hstep, last_override]
    by_cases hr : t.in_range s
    · simp only [hr, if_true]
      cases last_override getenv l s <;> simp
    · simp [hr]

theorem last_override_eq_none (getenv : Environment) (l : List (String × Slot)) (s : Slot)
    (h : ∀ p ∈ l, p.2 = s → getenv p.1 = none) : last_override getenv l s = none := by
  induction l with
  | nil => rfl
  | cons p l ih =>
    have h1 := ih (fun q hq => h q (List.mem_cons_of_mem _ hq))
    simp only [last_override, h1]
    by_cases hps : p.2 = s
    · simp [hps, h p (List.mem_cons_self _ _) hps]
    · simp [hps]

theorem last_override_congr (env₁ env₂ : Environment) (l : List (String × Slot)) (s : Slot)
    (h : ∀ p ∈ l, p.2 = s → env₁ p.1 = env₂ p.1) :
    last_override env₁ l s = last_override env₂ l s := by
  induction l with
  | nil => rfl
  | cons p l ih =>
    have h1 := ih (fun q hq => h q (List.mem_cons_of_mem _ hq))
    simp only [last_override, h1]
    by_cases hps : p.2 = s
    · simp [hps, h p (List.mem_cons_self _ _) hps]
    · simp [hps]

theorem last_override_of_mem (getenv : Environment) (l : List (String × Slot))
    (hnd : (l.map Prod.snd).Nodup) (p : String × Slot) (hp : p ∈ l) :
    last_override getenv l p.2 = (getenv p.1).map (fun x => to_uint (atoi x)) := by
  induction l with
  | nil => simp at hp
  | cons q l ih =>
    simp only [List.map_cons, List.nodup_cons] at hnd
    rcases List.mem_cons.1 hp with rfl | hmem
    · have hnone : last_override getenv l p.2 = none := by
        apply last_override_eq_none
        intro r hr hrp
        exact absurd (hrp ▸ List.mem_map_of_mem Prod.snd hr) hnd.1
      simp [last_override, hnone]
    · have hq : q.2 ≠ p.2 := fun h => hnd.1 (h ▸ List.mem_map_of_mem Prod.snd hmem)
      simp only [last_override, ih hnd.2 hmem, hq, if_false]
      cases getenv p.1 <;> simp

theorem patching_names_nodup : (CODEPOINT_PATCHING.map Prod.fst).Nodup := by decide

theorem patching_slots_nodup : (CODEPOINT_PATCHING.map Prod.snd).Nodup := by decide

theorem patching_slots_in_range (t : Tables) (ht : t.same_shape) :
    ∀ p ∈ CODEPOINT_PATCHING, t.in_range p.2 := by
  have h0 : ∀ p ∈ CODEPOINT_PATCHING, initial_tables.in_range p.2 := by decide
  intro p hp
  have h := h0 p hp
  obtain ⟨hg, hs⟩ := ht
  cases hps : p.2 <;> simp only [hps, Tables.in_range, initial_tables] at h ⊢ <;> omega

theorem load_patched (getenv : Environment) (t : Tables) (ht : t.same_shape)
    (p : String × Slot) (hp : p ∈ CODEPOINT_PATCHING) :
    (oqs_patch_codepoints getenv t).2.load p.2 =
      ((getenv p.1).map (fun x => to_uint (atoi x))).getD (t.load p.2) := by
  simp only [oqs_patch_codepoints, load_patch, patching_slots_in_range t ht p hp, if_true,
    last_override_of_mem getenv _ patching_slots_nodup p hp]

/-! ## Distinctness of the codepoints after patching -/

theorem group_slots_nodup :
    ((ifdef_blocks (fun _ => true) GROUP_NAMES).map GROUP_PARAMS.TLS_GROUP_ID).Nodup := by
  decide

theorem sigalg_slots_nodup :
    ((ifdef_blocks (fun _ => true) SIGALG_NAMES).map
      (fun e => Slot.code_point e.idx)).Nodup := by
  decide

theorem group_slots_patched :
    ∀ e ∈ ifdef_blocks (fun _ => true) GROUP_NAMES,
      ∃ p ∈ CODEPOINT_PATCHING, p.2 = e.TLS_GROUP_ID ∧ p.2.is_group = true := by
  decide

theorem sigalg_slots_patched :
    ∀ e ∈ ifdef_blocks (fun _ => true) SIGALG_NAMES,
      ∃ p ∈ CODEPOINT_PATCHING, p.2 = Slot.code_point e.idx ∧ p.2.is_group = false := by
  decide

theorem compiled_in_group_nodup :
    ((CODEPOINT_PATCHING.filter (fun p => p.2.is_group)).map
      (fun p => initial_tables.load p.2)).Nodup := by
  decide

theorem compiled_in_sigalg_nodup :
    ((CODEPOINT_PATCHING.filter (fun p => !p.2.is_group)).map
      (fun p => initial_tables.load p.2)).Nodup := by
  decide

theorem compiled_in_distinct :
    ∀ p ∈ CODEPOINT_PATCHING, ∀ q ∈ CODEPOINT_PATCHING, p.2.is_group = q.2.is_group →
      initial_tables.load p.2 = initial_tables.load q.2 → p = q := by
  intro p hp q hq hclass heq
  cases hg : p.2.is_group with
  | true =>
    exact List.inj_on_of_nodup_map compiled_in_group_nodup
      (List.mem_filter.2 ⟨hp, by simp [hg]⟩)
      (List.mem_filter.2 ⟨hq, by simp [← hclass, hg]⟩) heq
  | false =>
    exact List.inj_on_of_nodup_map compiled_in_sigalg_nodup
      (List.mem_filter.2 ⟨hp, by simp [hg]⟩)
      (List.mem_filter.2 ⟨hq, by simp [← hclass, hg]⟩) heq

theorem load_patched_initial (getenv : Environment) (p : String × Slot)
    (hp : p ∈ CODEPOINT_PATCHING) :
    (oqs_patch_codepoints getenv initial_tables).2.load p.2 = codepoint_in_force getenv p := by
  rw [load_patched getenv initial_tables (by decide) p hp, codepoint_in_force]
  cases getenv p.1 <;> rfl

theorem patched_load_injective (getenv : Environment)
    (hfresh : ∀ p ∈ CODEPOINT_PATCHING, ∀ q ∈ CODEPOINT_PATCHING, p ≠ q →
      p.2.is_group = q.2.is_group → (getenv p.1).isSome = true →
      codepoint_in_force getenv p ≠ codepoint_in_force getenv q) :
    ∀ p ∈ CODEPOINT_PATCHING, ∀ q ∈ CODEPOINT_PATCHING, p.2.is_group = q.2.is_group →
      (oqs_patch_codepoints getenv initial_tables).2.load p.2 =
        (oqs_patch_codepoints getenv initial_tables).2.load q.2 → p = q := by
  intro p hp q hq hclass heq
  rw [load_patched_initial getenv p hp, load_patched_initial getenv q hq] at heq
  by_contra hne
  cases hpv : getenv p.1 with
  | some x => exact hfresh p hp q hq hne hclass (by simp [hpv]) heq
  | none =>
    cases hqv : getenv q.1 with
    | some y =>
      exact hfresh q hq p hp (fun h => hne h.symm) hclass.symm (by simp [hqv]) heq.symm
    | none =>
      simp only [codepoint_in_force, hpv, hqv] at heq
      exact hne (compiled_in_distinct p hp q hq hclass heq)

/-! ## The dispatcher -/

theorem dispatch_group {σ : Type} (defined : String → Bool) (t : Tables) (capability : String)
    (cb : OSSL_CALLBACK σ) (arg : σ) (h : same_ignoring_case capability "TLS-GROUP") :
    oqs_provider_get_capabilities defined t capability cb arg =
      some (capability_loop cb (group_records defined t) arg) := by
  have hc : is_c_string capability :=
    is_c_string_of_same_ignoring_case _ _ h (by decide)
  have h0 : strcasecmp capability.data "TLS-GROUP".data = 0 :=
    (strcasecmp_eq_zero_iff _ _ hc (by decide)).2 h
  simp [oqs_provider_get_capabilities, oqs_group_capability, h0]

theorem dispatch_sigalg {σ : Type} (defined : String → Bool) (t : Tables) (capability : String)
    (cb : OSSL_CALLBACK σ) (arg : σ) (hd : defined "OSSL_CAPABILITY_TLS_SIGALG_NAME" = true)
    (h : same_ignoring_case capability "TLS-SIGALG") :
    oqs_provider_get_capabilities defined t capability cb arg =
      some (capability_loop cb (sigalg_records defined t) arg) := by
  have hc : is_c_string capability :=
    is_c_string_of_same_ignoring_case _ _ h (by decide)
  have h0 : strcasecmp capability.data "TLS-SIGALG".data = 0 :=
    (strcasecmp_eq_zero_iff _ _ hc (by decide)).2 h
  have hg : ¬ same_ignoring_case capability "TLS-GROUP" := by
    intro hg
    unfold same_ignoring_case at h hg
    rw [h] at hg
    exact absurd hg (by decide)
  have h1 : strcasecmp capability.data "TLS-GROUP".data ≠ 0 :=
    fun h1 => hg ((strcasecmp_eq_zero_iff _ _ hc (by decide)).1 h1)
  simp [oqs_provider_get_capabilities, oqs_sigalg_capability, h0, h1, hd,
    sigalg_assert_holds defined]

theorem dispatch_unknown {σ : Type} (defined : String → Bool) (t : Tables) (capability : String)
    (cb : OSSL_CALLBACK σ) (arg : σ) (hc : is_c_string capability)
    (hg : ¬ same_ignoring_case capability "TLS-GROUP")
    (hs : ¬ (defined "OSSL_CAPABILITY_TLS_SIGALG_NAME" = true
      ∧ same_ignoring_case capability "TLS-SIGALG")) :
    oqs_provider_get_capabilities defined t capability cb arg =
      some { ret := 0, arg := arg, calls := [] } := by
  have h1 : strcasecmp capability.data "TLS-GROUP".data ≠ 0 :=
    fun h1 => hg ((strcasecmp_eq_zero_iff _ _ hc (by decide)).1 h1)
  have h2 : ¬ (defined "OSSL_CAPABILITY_TLS_SIGALG_NAME" = true
      ∧ strcasecmp capability.data "TLS-SIGALG".data = 0) :=
    fun h2 => hs ⟨h2.1, (strcasecmp_eq_zero_iff _ _ hc (by decide)).1 h2.2⟩
  simp only [oqs_provider_get_capabilities, h1, if_false, Bool.and_eq_true, decide_eq_true_eq,
    h2]

/-! ## Builds, unset environments and unchanged fields -/

theorem ifdef_blocks_all {α : Type} (defined : String → Bool) (blocks : List (String × List α))
    (h : ∀ b ∈ blocks, defined b.1 = true) :
    ifdef_blocks defined blocks = ifdef_blocks (fun _ => true) blocks := by
  unfold ifdef_blocks
  induction blocks with
  | nil => rfl
  | cons b bs ih =>
    rw [List.flatMap_cons, List.flatMap_cons, ih (fun c hc => h c (List.mem_cons_of_mem _ hc))]
    simp [h b (List.mem_cons_self _ _)]

theorem mem_ifdef_blocks {α : Type} (defined : String → Bool) (blocks : List (String × List α))
    (e : α) :
    e ∈ ifdef_blocks defined blocks ↔ ∃ b ∈ blocks, defined b.1 = true ∧ e ∈ b.2 := by
  unfold ifdef_blocks
  simp only [List.mem_flatMap]
  constructor
  · rintro ⟨b, hb, he⟩
    by_cases hd : defined b.1 = true
    · exact ⟨b, hb, hd, by simpa [hd] using he⟩
    · simp [hd] at he
  · rintro ⟨b, hb, hd, he⟩
    exact ⟨b, hb, by simpa [hd] using he⟩

theorem mem_full_of_mem_ifdef_blocks {α : Type} (defined : String → Bool)
    (blocks : List (String × List α)) (e : α) (h : e ∈ ifdef_blocks defined blocks) :
    e ∈ ifdef_blocks (fun _ => true) blocks :=
  (ifdef_blocks_sublist defined blocks).subset h

theorem patch_unset (getenv : Environment) (t : Tables)
    (hunset : ∀ p ∈ CODEPOINT_PATCHING, getenv p.1 = none) :
    (oqs_patch_codepoints getenv t).2 = t := by
  apply tables_ext
  · simp only [oqs_patch_codepoints, frame_patch]
  · intro s
    simp only [oqs_patch_codepoints, load_patch]
    rw [last_override_eq_none _ _ s (fun p hp _ => hunset p hp)]
    simp

theorem group_row_patched (getenv : Environment) (t : Tables) (i : Nat) :
    let r' := (oqs_patch_codepoints getenv t).2.oqs_group_list.getD i default
    let r := t.oqs_group_list.getD i default
    r'.secbits = r.secbits ∧ r'.mintls = r.mintls ∧ r'.maxtls = r.maxtls ∧
      r'.mindtls = r.mindtls ∧ r'.maxdtls = r.maxdtls ∧ r'.is_kem = r.is_kem := by
  have hf := frame_patch getenv CODEPOINT_PATCHING t
  simp only [Tables.frame, Prod.mk.injEq] at hf
  have h := congrArg (fun l => l[i]?) hf.1
  simp only [List.getElem?_map] at h
  simp only [oqs_patch_codepoints, List.getD_eq_getElem?_getD]
  cases h1 : (List.foldl (patch_statement getenv) t CODEPOINT_PATCHING).oqs_group_list[i]? <;>
    cases h2 : t.oqs_group_list[i]? <;> simp [h1, h2] at h ⊢
  exact h

theorem sigalg_row_patched (getenv : Environment) (t : Tables) (i : Nat) :
    let r' := (oqs_patch_codepoints getenv t).2.oqs_sigalg_list.getD i default
    let r := t.oqs_sigalg_list.getD i default
    r'.secbits = r.secbits ∧ r'.mintls = r.mintls ∧ r'.maxtls = r.maxtls := by
  have hf := frame_patch getenv CODEPOINT_PATCHING t
  simp only [Tables.frame, Prod.mk.injEq] at hf
  have h := congrArg (fun l => l[i]?) hf.2
  simp only [List.getElem?_map] at h
  simp only [oqs_patch_codepoints, List.getD_eq_getElem?_getD]
  cases h1 : (List.foldl (patch_statement getenv) t CODEPOINT_PATCHING).oqs_sigalg_list[i]? <;>
    cases h2 : t.oqs_sigalg_list[i]? <;> simp [h1, h2] at h ⊢
  exact h

theorem patching_follows_the_records :
    CODEPOINT_PATCHING =
      (ifdef_blocks (fun _ => true) GROUP_NAMES).map
          (fun e => (override_variable e.TLS_GROUP_NAME, e.TLS_GROUP_ID)) ++
        (ifdef_blocks (fun _ => true) SIGALG_NAMES).map
          (fun e => (override_variable e.TLS_SIGALG_NAME, Slot.code_point e.idx)) := by
  decide

theorem accepting_callback_gets_all (recs : List OSSL_PARAMS) :
    (capability_loop (fun _ (u : Unit) => ((1 : Int), u)) recs ()).calls.map Prod.fst = recs := by
  induction recs with
  | nil => rfl
  | cons r rs ih => simp [capability_loop, ih]

theorem compiled_in_group_nonzero :
    ∀ e ∈ ifdef_blocks (fun _ => true) GROUP_NAMES, initial_tables.load e.TLS_GROUP_ID ≠ 0 := by
  decide

theorem strtol10_numeral_absent (s : String) (h : numeral_absent s = true) :
    strtol10 s.data = 0 := by
  unfold numeral_absent at h
  cases hd : s.data.dropWhile isspace with
  | nil => simp [strtol10, hd, digits_value]
  | cons c r =>
    rw [hd] at h
    simp only at h
    simp only [strtol10, hd]
    split
    · rename_i r' heq
      simp only [List.cons.injEq] at heq
      obtain ⟨hc, hr⟩ := heq
      subst hc hr
      cases r with
      | nil => simp [digits_value]
      | cons d r' =>
        simp only [true_or, if_true, Bool.not_eq_true'] at h
        simp [digits_value, h]
    · rename_i r' heq
      simp only [List.cons.injEq] at heq
      obtain ⟨hc, hr⟩ := heq
      subst hc hr
      cases r with
      | nil => simp [digits_value]
      | cons d r' =>
        simp only [or_true, if_true, Bool.not_eq_true'] at h
        simp [digits_value, h]
    · rename_i hminus hplus
      have hm : c ≠ '-' := fun hc => hminus r (by rw [hc])
      have hp : c ≠ '+' := fun hc => hplus r (by rw [hc])
      simp only [hm, hp, or_self, if_false, Bool.not_eq_true'] at h
      simp [digits_value, h]

theorem atoi_numeral_absent (s : String) (h : numeral_absent s = true) :
    to_uint (atoi s) = 0 := by
  unfold atoi
  rw [strtol10_numeral_absent s h]
  decide

theorem group_statement_of_record :
    ∀ e ∈ ifdef_blocks (fun _ => true) GROUP_NAMES,
      (override_variable e.TLS_GROUP_NAME, e.TLS_GROUP_ID) ∈ CODEPOINT_PATCHING := by
  intro e he
  rw [patching_follows_the_records]
  exact List.mem_append_left _ (List.mem_map_of_mem _ he)

theorem sigalg_statement_of_record :
    ∀ e ∈ ifdef_blocks (fun _ => true) SIGALG_NAMES,
      (override_variable e.TLS_SIGALG_NAME, Slot.code_point e.idx) ∈ CODEPOINT_PATCHING := by
  intro e he
  rw [patching_follows_the_records]
  exact List.mem_append_right _ (List.mem_map_of_mem _ he)

theorem hybrid_names_in_block :
    ∀ blk ∈ GROUP_NAMES, ∀ e ∈ blk.2,
      e.sb = (initial_tables.oqs_group_list.getD e.idx default).secbits ∧
      e.TLS_GROUP_ID.row = e.idx ∧
      (∀ b ∈ blk.2, b.TLS_GROUP_ID = Slot.group_id e.idx →
        (e.TLS_GROUP_ID = Slot.group_id_ecp_hyb e.idx →
          e.TLS_GROUP_NAME = ecp_partner e.sb ++ b.TLS_GROUP_NAME ∧
          e.TLS_GROUP_NAME_INTERNAL = ecp_partner e.sb ++ b.TLS_GROUP_NAME_INTERNAL ∧
          e.TLS_GROUP_ALG = ecp_partner e.sb ++ b.TLS_GROUP_ALG) ∧
        (e.TLS_GROUP_ID = Slot.group_id_ecx_hyb e.idx →
          e.TLS_GROUP_NAME = ecx_partner e.sb ++ b.TLS_GROUP_NAME ∧
          e.TLS_GROUP_NAME_INTERNAL = ecx_partner e.sb ++ b.TLS_GROUP_NAME_INTERNAL ∧
          e.TLS_GROUP_ALG = ecx_partner e.sb ++ b.TLS_GROUP_ALG)) ∧
      ∃ b ∈ blk.2, b.TLS_GROUP_ID = Slot.group_id e.idx := by
  decide

/-! ## Runs of the test harness -/

theorem test_result_of_honest_path (lib : Library) (kemalg_name : String)
    (henabled : lib.alg_is_enabled kemalg_name ≠ 0)
    (hdefault : lib.OSSL_PROVIDER_available "default" ≠ 0)
    (hkeygen : keygen_succeeds lib kemalg_name) (hencaps : encapsulation_succeeds lib)
    (hdecaps : decapsulation_succeeds lib) (hagree : secrets_agree lib) :
    (test_oqs_kems lib kemalg_name).1 =
      (if lib.EVP_PKEY_decapsulate_init 1 = 0 then 0
       else if memcmp_zero (lib.EVP_PKEY_encapsulate 1).secenc (tampered_decapsulation lib).secdec
          (tampered_decapsulation lib).seclen then 0 else 1) ∧
    Step.corrupt_ciphertext ∈ (test_oqs_kems lib kemalg_name).2.steps := by
  obtain ⟨hk1, hk2, hk3⟩ := hkeygen
  obtain ⟨he1, he2, he3, he4, he5, he6, he7⟩ := hencaps
  obtain ⟨hd1, hd2⟩ := hdecaps
  unfold secrets_agree at hagree
  unfold honest_decapsulation at hd2 hagree
  unfold tampered_decapsulation honest_decapsulation
  have h11 : (1 : Nat) &&& 1 = 1 := by decide
  have h10 : (1 : Nat) &&& 0 = 0 := by decide
  have h1n : ¬ ((1 : Nat) = 0) := by decide
  simp only [test_oqs_kems, keygen_chain, encaps_chain, tamper_chain, henabled, hdefault, hk1,
    hk2, hk3, he1, he2, he3, he4, he5, he6, he7, hd1, hd2, hagree, if_true, if_false,
    ne_eq, not_false_eq_true, not_true_eq_false, Bool.true_eq_false, Bool.false_eq_true, h11, h1n]
  by_cases hre : lib.EVP_PKEY_decapsulate_init 1 = 0
  · simp [hre, h10]
  · simp only [hre, if_false]
    split <;> simp [h10, h11]

theorem test_result_of_failed_honest_path (lib : Library) (kemalg_name : String)
    (henabled : lib.alg_is_enabled kemalg_name ≠ 0)
    (hdefault : lib.OSSL_PROVIDER_available "default" ≠ 0)
    (hfail : ¬ (keygen_succeeds lib kemalg_name ∧ encapsulation_succeeds lib ∧
      decapsulation_succeeds lib ∧ secrets_agree lib)) :
    (test_oqs_kems lib kemalg_name).1 = 0 ∧
    Step.corrupt_ciphertext ∉ (test_oqs_kems lib kemalg_name).2.steps ∧
    (test_oqs_kems lib kemalg_name).2.steps.count Step.EVP_PKEY_decapsulate ≤ 1 := by
  have h11 : (1 : Nat) &&& 1 = 1 := by decide
  have h10 : (1 : Nat) &&& 0 = 0 := by decide
  have h1n : ¬ ((1 : Nat) = 0) := by decide
  unfold keygen_succeeds encapsulation_succeeds decapsulation_succeeds secrets_agree
    honest_decapsulation at hfail
  by_cases c1 : lib.EVP_PKEY_CTX_new_from_name kemalg_name = true
  swap
  · simp [test_oqs_kems, keygen_chain, henabled, hdefault, c1, h10]
  by_cases c2 : lib.EVP_PKEY_keygen_init = 0
  · simp [test_oqs_kems, keygen_chain, henabled, hdefault, c1, c2, h10]
  by_cases c3 : lib.EVP_PKEY_generate = 0
  · simp [test_oqs_kems, keygen_chain, henabled, hdefault, c1, c2, c3, h10]
  by_cases c4 : lib.EVP_PKEY_CTX_new_from_pkey = true
  swap
  · simp [test_oqs_kems, keygen_chain, encaps_chain, henabled, hdefault, c1, c2, c3, c4, h10,
      h11]
  by_cases c5 : lib.EVP_PKEY_encapsulate_init = 0
  · simp [test_oqs_kems, keygen_chain, encaps_chain, henabled, hdefault, c1, c2, c3, c4, c5,
      h10, h11]
  by_cases c6 : (lib.EVP_PKEY_encapsulate 0).ret = 0
  · simp [test_oqs_kems, keygen_chain, encaps_chain, henabled, hdefault, c1, c2, c3, c4, c5,
      c6, h10, h11]
  by_cases c7 : lib.OPENSSL_malloc 0 (lib.EVP_PKEY_encapsulate 0).outlen = true
  swap
  · simp [test_oqs_kems, keygen_chain, encaps_chain, henabled, hdefault, c1, c2, c3, c4, c5,
      c6, c7, h10, h11]
  by_cases c8 : lib.OPENSSL_malloc 1 (lib.EVP_PKEY_encapsulate 0).seclen = true
  swap
  · simp [test_oqs_kems, keygen_chain, encaps_chain, henabled, hdefault, c1, c2, c3, c4, c5,
      c6, c7, c8, h10, h11]
  by_cases c9 : lib.OPENSSL_malloc 2 (lib.EVP_PKEY_encapsulate 0).seclen = true
  swap
  · simp [test_oqs_kems, keygen_chain, encaps_chain, henabled, hdefault, c1, c2, c3, c4, c5,
      c6, c7, c8, c9, h10, h11]
  by_cases c10 : (lib.EVP_PKEY_encapsulate 1).ret = 0
  · simp [test_oqs_kems, keygen_chain, encaps_chain, henabled, hdefault, c1, c2, c3, c4, c5,
      c6, c7, c8, c9, c10, h10, h11]
  by_cases c11 : lib.EVP_PKEY_decapsulate_init 0 = 0
  · simp [test_oqs_kems, keygen_chain, encaps_chain, henabled, hdefault, c1, c2, c3, c4, c5,
      c6, c7, c8, c9, c10, c11, h10, h11]
  by_cases c12 : (lib.EVP_PKEY_decapsulate 0 (lib.EVP_PKEY_encapsulate 1).out
      (lib.EVP_PKEY_encapsulate 1).outlen
      (memset (List.replicate (lib.EVP_PKEY_encapsulate 0).seclen 0) 0xff
        (lib.EVP_PKEY_encapsulate 0).seclen)
      (lib.EVP_PKEY_encapsulate 1).seclen).ret = 0
  · simp [test_oqs_kems, keygen_chain, encaps_chain, henabled, hdefault, c1, c2, c3, c4, c5,
      c6, c7, c8, c9, c10, c11, c12, h10, h11]
  have c13 : ¬ memcmp_zero (lib.EVP_PKEY_encapsulate 1).secenc
      (lib.EVP_PKEY_decapsulate 0 (lib.EVP_PKEY_encapsulate 1).out
        (lib.EVP_PKEY_encapsulate 1).outlen
        (memset (List.replicate (lib.EVP_PKEY_encapsulate 0).seclen 0) 0xff
          (lib.EVP_PKEY_encapsulate 0).seclen)
        (lib.EVP_PKEY_encapsulate 1).seclen).secdec
      (lib.EVP_PKEY_decapsulate 0 (lib.EVP_PKEY_encapsulate 1).out
        (lib.EVP_PKEY_encapsulate 1).outlen
        (memset (List.replicate (lib.EVP_PKEY_encapsulate 0).seclen 0) 0xff
          (lib.EVP_PKEY_encapsulate 0).seclen)
        (lib.EVP_PKEY_encapsulate 1).seclen).seclen = true :=
    fun h => hfail ⟨⟨c1, c2, c3⟩, ⟨c4, c5, c6, c7, c8, c9, c10⟩, ⟨c11, c12⟩, h⟩
  simp [test_oqs_kems, keygen_chain, encaps_chain, henabled, hdefault, c1, c2, c3, c4, c5,
    c6, c7, c8, c9, c10, c11, c12, c13, h10, h11]

theorem honest_path_of_tampered_return (lib : Library) (kemalg_name : String) (v : Int) :
    (keygen_succeeds lib kemalg_name → keygen_succeeds (lib.with_tampered_return v) kemalg_name) ∧
    (encapsulation_succeeds lib → encapsulation_succeeds (lib.with_tampered_return v)) ∧
    (decapsulation_succeeds lib → decapsulation_succeeds (lib.with_tampered_return v)) ∧
    (secrets_agree lib → secrets_agree (lib.with_tampered_return v)) ∧
    (tampered_decapsulation (lib.with_tampered_return v)).secdec =
      (tampered_decapsulation lib).secdec ∧
    (tampered_decapsulation (lib.with_tampered_return v)).seclen =
      (tampered_decapsulation lib).seclen := by
  simp [keygen_succeeds, encapsulation_succeeds, decapsulation_succeeds, secrets_agree,
    honest_decapsulation, tampered_decapsulation, Library.with_tampered_return]

theorem complement_ne (b : Nat) : complement b ≠ b := by
  unfold complement
  omega

set_option maxRecDepth 100000 in
theorem complement_eq_xor : ∀ b, b < 256 → complement b = b ^^^ 0xff := by
  decide

/-! ## Repeated queries, name lists and signed numerals -/

theorem ifdef_blocks_map {α β : Type} (defined : String → Bool) (f : α → β)
    (blocks : List (String × List α)) :
    ifdef_blocks defined (blocks.map (fun b => (b.1, b.2.map f))) =
      (ifdef_blocks defined blocks).map f := by
  unfold ifdef_blocks
  induction blocks with
  | nil => rfl
  | cons b bs ih =>
    simp only [List.map_cons, List.flatMap_cons, List.map_append, ih]
    by_cases hd : defined b.1 = true
    · simp [hd]
    · simp [hd]

theorem kem_cases_follow_group_names :
    KEM_CASES = GROUP_NAMES.map (fun b => (b.1, b.2.map GROUP_PARAMS.TLS_GROUP_NAME)) := by
  decide

theorem atoi_decimal_int (n : Int) (hlo : -(2 : Int) ^ 31 ≤ n) (hhi : n < 2 ^ 31) :
    atoi (toString n) = n := by
  cases n with
  | ofNat m =>
    have hm : m < 2 ^ 31 := by
      have : (m : Int) < 2 ^ 31 := hhi
      exact_mod_cast this
    exact atoi_decimal m hm
  | negSucc m =>
    have hs := toDigitsCore_spec (m + 1 + 1) (m + 1) (by omega)
    have hdata : (toString (Int.negSucc m)).data =
        '-' :: Nat.toDigitsCore 10 (m + 1 + 1) (m + 1) [] := rfl
    have hm : (m : Int) + 1 ≤ 2 ^ 31 := by
      have := hlo
      rw [Int.negSucc_eq] at this
      omega
    unfold atoi strtol10
    rw [hdata]
    have hsp : isspace '-' = false := by decide
    simp only [List.dropWhile_cons, hsp, hs.2]
    rw [Int.negSucc_eq]
    norm_num at hm ⊢
    omega

theorem group_indices_in_bounds :
    ∀ e ∈ ifdef_blocks (fun _ => true) GROUP_NAMES,
      e.idx < oqs_group_list.length ∧ initial_tables.in_range e.TLS_GROUP_ID := by
  decide

theorem sigalg_indices_in_bounds :
    ∀ e ∈ ifdef_blocks (fun _ => true) SIGALG_NAMES, e.idx < oqs_sigalg_list.length := by
  decide

theorem sigalg_tiering_in_block :
    ∀ blk ∈ SIGALG_NAMES, ∀ e ∈ blk.2,
      ((starts_with e.TLS_SIGALG_NAME "p256_" = true ∨
          starts_with e.TLS_SIGALG_NAME "rsa3072_" = true) →
        (initial_tables.oqs_sigalg_list.getD e.idx default).secbits = 128) ∧
      (starts_with e.TLS_SIGALG_NAME "p384_" = true →
        (initial_tables.oqs_sigalg_list.getD e.idx default).secbits = 192) ∧
      (starts_with e.TLS_SIGALG_NAME "p521_" = true →
        (initial_tables.oqs_sigalg_list.getD e.idx default).secbits = 256) ∧
      ∀ start ∈ ["p256_", "rsa3072_", "p384_", "p521_"],
        starts_with e.TLS_SIGALG_NAME start = true →
        ∃ b ∈ blk.2, e.TLS_SIGALG_NAME = start ++ b.TLS_SIGALG_NAME ∧
          (initial_tables.oqs_sigalg_list.getD e.idx default).secbits =
            (initial_tables.oqs_sigalg_list.getD b.idx default).secbits := by
  decide

/-! ## Queries with the arrays in memory -/

theorem requested_entries_read (defined : String → Bool) (t : Tables) (capability : String) :
    (requested_entries defined capability).map (PARAM_ENTRY.read t) =
      requested_records defined t capability := by
  unfold requested_entries requested_records
  split
  · simp [group_records, PARAM_ENTRY.read, Function.comp_def]
  · split
    · simp [sigalg_records, PARAM_ENTRY.read, Function.comp_def]
    · rfl

theorem provider_query_requested {σ : Type} (defined : String → Bool) (t : Tables)
    (capability : String) (cb : MEMORY_CALLBACK σ) (arg : σ) (hc : is_c_string capability) :
    ∃ r, provider_query defined t capability cb arg = some r ∧
      r.tables = (query_loop cb (requested_entries defined capability) t arg).tables ∧
      r.calls = (query_loop cb (requested_entries defined capability) t arg).calls := by
  unfold requested_entries
  by_cases hg : same_ignoring_case capability "TLS-GROUP"
  · have h0 : strcasecmp capability.data "TLS-GROUP".data = 0 :=
      (strcasecmp_eq_zero_iff _ _ hc (by decide)).2 hg
    rw [if_pos hg]
    exact ⟨_, by simp [provider_query, h0], rfl, rfl⟩
  · have h1 : strcasecmp capability.data "TLS-GROUP".data ≠ 0 :=
      fun h1 => hg ((strcasecmp_eq_zero_iff _ _ hc (by decide)).1 h1)
    rw [if_neg hg]
    by_cases hs : defined "OSSL_CAPABILITY_TLS_SIGALG_NAME" = true
        ∧ same_ignoring_case capability "TLS-SIGALG"
    · have h0 : strcasecmp capability.data "TLS-SIGALG".data = 0 :=
        (strcasecmp_eq_zero_iff _ _ hc (by decide)).2 hs.2
      rw [if_pos hs]
      exact ⟨_, by simp [provider_query, h0, h1, hs.1, sigalg_assert_holds defined], rfl, rfl⟩
    · have h2 : ¬ (defined "OSSL_CAPABILITY_TLS_SIGALG_NAME" = true
          ∧ strcasecmp capability.data "TLS-SIGALG".data = 0) :=
        fun h2 => hs ⟨h2.1, (strcasecmp_eq_zero_iff _ _ hc (by decide)).1 h2.2⟩
      rw [if_neg hs]
      refine ⟨{ ret := 0, arg := arg, tables := t, calls := [] }, ?_, rfl, rfl⟩
      simp only [provider_query, h1, if_false, Bool.and_eq_true, decide_eq_true_eq, h2]

theorem query_loop_of_reader {σ : Type} (cb : MEMORY_CALLBACK σ)
    (hread : ∀ e t arg, (cb e t arg).2.2 = t) (es : List PARAM_ENTRY) (t : Tables) (arg : σ) :
    (query_loop cb es t arg).tables = t ∧
    (query_loop cb es t arg).calls.map Prod.fst <+: es.map (PARAM_ENTRY.read t) := by
  induction es generalizing arg with
  | nil => simp [query_loop]
  | cons e es ih =>
    by_cases h0 : (cb e t arg).1 = 0
    · simp [query_loop, h0, hread]
    · have hrec := ih (cb e t arg).2.1
      simp only [query_loop, h0, if_false, hread, List.map_cons]
      exact ⟨hrec.1, (List.cons_prefix_cons).2 ⟨rfl, hrec.2⟩⟩

theorem query_loop_first {σ : Type} (cb : MEMORY_CALLBACK σ) (e : PARAM_ENTRY)
    (es : List PARAM_ENTRY) (t : Tables) (arg : σ) :
    ∃ rest, (query_loop cb (e :: es) t arg).calls = (e.read t, (cb e t arg).1) :: rest := by
  by_cases h : (cb e t arg).1 = 0
  · exact ⟨[], by simp [query_loop, h]⟩
  · exact ⟨(query_loop cb es (cb e t arg).2.2 (cb e t arg).2.1).calls, by simp [query_loop, h]⟩

theorem query_loop_reading_callback {σ : Type} (cb : OSSL_CALLBACK σ) (es : List PARAM_ENTRY)
    (t : Tables) (arg : σ) :
    query_loop (reading_callback cb) es t arg =
      { ret := (capability_loop cb (es.map (PARAM_ENTRY.read t)) arg).ret
        arg := (capability_loop cb (es.map (PARAM_ENTRY.read t)) arg).arg
        tables := t
        calls := (capability_loop cb (es.map (PARAM_ENTRY.read t)) arg).calls } := by
  induction es generalizing arg with
  | nil => rfl
  | cons e es ih =>
    by_cases h0 : (cb (e.read t) arg).1 = 0
    · simp [query_loop, capability_loop, reading_callback, h0]
    · have hrec := ih (cb (e.read t) arg).2
      simp only [query_loop, reading_callback, h0, if_false, List.map_cons, capability_loop]
      simp only [reading_callback] at hrec
      rw [hrec]

theorem provider_query_reading_callback {σ : Type} (defined : String → Bool) (t : Tables)
    (capability : String) (cb : OSSL_CALLBACK σ) (arg : σ) :
    provider_query defined t capability (reading_callback cb) arg =
      (oqs_provider_get_capabilities defined t capability cb arg).map
        (fun o => { ret := o.ret, arg := o.arg, tables := t, calls := o.calls }) := by
  unfold provider_query oqs_provider_get_capabilities oqs_group_capability
    oqs_sigalg_capability
  split
  · simp [query_loop_reading_callback, group_records, PARAM_ENTRY.read, Function.comp_def]
  · split
    · simp [sigalg_assert_holds defined, query_loop_reading_callback, sigalg_records,
        PARAM_ENTRY.read, Function.comp_def]
    · rfl

theorem kyber512_has_no_record_when_disabled :
    ∀ e ∈ oqs_param_group_list (fun s => s != "OQS_ENABLE_KEM_kyber_512"),
      e.TLS_GROUP_ID ≠ Slot.group_id 6 := by
  decide

/-! ## Claims -/

/-- C1: queried with "TLS-GROUP", the dispatcher hands the group records to the callback in the
order of `oqs_param_group_list`, as a prefix of the table in which no record occurs twice; it
returns 1 exactly when the callback answered non-zero for every record it was given, and when
the callback accepts every record it has been invoked once for each record of the table. -/
theorem tls_group_streams_in_table_order {σ : Type} (defined : String → Bool) (t : Tables)
    (cb : OSSL_CALLBACK σ) (arg : σ) :
    ∃ r, oqs_provider_get_capabilities defined t "TLS-GROUP" cb arg = some r ∧
      r.calls <+: cb_run cb (group_records defined t) arg ∧
      r.calls.map Prod.fst <+: group_records defined t ∧
      (r.calls.map Prod.fst).Nodup ∧
      (r.ret = 1 ↔ ∀ c ∈ r.calls, c.2 ≠ 0) ∧
      ((∀ c ∈ r.calls, c.2 ≠ 0) →
        r.calls.map Prod.fst = group_records defined t ∧
        r.calls.length = (oqs_param_group_list defined).length) := by
  refine ⟨_, dispatch_group defined t "TLS-GROUP" cb arg (by decide), ?_, ?_, ?_, ?_, ?_⟩
  · exact capability_loop_calls_initial cb _ arg
  · have h := (capability_loop_calls_initial cb (group_records defined t) arg).map Prod.fst
    rwa [cb_run_map_fst] at h
  · have h := (capability_loop_calls_initial cb (group_records defined t) arg).map Prod.fst
    rw [cb_run_map_fst] at h
    exact List.Nodup.sublist h.sublist (group_records_nodup defined t)
  · exact (capability_loop_ret cb _ arg).1
  · intro h
    have hall := capability_loop_all_accepted cb _ arg h
    constructor
    · rw [hall, cb_run_map_fst]
    · rw [hall, cb_run_length]; simp [group_records]

/-- C2: for a capability name that is neither "TLS-GROUP" nor "TLS-SIGALG" up to ASCII case, the
dispatcher returns 0, makes no invocation of the callback and leaves its state alone. -/
theorem unknown_capability_is_declined {σ : Type} (defined : String → Bool) (t : Tables)
    (capability : String) (cb : OSSL_CALLBACK σ) (arg : σ) (hc : is_c_string capability)
    (hg : ¬ same_ignoring_case capability "TLS-GROUP")
    (hs : ¬ same_ignoring_case capability "TLS-SIGALG") :
    ∃ r, oqs_provider_get_capabilities defined t capability cb arg = some r ∧
      r.ret = 0 ∧ r.calls = [] ∧ r.arg = arg :=
  ⟨_, dispatch_unknown defined t capability cb arg hc hg (fun h => hs h.2), rfl, rfl, rfl⟩

/-- Witness of C2 at the names "BOGUS", "" and "TLS-GROUPS". -/
theorem unknown_capability_is_declined_witness :
    (is_c_string "BOGUS" ∧ ¬ same_ignoring_case "BOGUS" "TLS-GROUP" ∧
      ¬ same_ignoring_case "BOGUS" "TLS-SIGALG" ∧
      ∃ r, oqs_provider_get_capabilities (fun _ => true) initial_tables "BOGUS"
          (fun _ (n : Nat) => ((1 : Int), n + 1)) 0 = some r ∧
        r.ret = 0 ∧ r.calls = [] ∧ r.arg = 0) ∧
    (∃ r, oqs_provider_get_capabilities (fun _ => true) initial_tables ""
          (fun _ (n : Nat) => ((1 : Int), n + 1)) 0 = some r ∧
        r.ret = 0 ∧ r.calls = [] ∧ r.arg = 0) ∧
    (∃ r, oqs_provider_get_capabilities (fun _ => true) initial_tables "TLS-GROUPS"
          (fun _ (n : Nat) => ((1 : Int), n + 1)) 0 = some r ∧
        r.ret = 0 ∧ r.calls = [] ∧ r.arg = 0) :=
  ⟨⟨by decide, by decide, by decide,
      unknown_capability_is_declined _ _ "BOGUS" _ _ (by decide) (by decide) (by decide)⟩,
    unknown_capability_is_declined _ _ "" _ _ (by decide) (by decide) (by decide),
    unknown_capability_is_declined _ _ "TLS-GROUPS" _ _ (by decide) (by decide) (by decide)⟩

/-- C3: if the callback answers 0 on its k-th invocation and non-zero on the k - 1 before it,
where k is at least 1 and at most the number of records of the requested class, then the
dispatcher makes exactly the first k invocations and returns 0. -/
theorem early_stop_at_first_rejection {σ : Type} (defined : String → Bool) (t : Tables)
    (capability : String) (cb : OSSL_CALLBACK σ) (arg : σ) (k : Nat) (hk : 1 ≤ k)
    (hle : k ≤ (requested_records defined t capability).length)
    (hzero : ((cb_run cb (requested_records defined t capability) arg).map Prod.snd)[k - 1]?
      = some 0)
    (hbefore : ∀ j, j < k - 1 →
      ((cb_run cb (requested_records defined t capability) arg).map Prod.snd)[j]? ≠ some 0) :
    ∃ r, oqs_provider_get_capabilities defined t capability cb arg = some r ∧
      r.calls.length = k ∧ r.ret = 0 ∧
      r.calls = (cb_run cb (requested_records defined t capability) arg).take k := by
  have hloop : oqs_provider_get_capabilities defined t capability cb arg =
      some (capability_loop cb (requested_records defined t capability) arg) := by
    unfold requested_records at hle ⊢
    by_cases hg : same_ignoring_case capability "TLS-GROUP"
    · rw [if_pos hg]; exact dispatch_group defined t capability cb arg hg
    · rw [if_neg hg] at hle ⊢
      by_cases hs : defined "OSSL_CAPABILITY_TLS_SIGALG_NAME" = true
          ∧ same_ignoring_case capability "TLS-SIGALG"
      · rw [if_pos hs]; exact dispatch_sigalg defined t capability cb arg hs.1 hs.2
      · rw [if_neg hs] at hle
        simp at hle
        omega
  have hstop := capability_loop_early_stop cb (requested_records defined t capability) arg k hk
    (by
      rw [List.getElem?_map] at hzero
      cases hp : (cb_run cb (requested_records defined t capability) arg)[k - 1]? with
      | none => simp [hp] at hzero
      | some p => exact ⟨p, rfl, by simpa [hp] using hzero⟩)
    (by
      intro j hj p hp h0
      apply hbefore j hj
      rw [List.getElem?_map, hp]
      simp [h0])
  refine ⟨_, hloop, ?_, hstop.2, hstop.1⟩
  rw [hstop.1, List.length_take, cb_run_length]
  omega

/-- Witness of C3 at k = 3: a callback counting its invocations and rejecting the third. -/
theorem early_stop_at_first_rejection_witness :
    1 ≤ 3 ∧ 3 ≤ (requested_records (fun _ => true) initial_tables "TLS-GROUP").length ∧
    ∃ r, oqs_provider_get_capabilities (fun _ => true) initial_tables "TLS-GROUP"
        (fun _ (n : Nat) => (if n = 2 then (0 : Int) else 1, n + 1)) 0 = some r ∧
      r.calls.length = 3 ∧ r.ret = 0 ∧
      r.calls = (cb_run (fun _ (n : Nat) => (if n = 2 then (0 : Int) else 1, n + 1))
        (requested_records (fun _ => true) initial_tables "TLS-GROUP") 0).take 3 :=
  ⟨by decide, by decide,
    early_stop_at_first_rejection (fun _ => true) initial_tables "TLS-GROUP"
      (fun _ (n : Nat) => (if n = 2 then (0 : Int) else 1, n + 1)) 0 3 (by decide) (by decide)
      (by decide) (by decide)⟩

/-- C4: the capability name is matched up to ASCII case. A name equal to "TLS-GROUP" up to case
is served exactly as "TLS-GROUP"; when `OSSL_CAPABILITY_TLS_SIGALG_NAME` is defined, a name equal
to "TLS-SIGALG" up to case is served exactly as "TLS-SIGALG": the records of
`oqs_param_sigalg_list` are handed over in table order, nothing is handed over after a
rejection, and the result is 1 exactly when every record handed over was accepted. -/
theorem capability_name_case_insensitive {σ : Type} (defined : String → Bool) (t : Tables)
    (capability : String) (cb : OSSL_CALLBACK σ) (arg : σ) :
    (same_ignoring_case capability "TLS-GROUP" →
      oqs_provider_get_capabilities defined t capability cb arg =
        oqs_provider_get_capabilities defined t "TLS-GROUP" cb arg) ∧
    (defined "OSSL_CAPABILITY_TLS_SIGALG_NAME" = true →
      same_ignoring_case capability "TLS-SIGALG" →
      oqs_provider_get_capabilities defined t capability cb arg =
        oqs_provider_get_capabilities defined t "TLS-SIGALG" cb arg ∧
      ∃ r, oqs_provider_get_capabilities defined t capability cb arg = some r ∧
        r.calls <+: cb_run cb (sigalg_records defined t) arg ∧
        r.calls.map Prod.fst <+: sigalg_records defined t ∧
        (∀ c ∈ r.calls.dropLast, c.2 ≠ 0) ∧
        (r.ret = 1 ↔ ∀ c ∈ r.calls, c.2 ≠ 0) ∧
        ((∀ c ∈ r.calls, c.2 ≠ 0) → r.calls.map Prod.fst = sigalg_records defined t)) := by
  constructor
  · intro h
    rw [dispatch_group defined t capability cb arg h,
      dispatch_group defined t "TLS-GROUP" cb arg (by decide)]
  · intro hd h
    refine ⟨?_, _, dispatch_sigalg defined t capability cb arg hd h, ?_, ?_, ?_, ?_, ?_⟩
    · rw [dispatch_sigalg defined t capability cb arg hd h,
        dispatch_sigalg defined t "TLS-SIGALG" cb arg hd (by decide)]
    · exact capability_loop_calls_initial cb _ arg
    · have h := (capability_loop_calls_initial cb (sigalg_records defined t) arg).map Prod.fst
      rwa [cb_run_map_fst] at h
    · exact capability_loop_stops cb _ arg
    · exact (capability_loop_ret cb _ arg).1
    · intro h
      rw [capability_loop_all_accepted cb _ arg h, cb_run_map_fst]

/-- Witness of C4 at the names "tls-group" and "tls-sigalg", with a callback that rejects the
second record it is given. -/
theorem capability_name_case_insensitive_witness :
    oqs_provider_get_capabilities (fun _ => true) initial_tables "tls-group"
        (fun _ (n : Nat) => (if n = 1 then (0 : Int) else 1, n + 1)) 0 =
      oqs_provider_get_capabilities (fun _ => true) initial_tables "TLS-GROUP"
        (fun _ (n : Nat) => (if n = 1 then (0 : Int) else 1, n + 1)) 0 ∧
    oqs_provider_get_capabilities (fun _ => true) initial_tables "tls-sigalg"
        (fun _ (n : Nat) => (if n = 1 then (0 : Int) else 1, n + 1)) 0 =
      oqs_provider_get_capabilities (fun _ => true) initial_tables "TLS-SIGALG"
        (fun _ (n : Nat) => (if n = 1 then (0 : Int) else 1, n + 1)) 0 :=
  ⟨(capability_name_case_insensitive (fun _ => true) initial_tables "tls-group"
      (fun _ (n : Nat) => (if n = 1 then (0 : Int) else 1, n + 1)) 0).1 (by decide),
    ((capability_name_case_insensitive (fun _ => true) initial_tables "tls-sigalg"
      (fun _ (n : Nat) => (if n = 1 then (0 : Int) else 1, n + 1)) 0).2 rfl (by decide)).1⟩

/-- C5: when the override variable of a codepoint slot is set to the decimal numeral of an
integer n with 0 ≤ n ≤ 2^31 - 1, the slot holds n after `oqs_patch_codepoints`. -/
theorem override_sets_slot (getenv : Environment) (t : Tables) (V : String) (s : Slot) (n : Nat)
    (hmem : (V, s) ∈ CODEPOINT_PATCHING) (ht : t.same_shape) (hn : n ≤ 2 ^ 31 - 1)
    (hV : getenv V = some (toString n)) :
    (oqs_patch_codepoints getenv t).2.load s = n := by
  have h := load_patched getenv t ht (V, s) hmem
  simp only [hV, Option.map_some', Option.getD_some] at h
  rw [h, atoi_decimal n (by omega), to_uint_natCast n (by omega)]

/-- Witness of C5: `OQS_CODEPOINT_P384_KYBER768` set to "4660". -/
theorem override_sets_slot_witness :
    ("OQS_CODEPOINT_P384_KYBER768", Slot.group_id_ecp_hyb 7) ∈ CODEPOINT_PATCHING ∧
    initial_tables.same_shape ∧ 4660 ≤ 2 ^ 31 - 1 ∧
    (oqs_patch_codepoints
      (fun v => if v = "OQS_CODEPOINT_P384_KYBER768" then some "4660" else none)
      initial_tables).2.load (Slot.group_id_ecp_hyb 7) = 4660 :=
  ⟨by decide, by decide, by decide,
    override_sets_slot
      (fun v => if v = "OQS_CODEPOINT_P384_KYBER768" then some "4660" else none)
      initial_tables "OQS_CODEPOINT_P384_KYBER768" (Slot.group_id_ecp_hyb 7) 4660
      (by decide) (by decide) (by decide) (by decide)⟩

/-- C6: `oqs_patch_codepoints` leaves a codepoint slot as it was unless an override variable
written to that slot is set, keeps the number of rows, and never changes the `secbits`,
`mintls`, `maxtls`, `mindtls`, `maxdtls` or `is_kem` field of any row. -/
theorem patch_leaves_the_rest (getenv : Environment) (t : Tables) :
    (∀ s, (∀ p ∈ CODEPOINT_PATCHING, p.2 = s → getenv p.1 = none) →
      (oqs_patch_codepoints getenv t).2.load s = t.load s) ∧
    (oqs_patch_codepoints getenv t).2.oqs_group_list.length = t.oqs_group_list.length ∧
    (oqs_patch_codepoints getenv t).2.oqs_sigalg_list.length = t.oqs_sigalg_list.length ∧
    (oqs_patch_codepoints getenv t).2.oqs_group_list.map
        (fun r => (r.secbits, r.mintls, r.maxtls, r.mindtls, r.maxdtls, r.is_kem)) =
      t.oqs_group_list.map
        (fun r => (r.secbits, r.mintls, r.maxtls, r.mindtls, r.maxdtls, r.is_kem)) ∧
    (oqs_patch_codepoints getenv t).2.oqs_sigalg_list.map
        (fun r => (r.secbits, r.mintls, r.maxtls)) =
      t.oqs_sigalg_list.map (fun r => (r.secbits, r.mintls, r.maxtls)) := by
  have hf := frame_patch getenv CODEPOINT_PATCHING t
  simp only [Tables.frame, Prod.mk.injEq] at hf
  refine ⟨?_, ?_, ?_, hf.1, hf.2⟩
  · intro s hs
    simp only [oqs_patch_codepoints, load_patch]
    rw [last_override_eq_none getenv _ s hs]
    simp
  · simpa using congrArg List.length hf.1
  · simpa using congrArg List.length hf.2

/-- Witness of C6: with only `OQS_CODEPOINT_KYBER512` set, the slot of kyber768 is unchanged. -/
theorem patch_leaves_the_rest_witness :
    (oqs_patch_codepoints (fun v => if v = "OQS_CODEPOINT_KYBER512" then some "7" else none)
      initial_tables).2.load (Slot.group_id 7) = initial_tables.load (Slot.group_id 7) :=
  (patch_leaves_the_rest (fun v => if v = "OQS_CODEPOINT_KYBER512" then some "7" else none)
    initial_tables).1 (Slot.group_id 7) (by decide)

/-- C7: if two environments differ at most in the override variable V, the tables produced by
`oqs_patch_codepoints` from the same starting tables agree on every codepoint slot that no
statement for V writes, and on every other field; the variable names read are pairwise
distinct, no two statements write the same slot, and V is written to at most one slot. -/
theorem override_isolation (env₁ env₂ : Environment) (V : String) (t : Tables)
    (h : ∀ W, W ≠ V → env₁ W = env₂ W) :
    (CODEPOINT_PATCHING.map Prod.fst).Nodup ∧
    (CODEPOINT_PATCHING.map Prod.snd).Nodup ∧
    (∀ s s', (V, s) ∈ CODEPOINT_PATCHING → (V, s') ∈ CODEPOINT_PATCHING → s = s') ∧
    (∀ s, (V, s) ∉ CODEPOINT_PATCHING →
      (oqs_patch_codepoints env₁ t).2.load s = (oqs_patch_codepoints env₂ t).2.load s) ∧
    (oqs_patch_codepoints env₁ t).2.frame = (oqs_patch_codepoints env₂ t).2.frame := by
  refine ⟨patching_names_nodup, patching_slots_nodup, ?_, ?_, ?_⟩
  · intro s s' hs hs'
    have := List.inj_on_of_nodup_map patching_names_nodup hs hs' rfl
    exact (Prod.mk.inj this).2
  · intro s hs
    simp only [oqs_patch_codepoints, load_patch]
    rw [last_override_congr env₁ env₂ _ s]
    intro p hp hps
    apply h
    rintro rfl
    exact hs (hps ▸ hp)
  · simp only [oqs_patch_codepoints, frame_patch]

/-- Witness of C7: setting `OQS_CODEPOINT_KYBER512` in an otherwise empty environment does not
change the codepoint of kyber768. -/
theorem override_isolation_witness :
    ("OQS_CODEPOINT_KYBER512", Slot.group_id 7) ∉ CODEPOINT_PATCHING ∧
    (oqs_patch_codepoints (fun _ => none) initial_tables).2.load (Slot.group_id 7) =
      (oqs_patch_codepoints
        (fun v => if v = "OQS_CODEPOINT_KYBER512" then some "7" else none)
        initial_tables).2.load (Slot.group_id 7) :=
  ⟨by decide,
    (override_isolation (fun _ => none)
      (fun v => if v = "OQS_CODEPOINT_KYBER512" then some "7" else none)
      "OQS_CODEPOINT_KYBER512" initial_tables
      (fun W hW => by simp [hW])).2.2.2.1 (Slot.group_id 7) (by decide)⟩

/-- C8: running `oqs_patch_codepoints` a second time in the same environment changes nothing,
whatever the starting tables. -/
theorem patch_idempotent (getenv : Environment) (t : Tables) :
    oqs_patch_codepoints getenv (oqs_patch_codepoints getenv t).2 =
      oqs_patch_codepoints getenv t := by
  simp only [oqs_patch_codepoints, Prod.mk.injEq, true_and]
  apply tables_ext
  · rw [frame_patch]
  · intro s
    simp only [load_patch, in_range_patch]
    by_cases hr : t.in_range s
    · simp only [hr, if_true]
      cases last_override getenv CODEPOINT_PATCHING s <;> simp
    · simp [hr]

/-- C9: in an environment that sets no override variable the tables stay as compiled in, and
there the 48 non-zero group codepoints of the 18 rows of `oqs_group_list` are pairwise distinct
and the 34 code points of `oqs_sigalg_list` are pairwise distinct. -/
theorem default_codepoints_distinct (getenv : Environment)
    (hunset : ∀ p ∈ CODEPOINT_PATCHING, getenv p.1 = none) :
    (oqs_patch_codepoints getenv initial_tables).2 = initial_tables ∧
    initial_tables.oqs_group_list.length = 18 ∧
    (initial_tables.group_codepoints.filter (fun c => c ≠ 0)).length = 48 ∧
    (initial_tables.group_codepoints.filter (fun c => c ≠ 0)).Nodup ∧
    initial_tables.sigalg_codepoints.length = 34 ∧
    initial_tables.sigalg_codepoints.Nodup := by
  refine ⟨?_, by decide, by decide, by decide, by decide, by decide⟩
  apply tables_ext
  · simp only [oqs_patch_codepoints, frame_patch]
  · intro s
    simp only [oqs_patch_codepoints, load_patch]
    rw [last_override_eq_none _ _ s (fun p hp _ => hunset p hp)]
    simp

/-- Witness of C9: an environment holding only `PATH`. -/
theorem default_codepoints_distinct_witness :
    (∀ p ∈ CODEPOINT_PATCHING, (fun v => if v = "PATH" then some "/bin" else none) p.1 = none) ∧
    (oqs_patch_codepoints (fun v => if v = "PATH" then some "/bin" else none)
      initial_tables).2 = initial_tables ∧
    (initial_tables.group_codepoints.filter (fun c => c ≠ 0)).Nodup ∧
    initial_tables.sigalg_codepoints.Nodup :=
  have h := default_codepoints_distinct
    (fun v => if v = "PATH" then some "/bin" else none) (by decide)
  ⟨by decide, h.1, h.2.2.2.1, h.2.2.2.2.2⟩

/-- Counterexample to C10: with `OQS_CODEPOINT_FRODO640AES` set to "513", the compiled-in
codepoint of frodo640shake, the group records of a build with every algorithm enabled no longer
report pairwise distinct codepoints. -/
theorem override_introduces_duplicate :
    ¬ (((group_records (fun _ => true)
          (oqs_patch_codepoints
            (fun v => if v = "OQS_CODEPOINT_FRODO640AES" then some "513" else none)
            initial_tables).2).map OSSL_PARAMS.codepoint).Nodup ∧
       ((sigalg_records (fun _ => true)
          (oqs_patch_codepoints
            (fun v => if v = "OQS_CODEPOINT_FRODO640AES" then some "513" else none)
            initial_tables).2).map OSSL_PARAMS.codepoint).Nodup) := by
  decide

/-- C10, amended: if every codepoint supplied by an override variable differs from the codepoint
in force (supplied or compiled in) for every other slot of the same class, then after
`oqs_patch_codepoints` on the compiled-in tables the codepoints reported by the emitted group
records are pairwise distinct, and so are those reported by the emitted signature records, in
every build. -/
theorem patched_codepoints_distinct (getenv : Environment) (defined : String → Bool)
    (hfresh : ∀ p ∈ CODEPOINT_PATCHING, ∀ q ∈ CODEPOINT_PATCHING, p ≠ q →
      p.2.is_group = q.2.is_group → (getenv p.1).isSome = true →
      codepoint_in_force getenv p ≠ codepoint_in_force getenv q) :
    ((group_records defined
        (oqs_patch_codepoints getenv initial_tables).2).map OSSL_PARAMS.codepoint).Nodup ∧
    ((sigalg_records defined
        (oqs_patch_codepoints getenv initial_tables).2).map OSSL_PARAMS.codepoint).Nodup := by
  have hinj := patched_load_injective getenv hfresh
  constructor
  · have hmap : (group_records defined
          (oqs_patch_codepoints getenv initial_tables).2).map OSSL_PARAMS.codepoint =
        (oqs_param_group_list defined).map
          (fun e => (oqs_patch_codepoints getenv initial_tables).2.load e.TLS_GROUP_ID) := by
      simp [group_records, OSSL_PARAMS.codepoint, GROUP_PARAMS.read, Function.comp_def]
    rw [hmap]
    refine List.Nodup.sublist ((ifdef_blocks_sublist defined GROUP_NAMES).map _) ?_
    refine List.Nodup.map_on ?_ group_slots_nodup.of_map
    intro e₁ h₁ e₂ h₂ heq
    obtain ⟨p, hp, hps, hpg⟩ := group_slots_patched e₁ h₁
    obtain ⟨q, hq, hqs, hqg⟩ := group_slots_patched e₂ h₂
    rw [← hps, ← hqs] at heq
    have hpq := hinj p hp q hq (by rw [hpg, hqg]) heq
    exact List.inj_on_of_nodup_map group_slots_nodup h₁ h₂ (by rw [← hps, ← hqs, hpq])
  · have hmap : (sigalg_records defined
          (oqs_patch_codepoints getenv initial_tables).2).map OSSL_PARAMS.codepoint =
        (oqs_param_sigalg_list defined).map
          (fun e => (oqs_patch_codepoints getenv initial_tables).2.load
            (Slot.code_point e.idx)) := by
      simp [sigalg_records, OSSL_PARAMS.codepoint, SIGALG_PARAMS.read, Function.comp_def]
    rw [hmap]
    refine List.Nodup.sublist ((ifdef_blocks_sublist defined SIGALG_NAMES).map _) ?_
    refine List.Nodup.map_on ?_ sigalg_slots_nodup.of_map
    intro e₁ h₁ e₂ h₂ heq
    obtain ⟨p, hp, hps, hpg⟩ := sigalg_slots_patched e₁ h₁
    obtain ⟨q, hq, hqs, hqg⟩ := sigalg_slots_patched e₂ h₂
    rw [← hps, ← hqs] at heq
    have hpq := hinj p hp q hq (by rw [hpg, hqg]) heq
    exact List.inj_on_of_nodup_map sigalg_slots_nodup h₁ h₂
      (by show Slot.code_point e₁.idx = Slot.code_point e₂.idx; rw [← hps, ← hqs, hpq])

/-- Witness of the amended C10: `OQS_CODEPOINT_FRODO640AES` set to "4660", a codepoint nothing
else uses. -/
theorem patched_codepoints_distinct_witness :
    ((group_records (fun _ => true)
        (oqs_patch_codepoints
          (fun v => if v = "OQS_CODEPOINT_FRODO640AES" then some "4660" else none)
          initial_tables).2).map OSSL_PARAMS.codepoint).Nodup ∧
    ((sigalg_records (fun _ => true)
        (oqs_patch_codepoints
          (fun v => if v = "OQS_CODEPOINT_FRODO640AES" then some "4660" else none)
          initial_tables).2).map OSSL_PARAMS.codepoint).Nodup :=
  patched_codepoints_distinct
    (fun v => if v = "OQS_CODEPOINT_FRODO640AES" then some "4660" else none)
    (fun _ => true)
    (by
      intro p hp q hq hne _ hset
      have hp1 : p.1 = "OQS_CODEPOINT_FRODO640AES" := by
        by_contra h
        simp [h] at hset
      have hq1 : q.1 ≠ "OQS_CODEPOINT_FRODO640AES" := fun hq1 =>
        hne (List.inj_on_of_nodup_map patching_names_nodup hp hq (hp1.trans hq1.symm))
      have hfree : ∀ r ∈ CODEPOINT_PATCHING, initial_tables.load r.2 ≠ 4660 := by decide
      have hval : to_uint (atoi "4660") = 4660 := by decide
      simp only [codepoint_in_force, hp1, hq1, if_true, if_false, hval]
      exact fun h => hfree q hq h.symm)

/-- C11: in a build with every algorithm enabled and an environment that sets no override
variable, an accepting callback is handed exactly the records of `oqs_param_group_list`; among
them, for every row i of `oqs_group_list`, exactly one reads `group_id` of row i, exactly one
reads `group_id_ecp_hyb` of row i if that field is non-zero and none otherwise, exactly one reads
`group_id_ecx_hyb` of row i if that field is non-zero and none otherwise, 48 records in all;
and the signature enumerator hands over exactly one record per row of `oqs_sigalg_list`, 34 in
all. -/
theorem completeness_of_full_build (defined : String → Bool) (getenv : Environment)
    (hkem : ∀ b ∈ GROUP_NAMES, defined b.1 = true)
    (hsig : ∀ b ∈ SIGALG_NAMES, defined b.1 = true)
    (hunset : ∀ p ∈ CODEPOINT_PATCHING, getenv p.1 = none) :
    (oqs_group_capability defined (oqs_patch_codepoints getenv initial_tables).2
        (fun _ (u : Unit) => ((1 : Int), u)) ()).calls.map Prod.fst =
      (oqs_param_group_list defined).map
        (fun e => OSSL_PARAMS.group (e.read (oqs_patch_codepoints getenv initial_tables).2)) ∧
    (∀ i, i < (oqs_patch_codepoints getenv initial_tables).2.oqs_group_list.length →
      (oqs_param_group_list defined).countP (fun e => e.TLS_GROUP_ID = Slot.group_id i) = 1 ∧
      (oqs_param_group_list defined).countP (fun e => e.TLS_GROUP_ID = Slot.group_id_ecp_hyb i) =
        (if (oqs_patch_codepoints getenv initial_tables).2.load (Slot.group_id_ecp_hyb i) ≠ 0
          then 1 else 0) ∧
      (oqs_param_group_list defined).countP (fun e => e.TLS_GROUP_ID = Slot.group_id_ecx_hyb i) =
        (if (oqs_patch_codepoints getenv initial_tables).2.load (Slot.group_id_ecx_hyb i) ≠ 0
          then 1 else 0)) ∧
    (oqs_param_group_list defined).length = 48 ∧
    (oqs_sigalg_capability defined (oqs_patch_codepoints getenv initial_tables).2
        (fun _ (u : Unit) => ((1 : Int), u)) ()).map (fun r => r.calls.map Prod.fst) =
      some ((oqs_param_sigalg_list defined).map
        (fun e => OSSL_PARAMS.sigalg (e.read (oqs_patch_codepoints getenv initial_tables).2))) ∧
    (∀ i, i < (oqs_patch_codepoints getenv initial_tables).2.oqs_sigalg_list.length →
      (oqs_param_sigalg_list defined).countP (fun e => e.idx = i) = 1) ∧
    (oqs_param_sigalg_list defined).length = 34 := by
  have hg : oqs_param_group_list defined = ifdef_blocks (fun _ => true) GROUP_NAMES :=
    ifdef_blocks_all defined GROUP_NAMES hkem
  have hs : oqs_param_sigalg_list defined = ifdef_blocks (fun _ => true) SIGALG_NAMES :=
    ifdef_blocks_all defined SIGALG_NAMES hsig
  rw [patch_unset getenv initial_tables hunset]
  refine ⟨?_, ?_, ?_, ?_, ?_, ?_⟩
  · exact accepting_callback_gets_all (group_records defined initial_tables)
  · rw [hg]; decide
  · rw [hg]; decide
  · simp only [oqs_sigalg_capability, sigalg_assert_holds defined, if_true, Option.map_some']
    exact congrArg some (accepting_callback_gets_all (sigalg_records defined initial_tables))
  · rw [hs]; decide
  · rw [hs]; decide

/-- Witness of C11: every preprocessor symbol defined, empty environment. -/
theorem completeness_of_full_build_witness :
    (oqs_param_group_list (fun _ => true)).length = 48 ∧
    (oqs_param_sigalg_list (fun _ => true)).length = 34 :=
  have h := completeness_of_full_build (fun _ => true) (fun _ => none)
    (by decide) (by decide) (by decide)
  ⟨h.2.2.1, h.2.2.2.2.2⟩

set_option maxRecDepth 20000 in
/-- Counterexample to C12: with `OQS_CODEPOINT_KYBER512` set to "0" the record kyber512 handed
to the callback reports group ID 0. -/
theorem override_can_emit_zero :
    ¬ ∀ r ∈ group_records (fun _ => true)
        (oqs_patch_codepoints (fun v => if v = "OQS_CODEPOINT_KYBER512" then some "0" else none)
          initial_tables).2, r.codepoint ≠ 0 := by
  decide

/-- C12, amended: in every build no record of `oqs_param_group_list` reads a slot whose
compiled-in value is the absent sentinel 0, and after `oqs_patch_codepoints` on the compiled-in
tables a record handed over by the group enumerator reports group ID 0 only if the override
variable of the very slot it reads is set to a string that `atoi` turns into 0. -/
theorem zero_only_by_override (defined : String → Bool) (getenv : Environment) :
    (∀ e ∈ oqs_param_group_list defined, initial_tables.load e.TLS_GROUP_ID ≠ 0) ∧
    (∀ e ∈ oqs_param_group_list defined,
      (OSSL_PARAMS.group (e.read (oqs_patch_codepoints getenv initial_tables).2)).codepoint = 0 →
      ∃ p ∈ CODEPOINT_PATCHING, p.2 = e.TLS_GROUP_ID ∧
        ∃ x, getenv p.1 = some x ∧ to_uint (atoi x) = 0) := by
  constructor
  · intro e he
    exact compiled_in_group_nonzero e (mem_full_of_mem_ifdef_blocks defined GROUP_NAMES e he)
  · intro e he hz
    have hfull := mem_full_of_mem_ifdef_blocks defined GROUP_NAMES e he
    obtain ⟨p, hp, hps, _⟩ := group_slots_patched e hfull
    refine ⟨p, hp, hps, ?_⟩
    simp only [OSSL_PARAMS.codepoint, GROUP_PARAMS.read] at hz
    rw [← hps, load_patched_initial getenv p hp, codepoint_in_force] at hz
    cases hv : getenv p.1 with
    | none =>
      rw [hv] at hz
      simp only at hz
      exact absurd (hps ▸ hz) (compiled_in_group_nonzero e hfull)
    | some x =>
      rw [hv] at hz
      exact ⟨x, rfl, hz⟩

/-- Counterexample to C13: with `OQS_CODEPOINT_KYBER512` set to "12abc", which is not a decimal
integer, the slot holds 12 and not 0. -/
theorem malformed_override_keeps_leading_numeral :
    (oqs_patch_codepoints (fun v => if v = "OQS_CODEPOINT_KYBER512" then some "12abc" else none)
      initial_tables).2.load (Slot.group_id 6) = 12 ∧
    (oqs_patch_codepoints (fun v => if v = "OQS_CODEPOINT_KYBER512" then some "12abc" else none)
      initial_tables).2.load (Slot.group_id 6) ≠ 0 := by
  decide

/-- C13, amended: when the override variable of a codepoint slot is set to a string x, the slot
holds the `atoi` of x converted to `unsigned int` after `oqs_patch_codepoints`; this is 0 for
every x that has no numeral at its start (no digit after leading white space and an optional
sign), such as "abc" or the empty string. -/
theorem malformed_override_without_numeral (getenv : Environment) (t : Tables) (V : String)
    (s : Slot) (x : String) (hmem : (V, s) ∈ CODEPOINT_PATCHING) (ht : t.same_shape)
    (hV : getenv V = some x) :
    (oqs_patch_codepoints getenv t).2.load s = to_uint (atoi x) ∧
    (numeral_absent x = true → (oqs_patch_codepoints getenv t).2.load s = 0) := by
  have h := load_patched getenv t ht (V, s) hmem
  simp only [hV, Option.map_some', Option.getD_some] at h
  exact ⟨h, fun hx => by rw [h, atoi_numeral_absent x hx]⟩

/-- Witness of the amended C13: `OQS_CODEPOINT_KYBER512` set to "abc". -/
theorem malformed_override_without_numeral_witness :
    numeral_absent "abc" = true ∧ numeral_absent "" = true ∧
    (oqs_patch_codepoints (fun v => if v = "OQS_CODEPOINT_KYBER512" then some "abc" else none)
      initial_tables).2.load (Slot.group_id 6) = 0 :=
  ⟨by decide, by decide,
    (malformed_override_without_numeral
      (fun v => if v = "OQS_CODEPOINT_KYBER512" then some "abc" else none)
      initial_tables "OQS_CODEPOINT_KYBER512" (Slot.group_id 6) "abc"
      (by decide) (by decide) (by decide)).2 (by decide)⟩

/-- Counterexample to C14: in a build with every algorithm but kyber_512 enabled,
`oqs_patch_codepoints` still reads `OQS_CODEPOINT_KYBER512` and writes `group_id` of row 6,
while no record of that build reads this slot: the variable belongs to no emitted record. -/
theorem disabled_algorithm_keeps_its_variable :
    ("OQS_CODEPOINT_KYBER512", Slot.group_id 6) ∈ CODEPOINT_PATCHING ∧
    (oqs_patch_codepoints (fun v => if v = "OQS_CODEPOINT_KYBER512" then some "7" else none)
      initial_tables).2.load (Slot.group_id 6) = 7 ∧
    ¬ ∀ p ∈ CODEPOINT_PATCHING,
      (∃ e ∈ oqs_param_group_list (fun s => s != "OQS_ENABLE_KEM_kyber_512"),
        p = (override_variable e.TLS_GROUP_NAME, e.TLS_GROUP_ID)) ∨
      (∃ e ∈ oqs_param_sigalg_list (fun s => s != "OQS_ENABLE_KEM_kyber_512"),
        p = (override_variable e.TLS_SIGALG_NAME, Slot.code_point e.idx)) := by
  refine ⟨by decide, by decide, ?_⟩
  intro h
  rcases h ("OQS_CODEPOINT_KYBER512", Slot.group_id 6) (by decide) with
    ⟨e, he, heq⟩ | ⟨e, _, heq⟩
  · exact kyber512_has_no_record_when_disabled e he (Prod.mk.inj heq).2.symm
  · exact absurd (Prod.mk.inj heq).2 (by simp)

/-- C14, amended: for every record of `oqs_param_group_list` and `oqs_param_sigalg_list`, in
every build, `oqs_patch_codepoints` has a statement that reads the variable "OQS_CODEPOINT_"
followed by the record's display name in upper case and writes the very field the record's
group-ID or code-point parameter points to, so that with the variable set to the decimal
numeral of n (0 ≤ n < 2^31) the record handed to the callback reports n. Conversely the
statements of `oqs_patch_codepoints`, which are the same in every build, are in order exactly
those of the group records followed by those of the signature records of the two tables with
every algorithm enabled, and none of them writes a slot compiled in as absent. -/
theorem override_naming_and_reflection (defined : String → Bool) (getenv : Environment)
    (t : Tables) (ht : t.same_shape) :
    (∀ e ∈ oqs_param_group_list defined,
      (override_variable e.TLS_GROUP_NAME, e.TLS_GROUP_ID) ∈ CODEPOINT_PATCHING ∧
      ∀ n, n < 2 ^ 31 → getenv (override_variable e.TLS_GROUP_NAME) = some (toString n) →
        (e.read (oqs_patch_codepoints getenv t).2).TLS_GROUP_ID = n) ∧
    (∀ e ∈ oqs_param_sigalg_list defined,
      (override_variable e.TLS_SIGALG_NAME, Slot.code_point e.idx) ∈ CODEPOINT_PATCHING ∧
      ∀ n, n < 2 ^ 31 → getenv (override_variable e.TLS_SIGALG_NAME) = some (toString n) →
        (e.read (oqs_patch_codepoints getenv t).2).TLS_SIGALG_CODE_POINT = n) ∧
    CODEPOINT_PATCHING =
      (oqs_param_group_list (fun _ => true)).map
          (fun e => (override_variable e.TLS_GROUP_NAME, e.TLS_GROUP_ID)) ++
        (oqs_param_sigalg_list (fun _ => true)).map
          (fun e => (override_variable e.TLS_SIGALG_NAME, Slot.code_point e.idx)) ∧
    (∀ p ∈ CODEPOINT_PATCHING, initial_tables.load p.2 ≠ 0) := by
  refine ⟨?_, ?_, patching_follows_the_records, by decide⟩
  · intro e he
    have hmem := group_statement_of_record e (mem_full_of_mem_ifdef_blocks defined _ e he)
    refine ⟨hmem, ?_⟩
    intro n hn hV
    have h := load_patched getenv t ht _ hmem
    simp only [hV, Option.map_some', Option.getD_some] at h
    simp only [GROUP_PARAMS.read]
    rw [h, atoi_decimal n hn, to_uint_natCast n (by omega)]
  · intro e he
    have hmem := sigalg_statement_of_record e (mem_full_of_mem_ifdef_blocks defined _ e he)
    refine ⟨hmem, ?_⟩
    intro n hn hV
    have h := load_patched getenv t ht _ hmem
    simp only [hV, Option.map_some', Option.getD_some] at h
    simp only [SIGALG_PARAMS.read]
    rw [h, atoi_decimal n hn, to_uint_natCast n (by omega)]

/-- Witness of C14: `OQS_CODEPOINT_X25519_KYBER512` set to "4660" shows in the record
x25519_kyber512. -/
theorem override_naming_and_reflection_witness :
    override_variable "x25519_kyber512" = "OQS_CODEPOINT_X25519_KYBER512" ∧
    OQS_GROUP_ENTRY_ECX "kyber512" "kyber512" "kyber512" 128 6 ∈
      oqs_param_group_list (fun _ => true) ∧
    ((OQS_GROUP_ENTRY_ECX "kyber512" "kyber512" "kyber512" 128 6).read
      (oqs_patch_codepoints
        (fun v => if v = "OQS_CODEPOINT_X25519_KYBER512" then some "4660" else none)
        initial_tables).2).TLS_GROUP_ID = 4660 :=
  ⟨by decide, by decide,
    ((override_naming_and_reflection (fun _ => true)
      (fun v => if v = "OQS_CODEPOINT_X25519_KYBER512" then some "4660" else none)
      initial_tables (by decide)).1
      (OQS_GROUP_ENTRY_ECX "kyber512" "kyber512" "kyber512" 128 6) (by decide)).2
      4660 (by decide) (by decide)⟩

/-- C15: in every build and for every environment, a record of `oqs_param_group_list` was built
with the security bits of the row of `oqs_group_list` it indexes; for an ECP hybrid record the
build also holds the pure record of the same row, and the group name, internal name and
algorithm name of the hybrid are those of the pure record prefixed with "p256_" if the row's
`secbits` is 128, "p384_" if it is 192 and "p521_" otherwise; for an ECX hybrid record the
prefix is "x25519_" if the row's `secbits` is 128 and "x448_" otherwise. -/
theorem hybrid_naming_follows_secbits (defined : String → Bool) (getenv : Environment) :
    ∀ e ∈ oqs_param_group_list defined, ∀ secbits,
      secbits = ((oqs_patch_codepoints getenv initial_tables).2.oqs_group_list.getD
        e.idx default).secbits →
      e.sb = secbits ∧
      (∀ i, e.TLS_GROUP_ID = Slot.group_id_ecp_hyb i →
        ∃ b ∈ oqs_param_group_list defined, b.TLS_GROUP_ID = Slot.group_id i ∧ b.idx = e.idx ∧
          e.TLS_GROUP_NAME = ecp_partner secbits ++ b.TLS_GROUP_NAME ∧
          e.TLS_GROUP_NAME_INTERNAL = ecp_partner secbits ++ b.TLS_GROUP_NAME_INTERNAL ∧
          e.TLS_GROUP_ALG = ecp_partner secbits ++ b.TLS_GROUP_ALG) ∧
      (∀ i, e.TLS_GROUP_ID = Slot.group_id_ecx_hyb i →
        ∃ b ∈ oqs_param_group_list defined, b.TLS_GROUP_ID = Slot.group_id i ∧ b.idx = e.idx ∧
          e.TLS_GROUP_NAME = ecx_partner secbits ++ b.TLS_GROUP_NAME ∧
          e.TLS_GROUP_NAME_INTERNAL = ecx_partner secbits ++ b.TLS_GROUP_NAME_INTERNAL ∧
          e.TLS_GROUP_ALG = ecx_partner secbits ++ b.TLS_GROUP_ALG) := by
  intro e he secbits hsec
  obtain ⟨blk, hblk, hdef, heb⟩ := (mem_ifdef_blocks defined GROUP_NAMES e).1 he
  obtain ⟨hsb, hrow, hnames, b, hb, hbid⟩ := hybrid_names_in_block blk hblk e heb
  have hbmem : b ∈ oqs_param_group_list defined :=
    (mem_ifdef_blocks defined GROUP_NAMES b).2 ⟨blk, hblk, hdef, hb⟩
  have hbrow : b.idx = e.idx := by
    have := (hybrid_names_in_block blk hblk b hb).2.1
    rw [hbid] at this
    exact this.symm
  have hsec' : secbits = e.sb := by
    rw [hsec, (group_row_patched getenv initial_tables e.idx).1, hsb]
  refine ⟨hsec'.symm, ?_, ?_⟩
  · intro i hi
    have hie : i = e.idx := by rw [hi] at hrow; exact hrow
    subst hie
    rw [hsec']
    exact ⟨b, hbmem, hbid, hbrow, (hnames b hb hbid).1 hi⟩
  · intro i hi
    have hie : i = e.idx := by rw [hi] at hrow; exact hrow
    subst hie
    rw [hsec']
    exact ⟨b, hbmem, hbid, hbrow, (hnames b hb hbid).2 hi⟩

/-- Witness of C15: the ECP hybrid of frodo976aes, a row of 192 security bits, is named
p384_frodo976aes. -/
theorem hybrid_naming_follows_secbits_witness :
    OQS_GROUP_ENTRY_ECP "frodo976aes" "frodo976aes" "frodo976aes" 192 2 ∈
      oqs_param_group_list (fun _ => true) ∧
    (OQS_GROUP_ENTRY_ECP "frodo976aes" "frodo976aes" "frodo976aes" 192 2).sb = 192 ∧
    ∃ b ∈ oqs_param_group_list (fun _ => true), b.TLS_GROUP_ID = Slot.group_id 2 ∧ b.idx = 2 ∧
      (OQS_GROUP_ENTRY_ECP "frodo976aes" "frodo976aes" "frodo976aes" 192 2).TLS_GROUP_NAME =
        ecp_partner 192 ++ b.TLS_GROUP_NAME ∧
      (OQS_GROUP_ENTRY_ECP "frodo976aes" "frodo976aes" "frodo976aes" 192 2).TLS_GROUP_NAME_INTERNAL
        = ecp_partner 192 ++ b.TLS_GROUP_NAME_INTERNAL ∧
      (OQS_GROUP_ENTRY_ECP "frodo976aes" "frodo976aes" "frodo976aes" 192 2).TLS_GROUP_ALG =
        ecp_partner 192 ++ b.TLS_GROUP_ALG :=
  have h := hybrid_naming_follows_secbits (fun _ => true) (fun _ => none)
    (OQS_GROUP_ENTRY_ECP "frodo976aes" "frodo976aes" "frodo976aes" 192 2) (by decide) 192
    (by decide)
  ⟨by decide, h.1, h.2.1 2 rfl⟩

/-- C16: for every environment, after `oqs_patch_codepoints` on the compiled-in tables every
row of `oqs_group_list` and of `oqs_sigalg_list` with `mintls` other than -1 and `maxtls` other
than 0 has `mintls ≤ maxtls`, and every row of `oqs_group_list` with `mindtls` other than -1 and
`maxdtls` other than 0 has `mindtls ≤ maxdtls`. In fact every row has `mintls` equal to
`TLS1_3_VERSION` and `maxtls` equal to 0, and every group row has `mindtls` equal to -1, so no
row has both bounds set. -/
theorem versions_are_monotone (getenv : Environment) :
    (∀ r ∈ (oqs_patch_codepoints getenv initial_tables).2.oqs_group_list,
      (r.mintls ≠ -1 → r.maxtls ≠ 0 → r.mintls ≤ r.maxtls) ∧
      (r.mindtls ≠ -1 → r.maxdtls ≠ 0 → r.mindtls ≤ r.maxdtls) ∧
      r.mintls = TLS1_3_VERSION ∧ r.maxtls = 0 ∧ r.mindtls = -1 ∧ r.maxdtls = -1) ∧
    (∀ r ∈ (oqs_patch_codepoints getenv initial_tables).2.oqs_sigalg_list,
      (r.mintls ≠ -1 → r.maxtls ≠ 0 → r.mintls ≤ r.maxtls) ∧
      r.mintls = TLS1_3_VERSION ∧ r.maxtls = 0) := by
  have hf := frame_patch getenv CODEPOINT_PATCHING initial_tables
  simp only [Tables.frame, Prod.mk.injEq] at hf
  have hg0 : ∀ x ∈ initial_tables.oqs_group_list.map
      (fun r => (r.secbits, r.mintls, r.maxtls, r.mindtls, r.maxdtls, r.is_kem)),
      x.2.1 = TLS1_3_VERSION ∧ x.2.2.1 = 0 ∧ x.2.2.2.1 = -1 ∧ x.2.2.2.2.1 = -1 := by decide
  have hs0 : ∀ x ∈ initial_tables.oqs_sigalg_list.map
      (fun r => (r.secbits, r.mintls, r.maxtls)),
      x.2.1 = TLS1_3_VERSION ∧ x.2.2 = 0 := by decide
  constructor
  · intro r hr
    have hx := hg0 _ (hf.1 ▸ List.mem_map_of_mem
      (fun r : OQS_GROUP_CONSTANTS =>
        (r.secbits, r.mintls, r.maxtls, r.mindtls, r.maxdtls, r.is_kem)) hr)
    simp only at hx
    obtain ⟨h1, h2, h3, h4⟩ := hx
    exact ⟨fun _ h => absurd h2 h, fun h _ => absurd h3 h, h1, h2, h3, h4⟩
  · intro r hr
    have hx := hs0 _ (hf.2 ▸ List.mem_map_of_mem
      (fun r : OQS_SIGALG_CONSTANTS => (r.secbits, r.mintls, r.maxtls)) hr)
    simp only at hx
    obtain ⟨h1, h2⟩ := hx
    exact ⟨fun _ h => absurd h2 h, h1, h2⟩

/-- C17: for every build, environment and row i, any two records of `oqs_param_group_list`
built for row i (the pure, the ECP hybrid and the ECX hybrid record, which read `group_id`,
`group_id_ecp_hyb` and `group_id_ecx_hyb` of row i) report the same security bits, minimum and
maximum TLS version, minimum and maximum DTLS version and is-KEM flag: those of row i. -/
theorem variants_share_metadata (defined : String → Bool) (getenv : Environment) (t : Tables)
    (i : Nat) :
    ∀ e ∈ oqs_param_group_list defined, e.TLS_GROUP_ID.row = i →
      (e.TLS_GROUP_ID = Slot.group_id i ∨ e.TLS_GROUP_ID = Slot.group_id_ecp_hyb i ∨
        e.TLS_GROUP_ID = Slot.group_id_ecx_hyb i) ∧
      (e.read (oqs_patch_codepoints getenv t).2).TLS_GROUP_SECURITY_BITS =
        (t.oqs_group_list.getD i default).secbits ∧
      (e.read (oqs_patch_codepoints getenv t).2).TLS_GROUP_MIN_TLS =
        (t.oqs_group_list.getD i default).mintls ∧
      (e.read (oqs_patch_codepoints getenv t).2).TLS_GROUP_MAX_TLS =
        (t.oqs_group_list.getD i default).maxtls ∧
      (e.read (oqs_patch_codepoints getenv t).2).TLS_GROUP_MIN_DTLS =
        (t.oqs_group_list.getD i default).mindtls ∧
      (e.read (oqs_patch_codepoints getenv t).2).TLS_GROUP_MAX_DTLS =
        (t.oqs_group_list.getD i default).maxdtls ∧
      (e.read (oqs_patch_codepoints getenv t).2).TLS_GROUP_IS_KEM =
        (t.oqs_group_list.getD i default).is_kem := by
  intro e he hrow
  obtain ⟨blk, hblk, _, heb⟩ := (mem_ifdef_blocks defined GROUP_NAMES e).1 he
  have hidx : e.idx = i := by
    rw [← hrow]; exact ((hybrid_names_in_block blk hblk e heb).2.1).symm
  have hr := group_row_patched getenv t i
  simp only at hr
  refine ⟨?_, ?_⟩
  · cases hs : e.TLS_GROUP_ID with
    | group_id j => rw [hs] at hrow; simp only [Slot.row] at hrow; simp [hrow]
    | group_id_ecp_hyb j => rw [hs] at hrow; simp only [Slot.row] at hrow; simp [hrow]
    | group_id_ecx_hyb j => rw [hs] at hrow; simp only [Slot.row] at hrow; simp [hrow]
    | code_point j =>
      obtain ⟨p, _, hps, hpg⟩ := group_slots_patched e
        (mem_full_of_mem_ifdef_blocks defined GROUP_NAMES e he)
      rw [hps, hs] at hpg
      simp [Slot.is_group] at hpg
  · simp only [GROUP_PARAMS.read, hidx]
    exact hr

/-- Witness of C17: the three records of row 6 (kyber512). -/
theorem variants_share_metadata_witness :
    ((OQS_GROUP_ENTRY "kyber512" "kyber512" "kyber512" 128 6).read
        (oqs_patch_codepoints (fun _ => none) initial_tables).2).TLS_GROUP_SECURITY_BITS = 128 ∧
    ((OQS_GROUP_ENTRY_ECP "kyber512" "kyber512" "kyber512" 128 6).read
        (oqs_patch_codepoints (fun _ => none) initial_tables).2).TLS_GROUP_SECURITY_BITS = 128 ∧
    ((OQS_GROUP_ENTRY_ECX "kyber512" "kyber512" "kyber512" 128 6).read
        (oqs_patch_codepoints (fun _ => none) initial_tables).2).TLS_GROUP_SECURITY_BITS = 128 :=
  ⟨(variants_share_metadata (fun _ => true) (fun _ => none) initial_tables 6
      (OQS_GROUP_ENTRY "kyber512" "kyber512" "kyber512" 128 6) (by decide) rfl).2.1,
    (variants_share_metadata (fun _ => true) (fun _ => none) initial_tables 6
      (OQS_GROUP_ENTRY_ECP "kyber512" "kyber512" "kyber512" 128 6) (by decide) rfl).2.1,
    (variants_share_metadata (fun _ => true) (fun _ => none) initial_tables 6
      (OQS_GROUP_ENTRY_ECX "kyber512" "kyber512" "kyber512" 128 6) (by decide) rfl).2.1⟩

/-- Counterexample to C18: every call of key generation, encapsulation and honest decapsulation
succeeds and the two secrets agree, but the second `EVP_PKEY_decapsulate_init` returns 0; then
`test_oqs_kems` returns 0 although the secret buffer differs from the encapsulated secret. -/
theorem tamper_phase_has_a_second_failure :
    keygen_succeeds (sample_library [1, 2, 3] [7, 8] 0) "kyber512" ∧
    encapsulation_succeeds (sample_library [1, 2, 3] [7, 8] 0) ∧
    decapsulation_succeeds (sample_library [1, 2, 3] [7, 8] 0) ∧
    secrets_agree (sample_library [1, 2, 3] [7, 8] 0) ∧
    (test_oqs_kems (sample_library [1, 2, 3] [7, 8] 0) "kyber512").1 = 0 ∧
    memcmp_zero (test_oqs_kems (sample_library [1, 2, 3] [7, 8] 0) "kyber512").2.secenc
      (test_oqs_kems (sample_library [1, 2, 3] [7, 8] 0) "kyber512").2.secdec
      (test_oqs_kems (sample_library [1, 2, 3] [7, 8] 0) "kyber512").2.seclen = false ∧
    memcmp_zero ((sample_library [1, 2, 3] [7, 8] 0).EVP_PKEY_encapsulate 1).secenc
      (tampered_decapsulation (sample_library [1, 2, 3] [7, 8] 0)).secdec
      (tampered_decapsulation (sample_library [1, 2, 3] [7, 8] 0)).seclen = false := by
  refine ⟨?_, ?_, ?_, ?_, ?_, ?_, ?_⟩
  · unfold keygen_succeeds; decide
  · unfold encapsulation_succeeds; decide
  · unfold decapsulation_succeeds; decide
  · unfold secrets_agree; decide
  · decide
  · decide
  · decide

/-- C18, amended: for an enabled variant with the default provider available, when key
generation, encapsulation and honest decapsulation succeed with equal secrets, `test_oqs_kems`
returns 0 exactly when the second `EVP_PKEY_decapsulate_init` returns 0 or the secret buffer
after decapsulating the corrupted ciphertext equals the encapsulated secret on `seclen` bytes,
and returns 1 otherwise; the return value of the tampered `EVP_PKEY_decapsulate` call has no
influence on the result. -/
theorem tamper_verdict (lib : Library) (kemalg_name : String)
    (henabled : lib.alg_is_enabled kemalg_name ≠ 0)
    (hdefault : lib.OSSL_PROVIDER_available "default" ≠ 0)
    (hkeygen : keygen_succeeds lib kemalg_name) (hencaps : encapsulation_succeeds lib)
    (hdecaps : decapsulation_succeeds lib) (hagree : secrets_agree lib) :
    ((test_oqs_kems lib kemalg_name).1 = 0 ↔
      lib.EVP_PKEY_decapsulate_init 1 = 0 ∨
      memcmp_zero (lib.EVP_PKEY_encapsulate 1).secenc (tampered_decapsulation lib).secdec
        (tampered_decapsulation lib).seclen = true) ∧
    ((test_oqs_kems lib kemalg_name).1 = 0 ∨ (test_oqs_kems lib kemalg_name).1 = 1) ∧
    (∀ v, (test_oqs_kems (lib.with_tampered_return v) kemalg_name).1 =
      (test_oqs_kems lib kemalg_name).1) := by
  have h := (test_result_of_honest_path lib kemalg_name henabled hdefault hkeygen hencaps
    hdecaps hagree).1
  refine ⟨?_, ?_, ?_⟩
  · rw [h]
    by_cases hre : lib.EVP_PKEY_decapsulate_init 1 = 0
    · simp [hre]
    · by_cases hm : memcmp_zero (lib.EVP_PKEY_encapsulate 1).secenc
        (tampered_decapsulation lib).secdec (tampered_decapsulation lib).seclen = true
      · simp [hre, hm]
      · simp [hre, hm]
  · rw [h]
    split
    · exact Or.inl rfl
    · split
      · exact Or.inl rfl
      · exact Or.inr rfl
  · intro v
    have ht := honest_path_of_tampered_return lib kemalg_name v
    have h' := (test_result_of_honest_path (lib.with_tampered_return v) kemalg_name henabled
      hdefault (ht.1 hkeygen) (ht.2.1 hencaps) (ht.2.2.1 hdecaps) (ht.2.2.2.1 hagree)).1
    rw [h', h, ht.2.2.2.2.1, ht.2.2.2.2.2]
    rfl

/-- Witness of the amended C18: every call succeeds and decapsulation of the corrupted
ciphertext fails, leaving the buffer as it was; the test passes. -/
theorem tamper_verdict_witness :
    (test_oqs_kems (sample_library [1, 2, 3] [7, 8] 1) "kyber512").1 = 1 ∧
    (tampered_decapsulation (sample_library [1, 2, 3] [7, 8] 1)).ret = 0 ∧
    ((test_oqs_kems (sample_library [1, 2, 3] [7, 8] 1) "kyber512").1 = 0 ↔
      (sample_library [1, 2, 3] [7, 8] 1).EVP_PKEY_decapsulate_init 1 = 0 ∨
      memcmp_zero ((sample_library [1, 2, 3] [7, 8] 1).EVP_PKEY_encapsulate 1).secenc
        (tampered_decapsulation (sample_library [1, 2, 3] [7, 8] 1)).secdec
        (tampered_decapsulation (sample_library [1, 2, 3] [7, 8] 1)).seclen = true) :=
  ⟨by decide, by decide,
    (tamper_verdict (sample_library [1, 2, 3] [7, 8] 1) "kyber512" (by decide) (by decide)
      (by unfold keygen_succeeds; decide) (by unfold encapsulation_succeeds; decide)
      (by unfold decapsulation_succeeds; decide) (by unfold secrets_agree; decide)).1⟩

/-- Counterexample to C19: on a ciphertext of length 1 the two assignments hit the same byte,
which is complemented twice; the ciphertext is left as it was. -/
theorem corruption_cancels_on_one_byte :
    [0x5a].length = 1 ∧ corrupt [0x5a] 1 = [0x5a] ∧
    (corrupt [0x5a] 1).getD 0 0 ≠ complement 0x5a := by
  decide

/-- C19, amended: for every ciphertext of length `outlen ≥ 2`, after the two assignments
`out[0] = ~out[0]` and `out[outlen - 1] = ~out[outlen - 1]` the first byte and the last byte are
each the bitwise complement of their original value, all other bytes are unchanged, and the
corrupted ciphertext differs from the original. -/
theorem corruption_step (out : List Nat) (outlen : Nat) (hlen : out.length = outlen)
    (h2 : 2 ≤ outlen) (hsize : outlen < 2 ^ 64) :
    (corrupt out outlen).length = outlen ∧
    (corrupt out outlen).getD 0 0 = complement (out.getD 0 0) ∧
    (corrupt out outlen).getD (outlen - 1) 0 = complement (out.getD (outlen - 1) 0) ∧
    (∀ i, 0 < i → i < outlen - 1 → (corrupt out outlen).getD i 0 = out.getD i 0) ∧
    corrupt out outlen ≠ out ∧
    (∀ b, b < 256 → complement b = b ^^^ 0xff) := by
  have hlast : (outlen + 2 ^ 64 - 1) % 2 ^ 64 = outlen - 1 := by
    norm_num at hsize ⊢
    omega
  have h0 : (corrupt out outlen).getD 0 0 = complement (out.getD 0 0) := by
    simp only [corrupt, hlast, List.getD_eq_getElem?_getD, List.getElem?_set]
    have hne : ¬ outlen - 1 = 0 := by omega
    have hpos : 0 < out.length := by omega
    simp [hne, hpos]
  refine ⟨?_, h0, ?_, ?_, ?_, complement_eq_xor⟩
  · simp [corrupt, hlen]
  · simp only [corrupt, hlast, List.getD_eq_getElem?_getD, List.getElem?_set]
    have hne : ¬ 0 = outlen - 1 := by omega
    have hlt : outlen - 1 < out.length := by omega
    simp [hne, hlt]
  · intro i hi hi'
    simp only [corrupt, hlast, List.getD_eq_getElem?_getD, List.getElem?_set]
    have h1 : ¬ outlen - 1 = i := by omega
    have h2 : ¬ 0 = i := by omega
    simp [h1, h2]
  · intro heq
    rw [heq] at h0
    exact complement_ne _ h0.symm

/-- Witness of the amended C19: a ciphertext of two bytes. -/
theorem corruption_step_witness :
    [0x5a, 0x01].length = 2 ∧ corrupt [0x5a, 0x01] 2 = [0xa5, 0xfe] ∧
    corrupt [0x5a, 0x01] 2 ≠ [0x5a, 0x01] :=
  ⟨rfl, by decide,
    (corruption_step [0x5a, 0x01] 2 rfl (by decide) (by decide)).2.2.2.2.1⟩

/-- Counterexample to C20: `EVP_PKEY_generate` reports failure with the return value -1 while
every other call succeeds; the `&&` chain takes -1 for success, `test_oqs_kems` returns 1 and
the ciphertext is corrupted. -/
theorem negative_return_is_taken_for_success :
    ({ sample_library [1, 2, 3] [7, 8] 1 with EVP_PKEY_generate := -1 } : Library).alg_is_enabled
      "kyber512" ≠ 0 ∧
    ({ sample_library [1, 2, 3] [7, 8] 1 with EVP_PKEY_generate := -1 } :
      Library).OSSL_PROVIDER_available "default" ≠ 0 ∧
    reports_failure
      ({ sample_library [1, 2, 3] [7, 8] 1 with EVP_PKEY_generate := -1 } :
        Library).EVP_PKEY_generate ∧
    (test_oqs_kems { sample_library [1, 2, 3] [7, 8] 1 with EVP_PKEY_generate := -1 }
      "kyber512").1 = 1 ∧
    Step.corrupt_ciphertext ∈
      (test_oqs_kems { sample_library [1, 2, 3] [7, 8] 1 with EVP_PKEY_generate := -1 }
        "kyber512").2.steps := by
  refine ⟨by decide, by decide, by decide, by decide, by decide⟩

/-- C20, amended: for an enabled variant with the default provider available, if a call of key
generation, encapsulation (the allocation of its buffers included) or decapsulation returns 0 or
NULL, or the decapsulated secret differs from the encapsulated secret within its `seclen` bytes,
then `test_oqs_kems` returns 0, the ciphertext is not corrupted and no second decapsulation is
made. -/
theorem honest_path_verdict (lib : Library) (kemalg_name : String)
    (henabled : lib.alg_is_enabled kemalg_name ≠ 0)
    (hdefault : lib.OSSL_PROVIDER_available "default" ≠ 0)
    (hfail : ¬ keygen_succeeds lib kemalg_name ∨ ¬ encapsulation_succeeds lib ∨
      ¬ decapsulation_succeeds lib ∨ ¬ secrets_agree lib) :
    (test_oqs_kems lib kemalg_name).1 = 0 ∧
    Step.corrupt_ciphertext ∉ (test_oqs_kems lib kemalg_name).2.steps ∧
    (test_oqs_kems lib kemalg_name).2.steps.count Step.EVP_PKEY_decapsulate ≤ 1 := by
  apply test_result_of_failed_honest_path lib kemalg_name henabled hdefault
  rintro ⟨h1, h2, h3, h4⟩
  rcases hfail with h | h | h | h
  · exact h h1
  · exact h h2
  · exact h h3
  · exact h h4

/-- Witness of C20: a library whose decapsulation returns a wrong secret for the honest
ciphertext. -/
theorem honest_path_verdict_witness :
    ¬ secrets_agree (sample_library [1, 2, 3] [7, 8] 1).with_honest_secret ∧
    (test_oqs_kems (sample_library [1, 2, 3] [7, 8] 1).with_honest_secret "kyber512").1 = 0 ∧
    Step.corrupt_ciphertext ∉
      (test_oqs_kems (sample_library [1, 2, 3] [7, 8] 1).with_honest_secret "kyber512").2.steps :=
  have h := honest_path_verdict (sample_library [1, 2, 3] [7, 8] 1).with_honest_secret
    "kyber512" (by decide) (by decide)
    (Or.inr (Or.inr (Or.inr (by unfold secrets_agree; decide))))
  ⟨by unfold secrets_agree; decide, h.1, h.2.1⟩

/-- C21: `oqs_patch_codepoints` returns 1 in every environment and from every state of the
tables, whatever the override values are (malformed, negative, duplicate or zero); it has no
other return value. -/
theorem patch_always_returns_one (getenv : Environment) (t : Tables) :
    (oqs_patch_codepoints getenv t).1 = 1 ∧
    (oqs_patch_codepoints
      (fun v => if v = "OQS_CODEPOINT_KYBER512" then some "abc"
        else if v = "OQS_CODEPOINT_KYBER768" then some "-7"
        else if v = "OQS_CODEPOINT_HQC128" then some "0"
        else if v = "OQS_CODEPOINT_HQC192" then some "0" else none) t).1 = 1 :=
  ⟨rfl, rfl⟩

/-- Counterexample to C22: a callback that stores 0 through the group-ID pointer of the records
it is handed. The "TLS-GROUP" query returns 1 and leaves `oqs_group_list[0].group_id` at 0
instead of 512, and a later "TLS-GROUP" query is handed a first record that reports 0. -/
theorem writing_callback_changes_the_registry :
    (provider_query (fun _ => true) initial_tables "TLS-GROUP" zeroing_callback ()).map
      (fun r => r.ret) = some 1 ∧
    initial_tables.load (Slot.group_id 0) = 512 ∧
    (provider_query (fun _ => true) initial_tables "TLS-GROUP" zeroing_callback ()).map
      (fun r => r.tables.load (Slot.group_id 0)) = some 0 ∧
    (provider_query (fun _ => true) initial_tables "TLS-GROUP" zeroing_callback ()).map
      (fun r => r.tables) ≠ some initial_tables ∧
    ((provider_query (fun _ => true) initial_tables "TLS-GROUP" zeroing_callback ()).bind
      (fun r => provider_query (fun _ => true) r.tables "TLS-GROUP"
        (reading_callback (fun _ (u : Unit) => ((0 : Int), u))) ())).map
      (fun r => r.calls.map (fun c => c.1.codepoint)) = some [0] ∧
    (provider_query (fun _ => true) initial_tables "TLS-GROUP"
      (reading_callback (fun _ (u : Unit) => ((0 : Int), u))) ()).map
      (fun r => r.calls.map (fun c => c.1.codepoint)) = some [512] := by
  refine ⟨by decide, by decide, by decide, by decide, by decide, by decide⟩

/-- C22, amended: a query whose callback does not store through the data pointers of the
records it is handed leaves `oqs_group_list` and `oqs_sigalg_list` as they were, whatever the
capability name and whatever the callback answers (an early stop included), and hands over an
initial part of the records of the class. A later query for the same capability starts again
from the first record, and if its callback does not store either it is served from the same
records and leaves the arrays as they were. For such callbacks the query is the
record-passing dispatcher `oqs_provider_get_capabilities`. -/
theorem query_leaves_tables_alone {σ : Type} (defined : String → Bool) (t : Tables)
    (capability : String) (cb : MEMORY_CALLBACK σ) (arg : σ) (hc : is_c_string capability)
    (hread : ∀ e t' a, (cb e t' a).2.2 = t') :
    (∃ r, provider_query defined t capability cb arg = some r ∧ r.tables = t ∧
      r.calls.map Prod.fst <+: requested_records defined t capability ∧
      ∀ (cb' : MEMORY_CALLBACK σ) (arg' : σ),
        ∃ r', provider_query defined r.tables capability cb' arg' = some r' ∧
          (∀ x xs, requested_entries defined capability = x :: xs →
            ∃ rest, r'.calls = (x.read t, (cb' x t arg').1) :: rest) ∧
          ((∀ e t' a, (cb' e t' a).2.2 = t') →
            r'.tables = t ∧
            r'.calls.map Prod.fst <+: requested_records defined t capability)) ∧
    (∀ (cb₀ : OSSL_CALLBACK σ),
      provider_query defined t capability (reading_callback cb₀) arg =
        (oqs_provider_get_capabilities defined t capability cb₀ arg).map
          (fun o => { ret := o.ret, arg := o.arg, tables := t, calls := o.calls })) := by
  refine ⟨?_, fun cb₀ => provider_query_reading_callback defined t capability cb₀ arg⟩
  obtain ⟨r, hr, htab, hcalls⟩ := provider_query_requested defined t capability cb arg hc
  have hloop := query_loop_of_reader cb hread (requested_entries defined capability) t arg
  have hrt : r.tables = t := by rw [htab]; exact hloop.1
  refine ⟨r, hr, hrt, ?_, ?_⟩
  · rw [hcalls, ← requested_entries_read]; exact hloop.2
  · intro cb' arg'
    rw [hrt]
    obtain ⟨r', hr', htab', hcalls'⟩ :=
      provider_query_requested defined t capability cb' arg' hc
    refine ⟨r', hr', ?_, ?_⟩
    · intro x xs hx
      rw [hcalls', hx]
      exact query_loop_first cb' x xs t arg'
    · intro hread'
      have hloop' := query_loop_of_reader cb' hread' (requested_entries defined capability) t
        arg'
      exact ⟨by rw [htab']; exact hloop'.1,
        by rw [hcalls', ← requested_entries_read]; exact hloop'.2⟩

/-- Witness of the amended C22: a "TLS-GROUP" query by a reading callback that stops at its
third record. -/
theorem query_leaves_tables_alone_witness :
    is_c_string "TLS-GROUP" ∧
    (provider_query (fun _ => true) initial_tables "TLS-GROUP"
      (reading_callback (fun _ (n : Nat) => (if n = 2 then (0 : Int) else 1, n + 1))) 0).map
      (fun r => (r.ret, r.arg, r.calls.length)) = some (0, 3, 3) ∧
    ∃ r, provider_query (fun _ => true) initial_tables "TLS-GROUP"
        (reading_callback (fun _ (n : Nat) => (if n = 2 then (0 : Int) else 1, n + 1))) 0
        = some r ∧ r.tables = initial_tables :=
  have h := (query_leaves_tables_alone (fun _ => true) initial_tables "TLS-GROUP"
    (reading_callback (fun _ (n : Nat) => (if n = 2 then (0 : Int) else 1, n + 1))) 0
    (by decide) (fun _ _ _ => rfl)).1
  ⟨by decide, by decide, h.elim fun r hr => ⟨r, hr.1, hr.2.1⟩⟩

/-- C23: in every build the names in `kemalg_names` of the test are, in the same order, the
group names of the records of `oqs_param_group_list`: per enabled algorithm the pure name, then
the ECP hybrid, then the ECX hybrid where there is one. -/
theorem harness_tests_what_is_advertised (defined : String → Bool) :
    kemalg_names defined =
      (oqs_param_group_list defined).map GROUP_PARAMS.TLS_GROUP_NAME := by
  unfold kemalg_names oqs_param_group_list
  rw [kem_cases_follow_group_names]
  exact ifdef_blocks_map defined GROUP_PARAMS.TLS_GROUP_NAME GROUP_NAMES

/-- C24: in every build every row index used by a record of `oqs_param_group_list` is below the
18 rows of `oqs_group_list`, every row index used by a record of `oqs_param_sigalg_list` is
below the 34 rows of `oqs_sigalg_list`, every slot written by `oqs_patch_codepoints` lies inside
its array, and the assertion of `oqs_sigalg_capability` holds. -/
theorem table_references_in_bounds (defined : String → Bool) :
    oqs_group_list.length = 18 ∧ oqs_sigalg_list.length = 34 ∧
    (∀ e ∈ oqs_param_group_list defined,
      e.idx < oqs_group_list.length ∧ e.TLS_GROUP_ID.row < oqs_group_list.length ∧
      initial_tables.in_range e.TLS_GROUP_ID) ∧
    (∀ e ∈ oqs_param_sigalg_list defined, e.idx < oqs_sigalg_list.length) ∧
    (∀ p ∈ CODEPOINT_PATCHING, initial_tables.in_range p.2) ∧
    (oqs_param_sigalg_list defined).length ≤ oqs_sigalg_list.length ∧
    (∀ (cb : OSSL_CALLBACK Unit) (t : Tables),
      oqs_sigalg_capability defined t cb () ≠ none) := by
  refine ⟨by decide, by decide, ?_, ?_, by decide, sigalg_assert_holds defined, ?_⟩
  · intro e he
    have hfull := mem_full_of_mem_ifdef_blocks defined GROUP_NAMES e he
    have h := group_indices_in_bounds e hfull
    obtain ⟨blk, hblk, _, heb⟩ := (mem_ifdef_blocks defined GROUP_NAMES e).1 he
    have hrow := (hybrid_names_in_block blk hblk e heb).2.1
    exact ⟨h.1, by rw [hrow]; exact h.1, h.2⟩
  · intro e he
    exact sigalg_indices_in_bounds e (mem_full_of_mem_ifdef_blocks defined SIGALG_NAMES e he)
  · intro cb t
    simp [oqs_sigalg_capability, sigalg_assert_holds defined]

/-- C25: when the override variable of a codepoint slot is set to the decimal numeral of an
integer n with -2^31 ≤ n < 2^31, the slot holds n mod 2^32 after `oqs_patch_codepoints`: there
is no range check, a negative value wraps around and a value above 65535 is kept. -/
theorem override_without_range_check (getenv : Environment) (t : Tables) (V : String)
    (s : Slot) (n : Int) (hmem : (V, s) ∈ CODEPOINT_PATCHING) (ht : t.same_shape)
    (hlo : -(2 : Int) ^ 31 ≤ n) (hhi : n < 2 ^ 31) (hV : getenv V = some (toString n)) :
    ((oqs_patch_codepoints getenv t).2.load s : Int) = n % 2 ^ 32 := by
  have h := load_patched getenv t ht (V, s) hmem
  simp only [hV, Option.map_some', Option.getD_some] at h
  rw [h, atoi_decimal_int n hlo hhi]
  unfold to_uint
  exact Int.toNat_of_nonneg (Int.emod_nonneg _ (by norm_num))

/-- Witness of C25: "-1" is stored as 4294967295 and "70000" as 70000. -/
theorem override_without_range_check_witness :
    toString (-1 : Int) = "-1" ∧ toString (70000 : Int) = "70000" ∧
    ((oqs_patch_codepoints (fun v => if v = "OQS_CODEPOINT_KYBER512" then some "-1" else none)
      initial_tables).2.load (Slot.group_id 6) : Int) = 4294967295 ∧
    ((oqs_patch_codepoints (fun v => if v = "OQS_CODEPOINT_KYBER512" then some "70000" else none)
      initial_tables).2.load (Slot.group_id 6) : Int) = 70000 :=
  ⟨by decide, by decide,
    (override_without_range_check
      (fun v => if v = "OQS_CODEPOINT_KYBER512" then some "-1" else none)
      initial_tables "OQS_CODEPOINT_KYBER512" (Slot.group_id 6) (-1)
      (by decide) (by decide) (by decide) (by decide) (by decide)).trans (by decide),
    (override_without_range_check
      (fun v => if v = "OQS_CODEPOINT_KYBER512" then some "70000" else none)
      initial_tables "OQS_CODEPOINT_KYBER512" (Slot.group_id 6) 70000
      (by decide) (by decide) (by decide) (by decide) (by decide)).trans (by decide)⟩

/-- C26: in every build and for every environment, a record of `oqs_param_sigalg_list` whose
name starts with "p256_" or "rsa3072_" indexes a row of `oqs_sigalg_list` with `secbits` 128,
one whose name starts with "p384_" a row with `secbits` 192, one whose name starts with "p521_"
a row with `secbits` 256; and for each such hybrid record the build holds the record of the
pure algorithm named after the prefix, whose row has the same `secbits`. -/
theorem signature_hybrids_follow_tiering (defined : String → Bool) (getenv : Environment) :
    ∀ e ∈ oqs_param_sigalg_list defined,
      ((starts_with e.TLS_SIGALG_NAME "p256_" = true ∨
          starts_with e.TLS_SIGALG_NAME "rsa3072_" = true) →
        (e.read (oqs_patch_codepoints getenv initial_tables).2).TLS_SIGALG_SECURITY_BITS
          = 128) ∧
      (starts_with e.TLS_SIGALG_NAME "p384_" = true →
        (e.read (oqs_patch_codepoints getenv initial_tables).2).TLS_SIGALG_SECURITY_BITS
          = 192) ∧
      (starts_with e.TLS_SIGALG_NAME "p521_" = true →
        (e.read (oqs_patch_codepoints getenv initial_tables).2).TLS_SIGALG_SECURITY_BITS
          = 256) ∧
      ∀ start ∈ ["p256_", "rsa3072_", "p384_", "p521_"],
        starts_with e.TLS_SIGALG_NAME start = true →
        ∃ b ∈ oqs_param_sigalg_list defined, e.TLS_SIGALG_NAME = start ++ b.TLS_SIGALG_NAME ∧
          (e.read (oqs_patch_codepoints getenv initial_tables).2).TLS_SIGALG_SECURITY_BITS =
            (b.read (oqs_patch_codepoints getenv initial_tables).2).TLS_SIGALG_SECURITY_BITS := by
  intro e he
  obtain ⟨blk, hblk, hdef, heb⟩ := (mem_ifdef_blocks defined SIGALG_NAMES e).1 he
  obtain ⟨h1, h2, h3, h4⟩ := sigalg_tiering_in_block blk hblk e heb
  have hsec : ∀ x : SIGALG_PARAMS,
      (x.read (oqs_patch_codepoints getenv initial_tables).2).TLS_SIGALG_SECURITY_BITS =
        (initial_tables.oqs_sigalg_list.getD x.idx default).secbits := fun x =>
    (sigalg_row_patched getenv initial_tables x.idx).1
  refine ⟨?_, ?_, ?_, ?_⟩
  · intro h; rw [hsec]; exact h1 h
  · intro h; rw [hsec]; exact h2 h
  · intro h; rw [hsec]; exact h3 h
  · intro start hstart h
    obtain ⟨b, hb, hname, hbits⟩ := h4 start hstart h
    exact ⟨b, (mem_ifdef_blocks defined SIGALG_NAMES b).2 ⟨blk, hblk, hdef, hb⟩, hname,
      by rw [hsec, hsec]; exact hbits⟩

/-- Witness of C26: the record p384_dilithium3 indexes a row of 192 security bits, as does
dilithium3. -/
theorem signature_hybrids_follow_tiering_witness :
    OQS_SIGALG_ENTRY "p384_dilithium3" "p384_dilithium3" "p384_dilithium3"
        "\"1.3.9999.2.7.3\"" 4 ∈ oqs_param_sigalg_list (fun _ => true) ∧
    starts_with "p384_dilithium3" "p384_" = true ∧
    ((OQS_SIGALG_ENTRY "p384_dilithium3" "p384_dilithium3" "p384_dilithium3"
        "\"1.3.9999.2.7.3\"" 4).read
      (oqs_patch_codepoints (fun _ => none) initial_tables).2).TLS_SIGALG_SECURITY_BITS = 192 :=
  ⟨by decide, by decide,
    (signature_hybrids_follow_tiering (fun _ => true) (fun _ => none)
      (OQS_SIGALG_ENTRY "p384_dilithium3" "p384_dilithium3" "p384_dilithium3"
        "\"1.3.9999.2.7.3\"" 4) (by decide)).2.1 (by decide)⟩

/-- C27: `test_oqs_kems` returns 1 without a single library call of key generation,
encapsulation or decapsulation (and without corrupting anything) when the algorithm is not
enabled, and also when it is enabled but the "default" provider is not available. -/
theorem harness_passes_vacuously (lib : Library) (kemalg_name : String) :
    (lib.alg_is_enabled kemalg_name = 0 →
      (test_oqs_kems lib kemalg_name).1 = 1 ∧ (test_oqs_kems lib kemalg_name).2.steps = []) ∧
    (lib.alg_is_enabled kemalg_name ≠ 0 → lib.OSSL_PROVIDER_available "default" = 0 →
      (test_oqs_kems lib kemalg_name).1 = 1 ∧ (test_oqs_kems lib kemalg_name).2.steps = []) := by
  constructor
  · intro h
    simp [test_oqs_kems, h]
  · intro h hd
    simp [test_oqs_kems, h, hd]

/-- Witness of C27: a library in which nothing is enabled, and one without default provider. -/
theorem harness_passes_vacuously_witness :
    (test_oqs_kems { sample_library [1, 2, 3] [7, 8] 1 with alg_is_enabled := fun _ => 0 }
      "kyber512").1 = 1 ∧
    (test_oqs_kems
      { sample_library [1, 2, 3] [7, 8] 1 with OSSL_PROVIDER_available := fun _ => 0 }
      "kyber512").2.steps = [] :=
  ⟨((harness_passes_vacuously
      { sample_library [1, 2, 3] [7, 8] 1 with alg_is_enabled := fun _ => 0 }
      "kyber512").1 rfl).1,
    ((harness_passes_vacuously
      { sample_library [1, 2, 3] [7, 8] 1 with OSSL_PROVIDER_available := fun _ => 0 }
      "kyber512").2 (by decide) rfl).2⟩

end OqsProvider
